import Mathlib

/-! Connection construction and storage core of the NEST kernel.

A shallow embedding of `nestkernel/connection_builder_manager.cpp` and
`nestkernel/connector_model_impl.h`.

Stateful member functions become functions from the manager state to an
`Outcome`: the state the call leaves behind together with either the returned
value or the exception that was thrown.  A C++ exception keeps every mutation
made before the `throw`, so the state is reported on both paths.

`std::vector` is a `List`; an access `v[ i ]` with `i` beyond the end (undefined
behaviour in C++) is reported as `Error.OutOfRange`.
-/

namespace Nest

/-! ## Basic types -/

abbrev index := Nat
abbrev thread := Nat
abbrev synindex := Nat
abbrev rport := Int
abbrev delay := Int

/-- The type `double_t`. The code only distinguishes NaN (the "not given"
sentinel of weight and delay) from the other values, which it hands on
unchanged; the other values are represented by integers in a fixed unit. -/
inductive double_t where
  | nan
  | val (x : Int)
  deriving DecidableEq, Repr

/-- The test `numerics::is_nan`. -/
def is_nan : double_t → Bool
  | .nan => true
  | .val _ => false

/-- The exceptions raised by the embedded code, and the two abnormal
terminations `assert( false )` and out-of-range vector access. -/
inductive Error where
  | BadDelay
  | BadParameter
  | BadProperty
  | TypeMismatch
  | IllegalConnection
  | UnknownSynapseType
  | OutOfRange
  | AssertionFailed
  deriving DecidableEq, Repr

/-- The state left by a call and its result. -/
structure Outcome (σ : Type) (α : Type) where
  state : σ
  result : Except Error α

/-- The part of `Node` read by the connection manager. -/
structure Node where
  get_gid : index
  has_proxies : Bool
  is_proxy : Bool
  get_thread : thread
  local_receiver : Bool
  get_local_device_id : index
  deriving DecidableEq, Repr

/-- Modelled from the spec: a `ConfigMap` value (the SLI datum types are not part
of the sources): a typed scalar, here a double or an integer. -/
inductive Datum where
  | double (x : double_t)
  | long (n : Int)
  deriving DecidableEq, Repr

/-- Modelled from the spec: `DictionaryDatum`, "a mapping of string keys to typed
scalar/array values". -/
abbrev Dictionary := List (String × Datum)

/-- The lookup `p->lookup( key )`. -/
def Dictionary.lookup (p : Dictionary) (key : String) : Option Datum :=
  (p.find? (fun e => e.1 == key)).map Prod.snd

/-- The test `p->known( key )`. -/
def Dictionary.known (p : Dictionary) (key : String) : Bool :=
  (Dictionary.lookup p key).isSome

/-- Modelled from the spec: `updateValue< double_t >( p, key, x )`: `none` when the
key is absent, the value when it is a double, `TypeMismatch` otherwise. -/
def updateValue_double (p : Dictionary) (key : String) : Except Error (Option double_t) :=
  match Dictionary.lookup p key with
  | none => .ok none
  | some (.double x) => .ok (some x)
  | some (.long _) => .error .TypeMismatch

/-- Modelled from the spec: `updateValue< long_t >( p, key, x )`. -/
def updateValue_long (p : Dictionary) (key : String) : Except Error (Option Int) :=
  match Dictionary.lookup p key with
  | none => .ok none
  | some (.long n) => .ok (some n)
  | some (.double _) => .error .TypeMismatch

/-- Modelled from the spec: a Connection Record (`ConnectionT` is not part of the
sources): "directed edge (source identifier, target node handle), synapse-type
tag, weight, delay, optional receptor index". The source identifier is kept in
the source table, not in the record. -/
structure Connection where
  target : index
  receptor : rport
  syn_id : synindex
  weight : double_t
  delay : double_t
  deriving DecidableEq, Repr

/-- Modelled from the spec: the Delay Validator of one thread (`delay_checker.h` is
not part of the sources): its window, whether the window was set by the user,
and the frozen flag. -/
structure DelayChecker where
  min_delay_ : delay
  max_delay_ : delay
  user_set_delay_extrema_ : Bool
  freeze_delay_update_ : Bool
  deriving DecidableEq, Repr

/-- The kernel services the embedded code calls and whose code is not part of
the sources; they are parameters of every definition below. -/
structure Kernel where
  /-- The value of `vp_manager.get_num_threads()`. -/
  num_threads : Nat
  /-- The value of `vp_manager.get_thread_id()`: the calling thread. -/
  thread_id : thread
  /-- The function `vp_manager.suggest_vp( gid )`. -/
  suggest_vp : index → Nat
  /-- The function `vp_manager.vp_to_thread( vp )`. -/
  vp_to_thread : Nat → thread
  /-- The function `node_manager.get_node( gid, tid )`. -/
  get_node : index → thread → Node
  /-- The function `node_manager.is_local_gid( gid )`. -/
  is_local_gid : index → Bool
  /-- The value of `simulation_manager.get_wfr_comm_interval()`. -/
  wfr_comm_interval : double_t
  /-- The default-constructed `DelayChecker()`. -/
  default_delay_checker : DelayChecker
  /-- The method `DelayChecker::assert_valid_delay_ms( delay )`: `none` when it
  throws `BadDelay`, otherwise the checker after the call. -/
  assert_valid_delay_ms : DelayChecker → double_t → Option DelayChecker
  /-- Whether `ConnectionT::check_connection( src, tgt, receptor_type, cp )`
  accepts the pair (it throws otherwise). -/
  check_connection : Connection → Node → Node → rport → Bool
  /-- The method `ConnectionT::set_status( p, cm )`: `none` when it throws. -/
  set_status : Connection → Dictionary → Option Connection

/-! ## Vectors -/

/-- The call `v.resize( n )` of `std::vector`, new slots holding `d`. -/
def vresize {α : Type} (v : List α) (n : Nat) (d : α) : List α :=
  if n ≤ v.length then v.take n else v ++ List.replicate (n - v.length) d

/-! ## The thread-local connector store (`HetConnector`) -/

/-- Modelled from the spec: `Connector< ConnectionT >` (`connector_base.h` is not
part of the sources): the homogeneous growable array of the records of one
synapse type. -/
structure Connector where
  syn_id : synindex
  C_ : List Connection
  deriving DecidableEq, Repr

/-- The call `vc->push_back( c )`. -/
def Connector.push_back (vc : Connector) (c : Connection) : Connector :=
  { vc with C_ := vc.C_ ++ [c] }

/-- Modelled from the spec: `HetConnector`, the vector of the connectors of one
entry point, one per synapse type. -/
abbrev HetConnector := List Connector

/-- Modelled from the spec: `HetConnector::find_synapse_index( syn_id )`: the
position of the connector of type `syn_id`, `none` standing for
`invalid_synindex`. -/
def find_synapse_index (hetconn : HetConnector) (syn_id : synindex) : Option Nat :=
  match hetconn with
  | [] => none
  | vc :: rest =>
    if vc.syn_id = syn_id then some 0
    else (find_synapse_index rest syn_id).map (· + 1)

/-- Modelled from the spec: `HetConnector::get_num_connections( syn_id )`: the
number of records of type `syn_id` in the store. -/
def HetConnector.get_num_connections (hetconn : HetConnector) (syn_id : synindex) : Nat :=
  match hetconn with
  | [] => 0
  | vc :: rest =>
    (if vc.syn_id = syn_id then vc.C_.length else 0)
      + HetConnector.get_num_connections rest syn_id

/-! ## `GenericConnectorModel` (connector_model_impl.h) -/

/-- The data members of `GenericConnectorModel< ConnectionT >` used by the
embedded methods. -/
structure GenericConnectorModel where
  default_connection_ : Connection
  receptor_type_ : rport
  default_delay_needs_check_ : Bool
  has_delay_ : Bool
  deriving DecidableEq, Repr

/-- What a method of the connector model leaves behind: the model, the delay
checker of the calling thread, and the result. -/
structure ModelOutcome (α : Type) where
  model : GenericConnectorModel
  checker : DelayChecker
  result : Except Error α

/-- `GenericConnectorModel::used_default_delay` (connector_model_impl.h:154-197). -/
def used_default_delay (K : Kernel) (cm : GenericConnectorModel) (dc : DelayChecker) :
    ModelOutcome Unit :=
  if cm.default_delay_needs_check_ then
    match K.assert_valid_delay_ms dc
        (if cm.has_delay_ then cm.default_connection_.delay else K.wfr_comm_interval) with
    | none => ⟨cm, dc, .error .BadDelay⟩
    | some dc1 => ⟨{ cm with default_delay_needs_check_ := false }, dc1, .ok ()⟩
  else
    ⟨cm, dc, .ok ()⟩

/-- `GenericConnectorModel::add_connection_5g_` (connector_model_impl.h:669-709).
`check_connection` either throws or binds the target and the receptor into the
record. A slot added by `resize` holds a null pointer until it is assigned at
the end of the function; the null pointer is represented by an empty connector
of the same type. -/
def add_connection_5g_ (K : Kernel) (src tgt : Node) (hetconn : HetConnector)
    (syn_id : synindex) (c : Connection) (receptor_type : rport) : Except Error HetConnector :=
  match find_synapse_index hetconn syn_id with
  | none =>
    if K.check_connection c src tgt receptor_type then
      let c1 : Connection := { c with target := tgt.get_gid, receptor := receptor_type }
      let conn : Connector := ⟨syn_id, []⟩
      let syn_index := hetconn.length
      let hetconn1 := vresize hetconn (syn_index + 1) ⟨syn_id, []⟩
      .ok (hetconn1.set syn_index (conn.push_back c1))
    else
      .error .IllegalConnection
  | some syn_index =>
    match hetconn[syn_index]? with
    | none => .error .OutOfRange
    | some conn =>
      if K.check_connection c src tgt receptor_type then
        let c1 : Connection := { c with target := tgt.get_gid, receptor := receptor_type }
        .ok (hetconn.set syn_index (conn.push_back c1))
      else
        .error .IllegalConnection

/-- The record built by `add_connection_5g` before it is checked: a copy of the
default connection, with `set_weight` and `set_delay` applied for the arguments
that are not NaN (connector_model_impl.h:264-273). -/
def new_connection (cm : GenericConnectorModel) (delay weight : double_t) : Connection :=
  let c := cm.default_connection_
  let c := if !is_nan weight then { c with weight := weight } else c
  if !is_nan delay then { c with delay := delay } else c

/-- `GenericConnectorModel::add_connection_5g` with explicit delay and weight
(connector_model_impl.h:252-280). -/
def add_connection_5g (K : Kernel) (cm : GenericConnectorModel) (dc : DelayChecker)
    (src tgt : Node) (hetconn : HetConnector) (syn_id : synindex) (delay weight : double_t) :
    ModelOutcome HetConnector :=
  let checked : Option DelayChecker :=
    if !is_nan delay then K.assert_valid_delay_ms dc delay else some dc
  match checked with
  | none => ⟨cm, dc, .error .BadDelay⟩
  | some dc1 =>
    let c := new_connection cm delay weight
    let used : ModelOutcome Unit :=
      if !is_nan delay then ⟨cm, dc1, .ok ()⟩ else used_default_delay K cm dc1
    match used.result with
    | .error e => ⟨used.model, used.checker, .error e⟩
    | .ok _ =>
      ⟨used.model, used.checker,
        add_connection_5g_ K src tgt hetconn syn_id c used.model.receptor_type_⟩

/-- The second half of the dictionary overload of `add_connection_5g`
(connector_model_impl.h:397-421): copy the default connection, apply the
dictionary, then weight and delay, read the receptor type into a local
variable and add the record. -/
def add_connection_5g_dict_tail (K : Kernel) (cm : GenericConnectorModel)
    (src tgt : Node) (hetconn : HetConnector) (syn_id : synindex) (p : Dictionary)
    (delay weight : double_t) : Except Error HetConnector :=
  let c := cm.default_connection_
  match (if !p.isEmpty then K.set_status c p else some c) with
  | none => .error .BadProperty
  | some c1 =>
    let c2 := if !is_nan weight then { c1 with weight := weight } else c1
    let c3 := if !is_nan delay then { c2 with delay := delay } else c2
    match updateValue_long p "receptor_type" with
    | .error e => .error e
    | .ok r =>
      let actual_receptor_type := r.getD cm.receptor_type_
      add_connection_5g_ K src tgt hetconn syn_id c3 actual_receptor_type

/-- `GenericConnectorModel::add_connection_5g` with a parameter dictionary
(connector_model_impl.h:368-422), compiled without `HAVE_MUSIC`. -/
def add_connection_5g_dict (K : Kernel) (cm : GenericConnectorModel) (dc : DelayChecker)
    (src tgt : Node) (hetconn : HetConnector) (syn_id : synindex) (p : Dictionary)
    (delay weight : double_t) : ModelOutcome HetConnector :=
  if !is_nan delay then
    match K.assert_valid_delay_ms dc delay with
    | none => ⟨cm, dc, .error .BadDelay⟩
    | some dc1 =>
      if Dictionary.known p "delay" then
        ⟨cm, dc1, .error .BadParameter⟩
      else
        ⟨cm, dc1, add_connection_5g_dict_tail K cm src tgt hetconn syn_id p delay weight⟩
  else
    match updateValue_double p "delay" with
    | .error e => ⟨cm, dc, .error e⟩
    | .ok (some delay1) =>
      match K.assert_valid_delay_ms dc delay1 with
      | none => ⟨cm, dc, .error .BadDelay⟩
      | some dc1 =>
        ⟨cm, dc1, add_connection_5g_dict_tail K cm src tgt hetconn syn_id p delay weight⟩
    | .ok none =>
      let used := used_default_delay K cm dc
      match used.result with
      | .error e => ⟨used.model, used.checker, .error e⟩
      | .ok _ =>
        ⟨used.model, used.checker,
          add_connection_5g_dict_tail K used.model src tgt hetconn syn_id p delay weight⟩

/-! ## The tables of the manager -/

/-- Modelled from the spec: the Source Index (`source_table.h` is not part of the
sources): "per (thread, synapse-type) ordered arrays mapping a local connection
position to the global identifier of its source node", `sources_[ tid ][ syn ]`,
and the flag read by `is_source_table_cleared()`. -/
structure SourceTable where
  sources_ : List (List (List index))
  is_cleared_ : Bool
  deriving DecidableEq, Repr

/-- Modelled from the spec: `SourceTable::initialize`: one empty table per worker
thread. -/
def SourceTable.init (n : Nat) : SourceTable :=
  ⟨List.replicate n [], false⟩

/-- Modelled from the spec: `SourceTable::finalize`: the index is released. -/
def SourceTable.finalize (_st : SourceTable) : SourceTable :=
  ⟨[], true⟩

/-- Modelled from the spec: `SourceTable::add_source( tid, syn, gid )`: the source
is appended to the array of `(tid, syn)` ("append-only during construction");
`none` when thread `tid` has no table. -/
def SourceTable.add_source (st : SourceTable) (tid : thread) (syn : synindex)
    (gid : index) : Option SourceTable :=
  match st.sources_[tid]? with
  | none => none
  | some row =>
    let row1 := if row.length ≤ syn then vresize row (syn + 1) [] else row
    some { st with sources_ := st.sources_.set tid (row1.set syn (row1.getD syn [] ++ [gid])) }

/-- The source identifiers recorded for `(tid, syn)`, in insertion order. -/
def SourceTable.get_sources (st : SourceTable) (tid : thread) (syn : synindex) : List index :=
  (st.sources_.getD tid []).getD syn []

/-- Modelled from the spec: the Target-Device Table (`target_table_devices.h` is
not part of the sources): per thread, the connections to devices, one store per
source node (addressed by the source's global identifier), and the connections
from devices, one store per sending device (addressed by its local device
id). -/
structure TargetTableDevices where
  target_to_devices_ : List (List HetConnector)
  target_from_devices_ : List (List HetConnector)
  deriving DecidableEq, Repr

/-- Modelled from the spec: `TargetTableDevices::initialize`: one empty to-device
and one empty from-device table per worker thread. -/
def TargetTableDevices.init (n : Nat) : TargetTableDevices :=
  ⟨List.replicate n [], List.replicate n []⟩

/-- Modelled from the spec: `TargetTableDevices::finalize`: all records are
released. -/
def TargetTableDevices.finalize (_t : TargetTableDevices) : TargetTableDevices :=
  ⟨[], []⟩

/-- The number of records of type `syn` in the stores of one row of a device
table. -/
def row_num_connections (row : List HetConnector) (syn : synindex) : Nat :=
  (row.map (fun h => HetConnector.get_num_connections h syn)).sum

/-- The number of records of type `syn` held for thread `tid` in the
Target-Device Table. -/
def TargetTableDevices.get_num_connections (t : TargetTableDevices) (tid : thread)
    (syn : synindex) : Nat :=
  row_num_connections (t.target_to_devices_.getD tid []) syn
    + row_num_connections (t.target_from_devices_.getD tid []) syn

/-! ## The manager state -/

/-- The data members of `ConnectionBuilderManager`, and `prototypes_`, the synapse
prototypes `prototypes_[ tid ][ syn ]` of the model manager, which
`add_connection_5g` modifies. -/
structure ConnectionBuilderManager where
  connections_5g_ : List HetConnector
  source_table_ : SourceTable
  target_table_devices_ : TargetTableDevices
  delay_checkers_ : List DelayChecker
  vv_num_connections_ : List (List Nat)
  min_delay_ : delay
  max_delay_ : delay
  prototypes_ : List (List GenericConnectorModel)
  deriving DecidableEq, Repr

abbrev Result (α : Type) := Outcome ConnectionBuilderManager α

/-- `ConnectionBuilderManager::initialize` (connection_builder_manager.cpp:72-95);
`initialize` is a reserved word of Lean. The member `target_table_`, which none
of the embedded functions reads, is left out of the state. -/
def initialize_manager (K : Kernel) (m : ConnectionBuilderManager) : ConnectionBuilderManager :=
  { m with
    connections_5g_ := (vresize m.connections_5g_ K.num_threads []).map (fun _ => [])
    source_table_ := SourceTable.init K.num_threads
    target_table_devices_ := TargetTableDevices.init K.num_threads
    delay_checkers_ := List.replicate K.num_threads K.default_delay_checker
    vv_num_connections_ := List.replicate K.num_threads []
    min_delay_ := 1
    max_delay_ := 1 }

/-- `ConnectionBuilderManager::delete_connections_5g_`
(connection_builder_manager.cpp:215-224). -/
def delete_connections_5g_ (m : ConnectionBuilderManager) : ConnectionBuilderManager :=
  { m with connections_5g_ := [] }

/-- `ConnectionBuilderManager::finalize` (connection_builder_manager.cpp:97-104). -/
def finalize (m : ConnectionBuilderManager) : ConnectionBuilderManager :=
  delete_connections_5g_
    { m with
      source_table_ := SourceTable.finalize m.source_table_
      target_table_devices_ := TargetTableDevices.finalize m.target_table_devices_ }

/-- The no-argument `ConnectionBuilderManager::get_num_connections`
(connection_builder_manager.cpp:1649-1659). -/
def get_num_connections (m : ConnectionBuilderManager) : Nat :=
  (m.vv_num_connections_.map List.sum).sum

/-- `ConnectionBuilderManager::get_num_connections( syn_id )`
(connection_builder_manager.cpp:1661-1675). -/
def get_num_connections_syn (m : ConnectionBuilderManager) (syn_id : synindex) : Nat :=
  (m.vv_num_connections_.map
    (fun row => if row.length > syn_id then row.getD syn_id 0 else 0)).sum

/-- The cached count `vv_num_connections_[ t ][ s ]`, 0 when absent. -/
def num_connections_at (m : ConnectionBuilderManager) (t : thread) (s : synindex) : Nat :=
  (m.vv_num_connections_.getD t []).getD s 0

/-- The counter update at the end of each primitive
(connection_builder_manager.cpp:580-584 and its five copies): resize the row of
`tid` when it is too short, then increment the entry of `syn`. -/
def increment_num_connections (vv : List (List Nat)) (tid : thread) (syn : index) :
    Option (List (List Nat)) :=
  match vv[tid]? with
  | none => none
  | some row =>
    let row1 := if row.length ≤ syn then vresize row (syn + 1) 0 else row
    some (vv.set tid (row1.set syn (row1.getD syn 0 + 1)))

/-! ## The low-level primitives -/

/-- A call of one of the two `add_connection_5g` overloads of a synapse
prototype, with everything but the prototype, the delay checker and the store
fixed. -/
abbrev Adder :=
  GenericConnectorModel → DelayChecker → HetConnector → ModelOutcome HetConnector

/-- The calls `model_manager.assert_valid_syn_id( syn )` and
`model_manager.get_synapse_prototype( syn, tid )` (the model manager is not part
of the sources; modelled from the spec, "UnknownSynapseType: registry miss"). -/
def get_synapse_prototype (m : ConnectionBuilderManager) (syn : synindex) (tid : thread) :
    Except Error GenericConnectorModel :=
  match m.prototypes_[tid]? with
  | none => .error .OutOfRange
  | some row =>
    match row[syn]? with
    | none => .error .UnknownSynapseType
    | some cm => .ok cm

/-- Write back the prototype `(tid, syn)` and the delay checker of the calling
thread after a method of the prototype has run. -/
def put_model (K : Kernel) (m : ConnectionBuilderManager) (tid : thread) (syn : synindex)
    (cm : GenericConnectorModel) (dc : DelayChecker) : ConnectionBuilderManager :=
  { m with
    prototypes_ := m.prototypes_.set tid ((m.prototypes_.getD tid []).set syn cm)
    delay_checkers_ := m.delay_checkers_.set K.thread_id dc }

/-- The body shared by the two overloads of `ConnectionBuilderManager::connect_`
(connection_builder_manager.cpp:564-609), which differ only in the
`add_connection_5g` overload they call. The prototype, the delay checker of the
calling thread (`get_delay_checker()`) and the store `connections_5g_[ tid ]`
are fetched first; the prototype and the checker are written back whether or
not the call of the prototype throws. -/
def connect_with (K : Kernel) (m : ConnectionBuilderManager) (s_gid : index) (tid : thread)
    (syn : index) (add : Adder) : Result Unit :=
  match get_synapse_prototype m syn tid with
  | .error e => ⟨m, .error e⟩
  | .ok cm =>
    match m.delay_checkers_[K.thread_id]?, m.connections_5g_[tid]? with
    | some dc, some hetconn =>
      let r := add cm dc hetconn
      let m1 := put_model K m tid syn r.model r.checker
      match r.result with
      | .error e => ⟨m1, .error e⟩
      | .ok hetconn1 =>
        let m2 := { m1 with connections_5g_ := m1.connections_5g_.set tid hetconn1 }
        match m2.source_table_.add_source tid syn s_gid with
        | none => ⟨m2, .error .OutOfRange⟩
        | some st =>
          let m3 := { m2 with source_table_ := st }
          match increment_num_connections m3.vv_num_connections_ tid syn with
          | none => ⟨m3, .error .OutOfRange⟩
          | some vv => ⟨{ m3 with vv_num_connections_ := vv }, .ok ()⟩
    | _, _ => ⟨m, .error .OutOfRange⟩

/-- Modelled from the spec: the insertion done by
`TargetTableDevices::add_connection_to_device` and `add_connection_from_device`
on the row of one thread: the record is created by the synapse prototype in the
store at position `key` of the row, which grows when `key` is new. -/
def add_connection_to_row (row : List HetConnector) (key : index)
    (cm : GenericConnectorModel) (dc : DelayChecker) (add : Adder) :
    ModelOutcome (List HetConnector) :=
  let row1 := if row.length ≤ key then vresize row (key + 1) [] else row
  let r := add cm dc (row1.getD key [])
  match r.result with
  | .error e => ⟨r.model, r.checker, .error e⟩
  | .ok hetconn1 => ⟨r.model, r.checker, .ok (row1.set key hetconn1)⟩

/-- The body shared by the two overloads of
`ConnectionBuilderManager::connect_to_device_`
(connection_builder_manager.cpp:611-654). -/
def connect_to_device_with (K : Kernel) (m : ConnectionBuilderManager) (s_gid : index)
    (tid : thread) (syn : index) (add : Adder) : Result Unit :=
  match get_synapse_prototype m syn tid with
  | .error e => ⟨m, .error e⟩
  | .ok cm =>
    match m.delay_checkers_[K.thread_id]?, m.target_table_devices_.target_to_devices_[tid]? with
    | some dc, some row =>
      let r := add_connection_to_row row s_gid cm dc add
      let m1 := put_model K m tid syn r.model r.checker
      match r.result with
      | .error e => ⟨m1, .error e⟩
      | .ok row1 =>
        let m2 := { m1 with target_table_devices_ :=
          { m1.target_table_devices_ with
            target_to_devices_ := m1.target_table_devices_.target_to_devices_.set tid row1 } }
        match increment_num_connections m2.vv_num_connections_ tid syn with
        | none => ⟨m2, .error .OutOfRange⟩
        | some vv => ⟨{ m2 with vv_num_connections_ := vv }, .ok ()⟩
    | _, _ => ⟨m, .error .OutOfRange⟩

/-- The body shared by the two overloads of
`ConnectionBuilderManager::connect_from_device_`
(connection_builder_manager.cpp:656-700); `ldid` is
`s.get_local_device_id()`. -/
def connect_from_device_with (K : Kernel) (m : ConnectionBuilderManager) (ldid : index)
    (tid : thread) (syn : index) (add : Adder) : Result Unit :=
  match get_synapse_prototype m syn tid with
  | .error e => ⟨m, .error e⟩
  | .ok cm =>
    match m.delay_checkers_[K.thread_id]?,
        m.target_table_devices_.target_from_devices_[tid]? with
    | some dc, some row =>
      let r := add_connection_to_row row ldid cm dc add
      let m1 := put_model K m tid syn r.model r.checker
      match r.result with
      | .error e => ⟨m1, .error e⟩
      | .ok row1 =>
        let m2 := { m1 with target_table_devices_ :=
          { m1.target_table_devices_ with
            target_from_devices_ := m1.target_table_devices_.target_from_devices_.set tid row1 } }
        match increment_num_connections m2.vv_num_connections_ tid syn with
        | none => ⟨m2, .error .OutOfRange⟩
        | some vv => ⟨{ m2 with vv_num_connections_ := vv }, .ok ()⟩
    | _, _ => ⟨m, .error .OutOfRange⟩

/-- `ConnectionBuilderManager::connect_( s, r, s_gid, tid, syn, d, w )`
(connection_builder_manager.cpp:564-585). -/
def connect_ (K : Kernel) (m : ConnectionBuilderManager) (s r : Node) (s_gid : index)
    (tid : thread) (syn : index) (d w : double_t) : Result Unit :=
  connect_with K m s_gid tid syn (fun cm dc h => add_connection_5g K cm dc s r h syn d w)

/-- `ConnectionBuilderManager::connect_( s, r, s_gid, tid, syn, p, d, w )`
(connection_builder_manager.cpp:587-609). -/
def connect_dict_ (K : Kernel) (m : ConnectionBuilderManager) (s r : Node) (s_gid : index)
    (tid : thread) (syn : index) (p : Dictionary) (d w : double_t) : Result Unit :=
  connect_with K m s_gid tid syn (fun cm dc h => add_connection_5g_dict K cm dc s r h syn p d w)

/-- `ConnectionBuilderManager::connect_to_device_( s, r, s_gid, tid, syn, d, w )`
(connection_builder_manager.cpp:611-631). -/
def connect_to_device_ (K : Kernel) (m : ConnectionBuilderManager) (s r : Node) (s_gid : index)
    (tid : thread) (syn : index) (d w : double_t) : Result Unit :=
  connect_to_device_with K m s_gid tid syn
    (fun cm dc h => add_connection_5g K cm dc s r h syn d w)

/-- `ConnectionBuilderManager::connect_to_device_( s, r, s_gid, tid, syn, p, d, w )`
(connection_builder_manager.cpp:633-654). -/
def connect_to_device_dict_ (K : Kernel) (m : ConnectionBuilderManager) (s r : Node)
    (s_gid : index) (tid : thread) (syn : index) (p : Dictionary) (d w : double_t) :
    Result Unit :=
  connect_to_device_with K m s_gid tid syn
    (fun cm dc h => add_connection_5g_dict K cm dc s r h syn p d w)

/-- `ConnectionBuilderManager::connect_from_device_( s, r, s_gid, tid, syn, d, w )`
(connection_builder_manager.cpp:656-677). -/
def connect_from_device_ (K : Kernel) (m : ConnectionBuilderManager) (s r : Node)
    (_s_gid : index) (tid : thread) (syn : index) (d w : double_t) : Result Unit :=
  connect_from_device_with K m s.get_local_device_id tid syn
    (fun cm dc h => add_connection_5g K cm dc s r h syn d w)

/-- `ConnectionBuilderManager::connect_from_device_( s, r, s_gid, tid, syn, p, d, w )`
(connection_builder_manager.cpp:679-700). -/
def connect_from_device_dict_ (K : Kernel) (m : ConnectionBuilderManager) (s r : Node)
    (_s_gid : index) (tid : thread) (syn : index) (p : Dictionary) (d w : double_t) :
    Result Unit :=
  connect_from_device_with K m s.get_local_device_id tid syn
    (fun cm dc h => add_connection_5g_dict K cm dc s r h syn p d w)

/-! ## Locality routing -/

/-- The branches of the `if`/`else if` chain shared by the three routing
overloads of `connect`. -/
inductive Route where
  | proxies_to_proxies
  | proxies_to_device
  | device_to_proxies
  | device_to_device
  | global_receiver
  | assert_false
  deriving DecidableEq, Repr

/-- The conditions of the chain, in the order of the source
(connection_builder_manager.cpp:355-404, 421-477, 500-555): the first
condition that holds selects the branch. -/
def connect_route (source_has_proxies target_has_proxies target_local_receiver : Bool) :
    Route :=
  if source_has_proxies && target_has_proxies then .proxies_to_proxies
  else if source_has_proxies && !target_has_proxies then .proxies_to_device
  else if !source_has_proxies && target_has_proxies then .device_to_proxies
  else if !source_has_proxies && !target_has_proxies then .device_to_device
  else if !target_has_proxies && !target_local_receiver then .global_receiver
  else .assert_false

/-- A loop `for ( thread tid = 0; tid < n_threads; ++tid ) body`, given the list
of the thread numbers still to visit; an exception ends the loop. -/
def for_threads (m : ConnectionBuilderManager) (tids : List thread)
    (body : ConnectionBuilderManager → thread → Result Unit) : Result Unit :=
  match tids with
  | [] => ⟨m, .ok ()⟩
  | tid :: rest =>
    match (body m tid).result with
    | .error e => ⟨(body m tid).state, .error e⟩
    | .ok _ => for_threads (body m tid).state rest body

/-- `ConnectionBuilderManager::connect( sgid, target, target_thread, syn, d, w )`
(connection_builder_manager.cpp:343-405). -/
def connect (K : Kernel) (m : ConnectionBuilderManager) (sgid : index) (target : Node)
    (target_thread : thread) (syn : index) (d w : double_t) : Result Unit :=
  let source := K.get_node sgid target_thread
  let tid := K.thread_id
  match connect_route source.has_proxies target.has_proxies target.local_receiver with
  | .proxies_to_proxies => connect_ K m source target sgid target_thread syn d w
  | .proxies_to_device =>
    if source.is_proxy || source.get_thread != tid then
      ⟨m, .ok ()⟩
    else
      connect_to_device_ K m source target sgid target_thread syn d w
  | .device_to_proxies => connect_from_device_ K m source target sgid target_thread syn d w
  | .device_to_device =>
    let target_thread1 := K.vp_to_thread (K.suggest_vp target.get_gid)
    if target_thread1 = tid then
      connect_from_device_ K m source target sgid target_thread1 syn d w
    else
      ⟨m, .ok ()⟩
  | .global_receiver =>
    if !source.has_proxies then
      ⟨m, .ok ()⟩
    else
      for_threads m (List.range K.num_threads) (fun m1 tid1 =>
        connect_ K m1 source (K.get_node target.get_gid tid1) sgid tid1 syn d w)
  | .assert_false => ⟨m, .error .AssertionFailed⟩

/-- `ConnectionBuilderManager::connect( sgid, target, target_thread, syn, params, d, w )`
(connection_builder_manager.cpp:409-478). -/
def connect_dict (K : Kernel) (m : ConnectionBuilderManager) (sgid : index) (target : Node)
    (target_thread : thread) (syn : index) (params : Dictionary) (d w : double_t) :
    Result Unit :=
  let source := K.get_node sgid target_thread
  match connect_route source.has_proxies target.has_proxies target.local_receiver with
  | .proxies_to_proxies => connect_dict_ K m source target sgid target_thread syn params d w
  | .proxies_to_device =>
    if source.is_proxy then
      ⟨m, .ok ()⟩
    else if source.get_thread != target_thread && source.has_proxies then
      connect_to_device_dict_ K m source (K.get_node target.get_gid source.get_thread) sgid
        source.get_thread syn params d w
    else
      connect_to_device_dict_ K m source target sgid target_thread syn params d w
  | .device_to_proxies =>
    connect_from_device_dict_ K m source target sgid target_thread syn params d w
  | .device_to_device =>
    let tid := K.thread_id
    let target_thread1 := K.vp_to_thread (K.suggest_vp target.get_gid)
    if target_thread1 = tid then
      connect_from_device_dict_ K m source target sgid target_thread1 syn params d w
    else
      ⟨m, .ok ()⟩
  | .global_receiver =>
    if !source.has_proxies then
      ⟨m, .ok ()⟩
    else
      for_threads m (List.range K.num_threads) (fun m1 tid1 =>
        connect_to_device_dict_ K m1 source (K.get_node target.get_gid tid1) sgid tid1 syn
          params d w)
  | .assert_false => ⟨m, .error .AssertionFailed⟩

/-- The end of the `bool` overload of `connect`: after the primitive has run,
`return true` (connection_builder_manager.cpp:557-558). -/
def returns_true (r : Result Unit) : Result Bool :=
  ⟨r.state, r.result.map (fun _ => true)⟩

/-- `ConnectionBuilderManager::connect( sgid, tgid, params, syn )`, which returns a
`bool` (connection_builder_manager.cpp:480-559); the primitives are called
without `d` and `w`, which default to NaN. -/
def connect_gid (K : Kernel) (m : ConnectionBuilderManager) (sgid tgid : index)
    (params : Dictionary) (syn : index) : Result Bool :=
  let tid := K.thread_id
  if !K.is_local_gid tgid then
    ⟨m, .ok false⟩
  else
    let target := K.get_node tgid tid
    let target_thread := target.get_thread
    let source := K.get_node sgid target_thread
    match connect_route source.has_proxies target.has_proxies target.local_receiver with
    | .proxies_to_proxies =>
      returns_true (connect_dict_ K m source target sgid target_thread syn params .nan .nan)
    | .proxies_to_device =>
      if source.is_proxy then
        ⟨m, .ok false⟩
      else if source.get_thread != target_thread && source.has_proxies then
        returns_true (connect_to_device_dict_ K m source (K.get_node tgid source.get_thread) sgid
          source.get_thread syn params .nan .nan)
      else
        returns_true (connect_to_device_dict_ K m source target sgid target_thread syn params
          .nan .nan)
    | .device_to_proxies =>
      returns_true (connect_from_device_dict_ K m source target sgid target_thread syn params
        .nan .nan)
    | .device_to_device =>
      let target_thread1 := K.vp_to_thread (K.suggest_vp target.get_gid)
      if target_thread1 = tid then
        returns_true (connect_from_device_dict_ K m source target sgid target_thread1 syn params
          .nan .nan)
      else
        ⟨m, .ok true⟩
    | .global_receiver =>
      if !source.has_proxies then
        ⟨m, .ok false⟩
      else
        returns_true (for_threads m (List.range K.num_threads) (fun m1 tid1 =>
          connect_dict_ K m1 source (K.get_node tgid tid1) sgid tid1 syn params .nan .nan))
    | .assert_false => ⟨m, .error .AssertionFailed⟩

/-! ## Synapse status -/

/-- The branches of the chain in `get_synapse_status` and `set_synapse_status`. -/
inductive StatusRoute where
  | connector_store
  | to_device
  | from_device
  | assert_false
  deriving DecidableEq, Repr

/-- The conditions of the chain of `get_synapse_status` and of
`set_synapse_status` (connection_builder_manager.cpp:145-164, 185-201). -/
def synapse_status_route (source_has_proxies target_has_proxies : Bool) : StatusRoute :=
  if source_has_proxies && target_has_proxies then .connector_store
  else if source_has_proxies && !target_has_proxies then .to_device
  else if !source_has_proxies then .from_device
  else .assert_false

/-- Modelled from the spec: the record of type `syn_id` at position `p` of a
store, read by `HetConnector::get_synapse_status( syn_id, dict, p )`. -/
def HetConnector.get_synapse_status (hetconn : HetConnector) (syn_id : synindex) (p : Nat) :
    Except Error Connection :=
  match find_synapse_index hetconn syn_id with
  | none => .error .OutOfRange
  | some i =>
    match (hetconn.getD i ⟨syn_id, []⟩).C_[p]? with
    | none => .error .OutOfRange
    | some c => .ok c

/-- Modelled from the spec: `HetConnector::set_synapse_status( syn_id, cm, dict, p )`:
the record at position `p` takes the properties of `dict`; a rejected value
raises `BadProperty`. -/
def HetConnector.set_synapse_status (K : Kernel) (hetconn : HetConnector)
    (syn_id : synindex) (dict : Dictionary) (p : Nat) : Except Error HetConnector :=
  match find_synapse_index hetconn syn_id with
  | none => .error .OutOfRange
  | some i =>
    let vc := hetconn.getD i ⟨syn_id, []⟩
    match vc.C_[p]? with
    | none => .error .OutOfRange
    | some c =>
      match K.set_status c dict with
      | none => .error .BadProperty
      | some c1 => .ok (hetconn.set i { vc with C_ := vc.C_.set p c1 })

/-- The result of `get_synapse_status`: the entries `source` and `synapse_model`
and the status of the record. -/
structure SynapseStatus where
  source : index
  synapse_model : synindex
  status : Connection
  deriving DecidableEq, Repr

/-- `ConnectionBuilderManager::get_synapse_status`
(connection_builder_manager.cpp:132-167). -/
def get_synapse_status (K : Kernel) (m : ConnectionBuilderManager) (source_gid target_gid : index)
    (tid : thread) (syn_id : synindex) (p : Nat) : Except Error SynapseStatus :=
  match get_synapse_prototype m syn_id tid with
  | .error e => .error e
  | .ok _ =>
    let source := K.get_node source_gid tid
    let target := K.get_node target_gid tid
    let store : Except Error HetConnector :=
      match synapse_status_route source.has_proxies target.has_proxies with
      | .connector_store =>
        match m.connections_5g_[tid]? with
        | none => .error .OutOfRange
        | some h => .ok h
      | .to_device =>
        match m.target_table_devices_.target_to_devices_[tid]? with
        | none => .error .OutOfRange
        | some row => .ok (row.getD source_gid [])
      | .from_device =>
        match m.target_table_devices_.target_from_devices_[tid]? with
        | none => .error .OutOfRange
        | some row => .ok (row.getD source.get_local_device_id [])
      | .assert_false => .error .AssertionFailed
    match store with
    | .error e => .error e
    | .ok h =>
      match HetConnector.get_synapse_status h syn_id p with
      | .error e => .error e
      | .ok c => .ok ⟨source_gid, syn_id, c⟩

/-- `ConnectionBuilderManager::set_synapse_status`
(connection_builder_manager.cpp:169-213); the `catch` clause replaces a
`BadProperty` by a `BadProperty` with a longer message. -/
def set_synapse_status (K : Kernel) (m : ConnectionBuilderManager) (source_gid target_gid : index)
    (tid : thread) (syn_id : synindex) (p : Nat) (dict : Dictionary) : Result Unit :=
  match get_synapse_prototype m syn_id tid with
  | .error e => ⟨m, .error e⟩
  | .ok _ =>
    let source := K.get_node source_gid tid
    let target := K.get_node target_gid tid
    match synapse_status_route source.has_proxies target.has_proxies with
    | .connector_store =>
      match m.connections_5g_[tid]? with
      | none => ⟨m, .error .OutOfRange⟩
      | some h =>
        match HetConnector.set_synapse_status K h syn_id dict p with
        | .error e => ⟨m, .error e⟩
        | .ok h1 => ⟨{ m with connections_5g_ := m.connections_5g_.set tid h1 }, .ok ()⟩
    | .to_device =>
      match m.target_table_devices_.target_to_devices_[tid]? with
      | none => ⟨m, .error .OutOfRange⟩
      | some row =>
        match HetConnector.set_synapse_status K (row.getD source_gid []) syn_id dict p with
        | .error e => ⟨m, .error e⟩
        | .ok h1 =>
          ⟨{ m with target_table_devices_ :=
              { m.target_table_devices_ with
                target_to_devices_ :=
                  m.target_table_devices_.target_to_devices_.set tid (row.set source_gid h1) } },
            .ok ()⟩
    | .from_device =>
      match m.target_table_devices_.target_from_devices_[tid]? with
      | none => ⟨m, .error .OutOfRange⟩
      | some row =>
        match HetConnector.set_synapse_status K (row.getD source.get_local_device_id [])
            syn_id dict p with
        | .error e => ⟨m, .error e⟩
        | .ok h1 =>
          ⟨{ m with target_table_devices_ :=
              { m.target_table_devices_ with
                target_from_devices_ :=
                  m.target_table_devices_.target_from_devices_.set tid
                    (row.set source.get_local_device_id h1) } },
            .ok ()⟩
    | .assert_false => ⟨m, .error .AssertionFailed⟩

/-! ## Observations used in the statements -/

/-- The number of records of type `s` held in the connector store of thread
`t`. -/
def store_num_connections (m : ConnectionBuilderManager) (t : thread) (s : synindex) : Nat :=
  HetConnector.get_num_connections (m.connections_5g_.getD t []) s

/-- The number of records of type `s` held for thread `t` in the to-device part
of the Target-Device Table. -/
def to_device_num_connections (m : ConnectionBuilderManager) (t : thread) (s : synindex) :
    Nat :=
  row_num_connections (m.target_table_devices_.target_to_devices_.getD t []) s

/-- The number of records of type `s` held for thread `t` in the from-device
part of the Target-Device Table. -/
def from_device_num_connections (m : ConnectionBuilderManager) (t : thread) (s : synindex) :
    Nat :=
  row_num_connections (m.target_table_devices_.target_from_devices_.getD t []) s

/-- An adder adds exactly one record of type `syn` when it succeeds. -/
def AddsOne (syn : synindex) (add : Adder) : Prop :=
  ∀ cm dc hetconn hetconn1, (add cm dc hetconn).result = .ok hetconn1 →
    ∀ s, HetConnector.get_num_connections hetconn1 s
      = HetConnector.get_num_connections hetconn s + (if syn = s then 1 else 0)

/-- A call raised `BadDelay` and left the connector stores, the source table,
the Target-Device Table and every connection counter of `m` as they were. -/
def RaisesBadDelayUnchanged (m : ConnectionBuilderManager) (r : Result Unit) : Prop :=
  r.result = .error .BadDelay ∧
  r.state.connections_5g_ = m.connections_5g_ ∧
  r.state.source_table_ = m.source_table_ ∧
  r.state.target_table_devices_ = m.target_table_devices_ ∧
  r.state.vv_num_connections_ = m.vv_num_connections_

/-- The record described by C3: a copy of the default connection of the synapse
type whose weight is the `weight` argument unless that is NaN and whose delay is
the `delay` argument unless that is NaN, bound to the target and to the default
receptor type of the synapse type. -/
def default_copy (cm : GenericConnectorModel) (tgt : Node) (delay weight : double_t) :
    Connection :=
  { cm.default_connection_ with
    target := tgt.get_gid
    receptor := cm.receptor_type_
    weight := if is_nan weight then cm.default_connection_.weight else weight
    delay := if is_nan delay then cm.default_connection_.delay else delay }

/-- The kernel as seen from the calling thread `t`: only
`vp_manager.get_thread_id()` differs. -/
def Kernel.on_thread (K : Kernel) (t : thread) : Kernel :=
  { K with thread_id := t }

/-- An adder never ends in the assertion failure. -/
def NoAssert (add : Adder) : Prop :=
  ∀ cm dc hetconn, (add cm dc hetconn).result ≠ .error .AssertionFailed

/-- The cached counts agree with the contents: for each thread `t` and synapse
type `s` the count `vv_num_connections_[ t ][ s ]` (0 when absent) is the number
of records of type `s` in the connector store of `t` plus the number held for
`t` in the Target-Device Table. -/
def CountsConsistent (m : ConnectionBuilderManager) : Prop :=
  ∀ t s, num_connections_at m t s
    = store_num_connections m t s + m.target_table_devices_.get_num_connections t s

/-- The per-thread vectors of the manager all have `n` entries. -/
def SameLengths (n : Nat) (m : ConnectionBuilderManager) : Prop :=
  m.connections_5g_.length = n ∧
  m.source_table_.sources_.length = n ∧
  m.vv_num_connections_.length = n ∧
  m.target_table_devices_.target_to_devices_.length = n ∧
  m.target_table_devices_.target_from_devices_.length = n

/-- The states reachable from `initialize()` through any sequence of
`initialize`, `finalize` and the six low-level primitives, each called from any
thread with any arguments, successful or failing. -/
inductive Reachable (K : Kernel) : ConnectionBuilderManager → Prop where
  | start (m0 : ConnectionBuilderManager) : Reachable K (initialize_manager K m0)
  | again (m : ConnectionBuilderManager) :
    Reachable K m → Reachable K (initialize_manager K m)
  | final (m : ConnectionBuilderManager) : Reachable K m → Reachable K (finalize m)
  | store (m : ConnectionBuilderManager) (caller : thread) (s r : Node) (s_gid : index)
      (tid : thread) (syn : index) (d w : double_t) :
    Reachable K m → Reachable K (connect_ (K.on_thread caller) m s r s_gid tid syn d w).state
  | store_dict (m : ConnectionBuilderManager) (caller : thread) (s r : Node) (s_gid : index)
      (tid : thread) (syn : index) (p : Dictionary) (d w : double_t) :
    Reachable K m →
    Reachable K (connect_dict_ (K.on_thread caller) m s r s_gid tid syn p d w).state
  | to_device (m : ConnectionBuilderManager) (caller : thread) (s r : Node) (s_gid : index)
      (tid : thread) (syn : index) (d w : double_t) :
    Reachable K m →
    Reachable K (connect_to_device_ (K.on_thread caller) m s r s_gid tid syn d w).state
  | to_device_dict (m : ConnectionBuilderManager) (caller : thread) (s r : Node)
      (s_gid : index) (tid : thread) (syn : index) (p : Dictionary) (d w : double_t) :
    Reachable K m →
    Reachable K (connect_to_device_dict_ (K.on_thread caller) m s r s_gid tid syn p d w).state
  | from_device (m : ConnectionBuilderManager) (caller : thread) (s r : Node) (s_gid : index)
      (tid : thread) (syn : index) (d w : double_t) :
    Reachable K m →
    Reachable K (connect_from_device_ (K.on_thread caller) m s r s_gid tid syn d w).state
  | from_device_dict (m : ConnectionBuilderManager) (caller : thread) (s r : Node)
      (s_gid : index) (tid : thread) (syn : index) (p : Dictionary) (d w : double_t) :
    Reachable K m →
    Reachable K
      (connect_from_device_dict_ (K.on_thread caller) m s r s_gid tid syn p d w).state

/-- The reachable states in which no `finalize()` has been called since the last
`initialize()`: the state after an `initialize()` (called in any state), and
the states the six primitives lead to from there. -/
inductive Initialized (K : Kernel) : ConnectionBuilderManager → Prop where
  | start (m0 : ConnectionBuilderManager) : Initialized K (initialize_manager K m0)
  | store (m : ConnectionBuilderManager) (caller : thread) (s r : Node) (s_gid : index)
      (tid : thread) (syn : index) (d w : double_t) :
    Initialized K m →
    Initialized K (connect_ (K.on_thread caller) m s r s_gid tid syn d w).state
  | store_dict (m : ConnectionBuilderManager) (caller : thread) (s r : Node) (s_gid : index)
      (tid : thread) (syn : index) (p : Dictionary) (d w : double_t) :
    Initialized K m →
    Initialized K (connect_dict_ (K.on_thread caller) m s r s_gid tid syn p d w).state
  | to_device (m : ConnectionBuilderManager) (caller : thread) (s r : Node) (s_gid : index)
      (tid : thread) (syn : index) (d w : double_t) :
    Initialized K m →
    Initialized K (connect_to_device_ (K.on_thread caller) m s r s_gid tid syn d w).state
  | to_device_dict (m : ConnectionBuilderManager) (caller : thread) (s r : Node)
      (s_gid : index) (tid : thread) (syn : index) (p : Dictionary) (d w : double_t) :
    Initialized K m →
    Initialized K
      (connect_to_device_dict_ (K.on_thread caller) m s r s_gid tid syn p d w).state
  | from_device (m : ConnectionBuilderManager) (caller : thread) (s r : Node) (s_gid : index)
      (tid : thread) (syn : index) (d w : double_t) :
    Initialized K m →
    Initialized K (connect_from_device_ (K.on_thread caller) m s r s_gid tid syn d w).state
  | from_device_dict (m : ConnectionBuilderManager) (caller : thread) (s r : Node)
      (s_gid : index) (tid : thread) (syn : index) (p : Dictionary) (d w : double_t) :
    Initialized K m →
    Initialized K
      (connect_from_device_dict_ (K.on_thread caller) m s r s_gid tid syn p d w).state

/-- The outcome `r` of a call made in state `m` added one record of type `syn` to
the connector store of thread `tid` and the entry `s_gid` to the source table of
`(tid, syn)`, and nothing else to the stores and tables: every other count of
the stores and every other list of the source table is as before and the
Target-Device Table is unchanged. -/
def AddedToStore (m : ConnectionBuilderManager) (r : Result Unit) (s_gid : index)
    (tid : thread) (syn : index) : Prop :=
  (∀ t x, store_num_connections r.state t x
    = store_num_connections m t x + (if t = tid ∧ x = syn then 1 else 0)) ∧
  (∀ t x, r.state.source_table_.get_sources t x
    = m.source_table_.get_sources t x ++ (if t = tid ∧ x = syn then [s_gid] else [])) ∧
  r.state.target_table_devices_ = m.target_table_devices_

/-- The outcome `r` of a call made in state `m` added one record of type `syn` to
the to-device part of the Target-Device Table for thread `tid` and nothing else:
the from-device part, the connector stores and the source table are
unchanged. -/
def AddedToDevice (m : ConnectionBuilderManager) (r : Result Unit) (tid : thread)
    (syn : index) : Prop :=
  (∀ t x, to_device_num_connections r.state t x
    = to_device_num_connections m t x + (if t = tid ∧ x = syn then 1 else 0)) ∧
  r.state.target_table_devices_.target_from_devices_
    = m.target_table_devices_.target_from_devices_ ∧
  r.state.connections_5g_ = m.connections_5g_ ∧
  r.state.source_table_ = m.source_table_

/-- The outcome `r` of a call made in state `m` added one record of type `syn` to
the from-device part of the Target-Device Table for thread `tid` and nothing
else: the to-device part, the connector stores and the source table are
unchanged. -/
def AddedFromDevice (m : ConnectionBuilderManager) (r : Result Unit) (tid : thread)
    (syn : index) : Prop :=
  (∀ t x, from_device_num_connections r.state t x
    = from_device_num_connections m t x + (if t = tid ∧ x = syn then 1 else 0)) ∧
  r.state.target_table_devices_.target_to_devices_
    = m.target_table_devices_.target_to_devices_ ∧
  r.state.connections_5g_ = m.connections_5g_ ∧
  r.state.source_table_ = m.source_table_

/-! ## A concrete kernel and state

Two worker threads; the nodes 0-9 are neurons (with proxies, node `gid` living
on thread `gid % 2`), the nodes 10-19 are devices that receive locally and the
nodes from 20 on are devices that receive globally. The delay checker is the
one of the spec: it rejects a delay outside its window unless it is frozen.
Delays and weights are in units of 0.1. -/

/-- The nodes of the example network. -/
def example_node (gid : index) (tid : thread) : Node :=
  if gid < 10 then
    { get_gid := gid, has_proxies := true, is_proxy := decide (gid % 2 ≠ tid),
      get_thread := gid % 2, local_receiver := true, get_local_device_id := 0 }
  else
    { get_gid := gid, has_proxies := false, is_proxy := false,
      get_thread := tid, local_receiver := decide (gid < 20), get_local_device_id := gid - 10 }

/-- Modelled from the spec: `assert_valid(delay_ms)` "fails with `BadDelay` when
unfrozen and `delay_ms` falls outside [min_delay, max_delay]". -/
def example_assert_valid_delay_ms (dc : DelayChecker) (d : double_t) : Option DelayChecker :=
  match d with
  | .nan => some dc
  | .val x =>
    if dc.freeze_delay_update_ = false ∧ (x < dc.min_delay_ ∨ dc.max_delay_ < x) then none
    else some dc

/-- The example kernel, seen from the calling thread `tid`. -/
def example_kernel (tid : thread) : Kernel :=
  { num_threads := 2
    thread_id := tid
    suggest_vp := fun gid => gid % 2
    vp_to_thread := fun vp => vp % 2
    get_node := example_node
    is_local_gid := fun _ => true
    wfr_comm_interval := .val 1
    default_delay_checker := ⟨1, 100, true, false⟩
    assert_valid_delay_ms := example_assert_valid_delay_ms
    check_connection := fun _ _ _ receptor_type => decide (receptor_type = 0)
    set_status := fun c _ => some c }

/-- A synapse prototype with default weight 1.0 and default delay 1.0 ms. -/
def example_prototype : GenericConnectorModel :=
  { default_connection_ :=
      { target := 0, receptor := 0, syn_id := 0, weight := .val 10, delay := .val 10 }
    receptor_type_ := 0
    default_delay_needs_check_ := true
    has_delay_ := true }

/-- The state after `initialize()`, with one registered synapse type. -/
def example_state : ConnectionBuilderManager :=
  initialize_manager (example_kernel 0)
    { connections_5g_ := []
      source_table_ := ⟨[], false⟩
      target_table_devices_ := ⟨[], []⟩
      delay_checkers_ := []
      vv_num_connections_ := []
      min_delay_ := 1
      max_delay_ := 1
      prototypes_ := [[example_prototype], [example_prototype]] }

/-- The example state with the delay window narrowed to [2.0, 10.0] ms, which
excludes the default delay of the example prototype. -/
def example_state_narrow : ConnectionBuilderManager :=
  { example_state with
    delay_checkers_ := [⟨20, 100, true, false⟩, ⟨20, 100, true, false⟩] }

/-! ## Delay checkers: `set_status`, `calibrate` and the delay extrema -/

/-- Modelled from the spec: `TimeConverter` (`nest_timeconverter.h` is not part of
the sources): the old and the new time resolution. -/
structure TimeConverter where
  old_tics_per_ms : Int
  new_tics_per_ms : Int
  deriving DecidableEq, Repr

/-- The services used by the delay bookkeeping whose code is not part of the
sources; they are parameters of the definitions of this section. Times are
represented by their number of steps. -/
structure DelayServices where
  /-- The method `DelayChecker::set_status( d )`: `none` when it throws. -/
  set_status : DelayChecker → Dictionary → Option DelayChecker
  /-- The method `DelayChecker::calibrate( tc )`. -/
  calibrate : TimeConverter → DelayChecker → DelayChecker
  /-- The value of `Time::pos_inf().get_steps()`. -/
  pos_inf_steps : delay
  /-- The value of `Time::get_resolution().get_steps()`. -/
  resolution_steps : delay
  /-- The value of `sp_manager.builder_min_delay()`. -/
  builder_min_delay : delay
  /-- The value of `sp_manager.builder_max_delay()`. -/
  builder_max_delay : delay
  /-- The value of `mpi_manager.get_num_processes()`. -/
  num_processes : Nat
  /-- The value of `mpi_manager.get_rank()`. -/
  rank : Nat

/-- The loop of `ConnectionBuilderManager::set_status`
(connection_builder_manager.cpp:109-112) over the delay checkers still to
visit; `done` holds the checkers already visited. An exception ends the loop
and keeps the changes made so far. -/
def set_status_loop (S : DelayServices) (d : Dictionary) (done todo : List DelayChecker) :
    List DelayChecker × Except Error Unit :=
  match todo with
  | [] => (done, .ok ())
  | dc :: rest =>
    match S.set_status dc d with
    | none => (done ++ dc :: rest, .error .BadProperty)
    | some dc1 => set_status_loop S d (done ++ [dc1]) rest

/-- `ConnectionBuilderManager::set_status` (connection_builder_manager.cpp:106-113). -/
def set_status (S : DelayServices) (m : ConnectionBuilderManager) (d : Dictionary) :
    Result Unit :=
  ⟨{ m with delay_checkers_ := (set_status_loop S d [] m.delay_checkers_).1 },
    (set_status_loop S d [] m.delay_checkers_).2⟩

/-- `ConnectionBuilderManager::get_delay_checker`
(connection_builder_manager.cpp:115-119): the delay checker of the calling
thread. -/
def get_delay_checker (K : Kernel) (m : ConnectionBuilderManager) : Option DelayChecker :=
  m.delay_checkers_[K.thread_id]?

/-- The loop of `ConnectionBuilderManager::calibrate`
(connection_builder_manager.cpp:276-279) over the thread numbers still to
visit. -/
def calibrate_loop (S : DelayServices) (tc : TimeConverter) (checkers : List DelayChecker)
    (tids : List thread) : List DelayChecker × Except Error Unit :=
  match tids with
  | [] => (checkers, .ok ())
  | t :: rest =>
    match checkers[t]? with
    | none => (checkers, .error .OutOfRange)
    | some dc => calibrate_loop S tc (checkers.set t (S.calibrate tc dc)) rest

/-- `ConnectionBuilderManager::calibrate` (connection_builder_manager.cpp:273-280). -/
def calibrate (K : Kernel) (S : DelayServices) (m : ConnectionBuilderManager)
    (tc : TimeConverter) : Result Unit :=
  ⟨{ m with delay_checkers_ :=
      (calibrate_loop S tc m.delay_checkers_ (List.range K.num_threads)).1 },
    (calibrate_loop S tc m.delay_checkers_ (List.range K.num_threads)).2⟩

/-- Modelled from the spec: a `DelayChecker::set_status` that takes the window
from the entries `min_delay` and `max_delay` (in steps) of the dictionary and
marks it as set by the user; a dictionary without both entries changes
nothing. -/
def example_delay_checker_set_status (dc : DelayChecker) (d : Dictionary) :
    Option DelayChecker :=
  match Dictionary.lookup d "min_delay", Dictionary.lookup d "max_delay" with
  | some (.long lo), some (.long hi) =>
    if lo ≤ hi then some { dc with min_delay_ := lo, max_delay_ := hi,
                                   user_set_delay_extrema_ := true }
    else none
  | _, _ => some dc

/-- Modelled from the spec: a `DelayChecker::calibrate` that "rescales stored
bounds" by the ratio of the resolutions. -/
def example_delay_checker_calibrate (tc : TimeConverter) (dc : DelayChecker) : DelayChecker :=
  { dc with
    min_delay_ := dc.min_delay_ * tc.new_tics_per_ms / tc.old_tics_per_ms
    max_delay_ := dc.max_delay_ * tc.new_tics_per_ms / tc.old_tics_per_ms }

/-- The example services: one process, resolution of one step, the sentinel
`pos_inf` at 1000000 steps, and a builder window of [1, 1]. -/
def example_services : DelayServices :=
  { set_status := example_delay_checker_set_status
    calibrate := example_delay_checker_calibrate
    pos_inf_steps := 1000000
    resolution_steps := 1
    builder_min_delay := 1
    builder_max_delay := 1
    num_processes := 1
    rank := 0 }

/-- The example state after one successful `connect_` into the store of thread
1 (neuron 1 to neuron 3, delay 5.0 ms, weight 2.0). -/
def example_state_connected : ConnectionBuilderManager :=
  (connect_ (example_kernel 1) example_state (example_node 1 1) (example_node 3 1) 1 1 0
    (.val 50) (.val 20)).state

/-- The dictionary returned by `get_synapse_status` for the record at position
`p` of type `syn_id` in the store `hetconn`. -/
def status_of (source_gid : index) (syn_id : synindex) (p : Nat) (hetconn : HetConnector) :
    Except Error SynapseStatus :=
  match HetConnector.get_synapse_status hetconn syn_id p with
  | .error e => .error e
  | .ok c => .ok ⟨source_gid, syn_id, c⟩

/-- `ConnectionBuilderManager::get_min_delay_time_`
(connection_builder_manager.cpp:226-236), in steps. -/
def get_min_delay_time_ (S : DelayServices) (m : ConnectionBuilderManager) : delay :=
  m.delay_checkers_.foldl (fun min_delay dc => min min_delay dc.min_delay_) S.pos_inf_steps

/-- `ConnectionBuilderManager::get_max_delay_time_`
(connection_builder_manager.cpp:238-248), in steps. -/
def get_max_delay_time_ (S : DelayServices) (m : ConnectionBuilderManager) : delay :=
  m.delay_checkers_.foldl (fun max_delay dc => max max_delay dc.max_delay_) S.resolution_steps

/-- `ConnectionBuilderManager::get_user_set_delay_extrema`
(connection_builder_manager.cpp:250-260). -/
def get_user_set_delay_extrema (m : ConnectionBuilderManager) : Bool :=
  m.delay_checkers_.foldl
    (fun user_set_delay_extrema dc => user_set_delay_extrema || dc.user_set_delay_extrema_)
    false

/-- The first part of `update_delay_extrema_`
(connection_builder_manager.cpp:314-323): the window `(min_delay_, max_delay_)`
the process holds just before the collective step. -/
def local_delay_extrema (S : DelayServices) (m : ConnectionBuilderManager) : delay × delay :=
  let min_delay := get_min_delay_time_ S m
  let max_delay := get_max_delay_time_ S m
  if !get_user_set_delay_extrema m then
    (min min_delay S.builder_min_delay, max max_delay S.builder_max_delay)
  else
    (min_delay, max_delay)

/-- Modelled from the spec: `mpi_manager.communicate( buffer )` on a vector with
one slot per process ("value array in, reduced value array out", an all-gather):
afterwards slot `i` holds the value process `i` placed in slot `i` of its own
buffer; `contributions` lists these values by rank for the other processes. -/
def communicate (contributions : List delay) (rank : Nat) (buffer : List delay) : List delay :=
  (List.range buffer.length).map
    (fun i => if i = rank then buffer.getD i 0 else contributions.getD i 0)

/-- The value `*std::min_element( v.begin(), v.end() )` of a non-empty
vector. -/
def min_element (v : List delay) : delay :=
  match v with
  | [] => 0
  | x :: rest => rest.foldl min x

/-- The value `*std::max_element( v.begin(), v.end() )` of a non-empty
vector. -/
def max_element (v : List delay) : delay :=
  match v with
  | [] => 0
  | x :: rest => rest.foldl max x

/-- The collective step of `update_delay_extrema_`
(connection_builder_manager.cpp:325-336), applied to the local window `w`;
`all_min` and `all_max` are the values the processes of the run contribute, by
rank. -/
def reduce_delay_extrema (S : DelayServices) (all_min all_max : List delay)
    (w : delay × delay) : delay × delay :=
  if S.num_processes > 1 then
    let min_delays :=
      communicate all_min S.rank ((List.replicate S.num_processes 0).set S.rank w.1)
    let max_delays :=
      communicate all_max S.rank ((List.replicate S.num_processes 0).set S.rank w.2)
    (min_element min_delays, max_element max_delays)
  else
    w

/-- `ConnectionBuilderManager::update_delay_extrema_`
(connection_builder_manager.cpp:311-340). -/
def update_delay_extrema_ (S : DelayServices) (all_min all_max : List delay)
    (m : ConnectionBuilderManager) : ConnectionBuilderManager :=
  let w := reduce_delay_extrema S all_min all_max (local_delay_extrema S m)
  { m with
    min_delay_ := if w.1 = S.pos_inf_steps then S.resolution_steps else w.1
    max_delay_ := w.2 }

/-- The local windows of the processes of a run, by rank; a process is given by
its services and its manager state. -/
def local_windows (procs : List (DelayServices × ConnectionBuilderManager)) :
    List (delay × delay) :=
  procs.map (fun q => local_delay_extrema q.1 q.2)

/-- A run of two processes: rank 0 holds the example state (window [1, 100]),
rank 1 the example state with the narrowed window [20, 100]. -/
def example_processes : List (DelayServices × ConnectionBuilderManager) :=
  [({ example_services with num_processes := 2, rank := 0 }, example_state),
   ({ example_services with num_processes := 2, rank := 1 }, example_state_narrow)]

/-! ## The rule-driven `connect` -/

/-- The exceptions raised by the rule-driven `connect` and by the queries; an
exception of the low-level primitives is passed on as `raised`. -/
inductive Exception where
  | BadProperty (msg : String)
  | TypeMismatch
  | UnaccessedDictionaryEntry (msg : String) (missed : List String)
  | out_of_range
  | KernelException (msg : String)
  | UnknownModelName (name : String)
  | raised (e : Error)
  deriving DecidableEq, Repr

/-- The class of an exception, without its message. -/
inductive ExceptionKind where
  | BadProperty
  | TypeMismatch
  | UnaccessedDictionaryEntry
  | out_of_range
  | KernelException
  | UnknownModelName
  | raised (e : Error)
  deriving DecidableEq, Repr

/-- The class of an exception. -/
def Exception.kind : Exception → ExceptionKind
  | .BadProperty _ => .BadProperty
  | .TypeMismatch => .TypeMismatch
  | .UnaccessedDictionaryEntry _ _ => .UnaccessedDictionaryEntry
  | .out_of_range => .out_of_range
  | .KernelException _ => .KernelException
  | .UnknownModelName _ => .UnknownModelName
  | .raised e => .raised e

/-- Modelled from the spec: a value of a `ConfigMap`: a string or a typed
scalar. -/
inductive ConfigValue where
  | literal (s : String)
  | datum (d : Datum)
  deriving DecidableEq, Repr

/-- Modelled from the spec: an entry of a `ConfigMap` with its access flag, which
records whether the entry has been read since the flags were cleared. -/
structure ConfigEntry where
  key : String
  value : ConfigValue
  accessed : Bool
  deriving DecidableEq, Repr

/-- Modelled from the spec: a `ConfigMap` (`DictionaryDatum` with its access
flags). -/
abbrev ConfigMap := List ConfigEntry

/-- Modelled from the spec: `d->clear_access_flags()`. -/
def ConfigMap.clear_access_flags (d : ConfigMap) : ConfigMap :=
  d.map (fun e => { e with accessed := false })

/-- Modelled from the spec: `d->lookup( key )`, without the access flag. -/
def ConfigMap.lookup (d : ConfigMap) (key : String) : Option ConfigValue :=
  (d.find? (fun e => e.key == key)).map (fun e => e.value)

/-- Modelled from the spec: `d->known( key )`. -/
def ConfigMap.known (d : ConfigMap) (key : String) : Bool :=
  (ConfigMap.lookup d key).isSome

/-- Modelled from the spec: the access flag of `key` is set by reading its
value. -/
def ConfigMap.access (d : ConfigMap) (key : String) : ConfigMap :=
  d.map (fun e => if e.key = key then { e with accessed := true } else e)

/-- Modelled from the spec: the keys `d.all_accessed( missed )` reports as not
accessed. -/
def ConfigMap.unaccessed (d : ConfigMap) : List String :=
  (d.filter (fun e => !e.accessed)).map (fun e => e.key)

/-- A constructed `ConnBuilder` (`conn_builder.h` is not part of the sources),
given by what its `connect()` does to the manager. -/
abbrev ConnBuilder := ConnectionBuilderManager → Result Unit

/-- What the construction of a builder leaves behind: the two maps, with the
access flags of the entries the constructor has read, and the builder or the
exception of the constructor. -/
structure Creation where
  conn_spec : ConfigMap
  syn_spec : ConfigMap
  builder : Except Exception ConnBuilder

/-- A registered factory: `create( sources, targets, conn_spec, syn_spec )`. -/
abbrev ConnBuilderFactory := List index → List index → ConfigMap → ConfigMap → Creation

/-- The members `connruledict_` and `connbuilder_factories_` of the manager; no
embedded function changes them. -/
structure RuleRegistry where
  connruledict_ : List (String × Nat)
  connbuilder_factories_ : List ConnBuilderFactory

/-- The state, the two maps and the result after the rule-driven `connect`. -/
structure RuleOutcome where
  state : ConnectionBuilderManager
  conn_spec : ConfigMap
  syn_spec : ConfigMap
  result : Except Exception Unit

/-- `ConnectionBuilderManager::connect( sources, targets, conn_spec, syn_spec )`
(connection_builder_manager.cpp:282-309). Modelled from the spec: the macro
`ALL_ENTRIES_ACCESSED` "fails with `ConfigError` listing unread keys". -/
def connect_spec (R : RuleRegistry) (m : ConnectionBuilderManager) (sources targets : List index)
    (conn_spec syn_spec : ConfigMap) : RuleOutcome :=
  let conn_spec := ConfigMap.clear_access_flags conn_spec
  let syn_spec := ConfigMap.clear_access_flags syn_spec
  if !ConfigMap.known conn_spec "rule" then
    ⟨m, conn_spec, syn_spec,
      .error (.BadProperty "Connectivity spec must contain connectivity rule.")⟩
  else
    match ConfigMap.lookup conn_spec "rule" with
    | some (.literal rule_name) =>
      let conn_spec := ConfigMap.access conn_spec "rule"
      match R.connruledict_.lookup rule_name with
      | none =>
        ⟨m, conn_spec, syn_spec,
          .error (.BadProperty ("Unknown connectivty rule: " ++ rule_name))⟩
      | some rule_id =>
        match R.connbuilder_factories_[rule_id]? with
        | none => ⟨m, conn_spec, syn_spec, .error .out_of_range⟩
        | some factory =>
          let c := factory sources targets conn_spec syn_spec
          match c.builder with
          | .error e => ⟨m, c.conn_spec, c.syn_spec, .error e⟩
          | .ok cb =>
            if !(ConfigMap.unaccessed c.conn_spec).isEmpty then
              ⟨m, c.conn_spec, c.syn_spec,
                .error (.UnaccessedDictionaryEntry "Unread dictionary entries in conn_spec: "
                  (ConfigMap.unaccessed c.conn_spec))⟩
            else if !(ConfigMap.unaccessed c.syn_spec).isEmpty then
              ⟨m, c.conn_spec, c.syn_spec,
                .error (.UnaccessedDictionaryEntry "Unread dictionary entries in syn_spec: "
                  (ConfigMap.unaccessed c.syn_spec))⟩
            else
              ⟨(cb m).state, c.conn_spec, c.syn_spec,
                match (cb m).result with
                | .error e => .error (.raised e)
                | .ok _ => .ok ()⟩
    | _ => ⟨m, ConfigMap.access conn_spec "rule", syn_spec, .error .TypeMismatch⟩

/-- The `connect()` of the example builder `one_to_one`: source `i` is connected
to target `i` on the thread of the target, with default weight and delay. -/
def example_one_to_one (pairs : List (index × index)) (m : ConnectionBuilderManager) :
    Result Unit :=
  match pairs with
  | [] => ⟨m, .ok ()⟩
  | (s, t) :: rest =>
    match (connect (example_kernel (t % 2)) m s (example_node t (t % 2)) (t % 2) 0 .nan
        .nan).result with
    | .error e =>
      ⟨(connect (example_kernel (t % 2)) m s (example_node t (t % 2)) (t % 2) 0 .nan
        .nan).state, .error e⟩
    | .ok _ =>
      example_one_to_one rest
        (connect (example_kernel (t % 2)) m s (example_node t (t % 2)) (t % 2) 0 .nan
          .nan).state

/-- The example registry: the one rule `one_to_one`, whose builder reads the
entry `model` of the synapse spec and nothing else. -/
def example_registry : RuleRegistry :=
  { connruledict_ := [("one_to_one", 0)]
    connbuilder_factories_ :=
      [fun sources targets conn_spec syn_spec =>
        { conn_spec := conn_spec
          syn_spec := ConfigMap.access syn_spec "model"
          builder := .ok (example_one_to_one (sources.zip targets)) }] }

/-! ## Queries: `get_connections` -/

/-- Modelled from the spec: a `ConnectionDescriptor` (`ConnectionDatum`): source,
target, thread, synapse type and position of the connection. -/
structure ConnectionDatum where
  source_gid : index
  target_gid : index
  tid : thread
  synapse_id : synindex
  port : Nat
  deriving DecidableEq, Repr

/-- An array of connection descriptors. -/
abbrev ArrayDatum := List ConnectionDatum

/-- An element of the array returned by `get_connections( params )`: a
descriptor, or a nested array of descriptors. -/
inductive Token where
  | connection (c : ConnectionDatum)
  | array (a : ArrayDatum)
  deriving DecidableEq, Repr

/-- The services used by the queries whose code is not part of the sources. -/
structure QueryServices where
  /-- The method `ConnectionT::get_label()`. -/
  get_label : Connection → Int
  /-- The constant `UNLABELED_CONNECTION`. -/
  UNLABELED_CONNECTION : Int
  /-- The global identifier of the sending device with local device id `ldid`
  on thread `tid`. -/
  sending_device_gid : thread → index → index
  /-- The dictionary `model_manager.get_synapsedict()`. -/
  synapsedict : List (String × synindex)

/-- Modelled from the spec: the records of type `syn_id` of a store, in the
order of their positions `lcid`. -/
def HetConnector.records (hetconn : HetConnector) (syn_id : synindex) : List Connection :=
  match hetconn with
  | [] => []
  | vc :: rest =>
    (if vc.syn_id = syn_id then vc.C_ else []) ++ HetConnector.records rest syn_id

/-- Modelled from the spec: the descriptor `get_connection` emits for the record
of type `synapse_id` at position `lcid`, if there is such a record and its label
passes the label filter (no filter when `synapse_label` is
`UNLABELED_CONNECTION`). -/
def connection_at (Q : QueryServices) (hetconn : HetConnector) (source_gid : index)
    (tid : thread) (synapse_id : synindex) (lcid : Nat) (synapse_label : Int) :
    Option ConnectionDatum :=
  match (HetConnector.records hetconn synapse_id)[lcid]? with
  | none => none
  | some c =>
    if synapse_label = Q.UNLABELED_CONNECTION ∨ Q.get_label c = synapse_label then
      some ⟨source_gid, c.target, tid, synapse_id, lcid⟩
    else none

/-- Modelled from the spec:
`HetConnector::get_connection( source_gid, tid, synapse_id, lcid, synapse_label, conns )`. -/
def HetConnector.get_connection (Q : QueryServices) (hetconn : HetConnector)
    (source_gid : index) (tid : thread) (synapse_id : synindex) (lcid : Nat)
    (synapse_label : Int) (conns : ArrayDatum) : ArrayDatum :=
  conns ++ (connection_at Q hetconn source_gid tid synapse_id lcid synapse_label).toList

/-- Modelled from the spec: `HetConnector::get_connection` with a target: the
descriptor is emitted only when the record's target is `target_gid`. -/
def HetConnector.get_connection_target (Q : QueryServices) (hetconn : HetConnector)
    (source_gid target_gid : index) (tid : thread) (synapse_id : synindex) (lcid : Nat)
    (synapse_label : Int) (conns : ArrayDatum) : ArrayDatum :=
  conns ++ ((connection_at Q hetconn source_gid tid synapse_id lcid synapse_label).filter
    (fun c => c.target_gid = target_gid)).toList

/-- Modelled from the spec: `SourceTable::get_gid( tid, syn, lcid )`. -/
def SourceTable.get_gid (st : SourceTable) (tid : thread) (syn : synindex) (lcid : Nat) :
    index :=
  (st.get_sources tid syn).getD lcid 0

/-- Modelled from the spec: the descriptors of the records of type `synapse_id`
of one store of a device table, in the order of their positions; a requested
target of 0 means no target filter. -/
def connector_connections (Q : QueryServices) (hetconn : HetConnector)
    (source_gid requested_target_gid : index) (tid : thread) (synapse_id : synindex)
    (synapse_label : Int) (conns : ArrayDatum) : ArrayDatum :=
  (List.range (HetConnector.get_num_connections hetconn synapse_id)).foldl
    (fun conns lcid =>
      if requested_target_gid = 0 then
        HetConnector.get_connection Q hetconn source_gid tid synapse_id lcid synapse_label conns
      else
        HetConnector.get_connection_target Q hetconn source_gid requested_target_gid tid
          synapse_id lcid synapse_label conns)
    conns

/-- Modelled from the spec: the descriptors of one row of a device table; `gid_of`
gives the global identifier of the source a position of the row stands for, and
a requested source of 0 means no source filter. -/
def row_connections (Q : QueryServices) (row : List HetConnector) (gid_of : Nat → index)
    (requested_source_gid requested_target_gid : index) (tid : thread)
    (synapse_id : synindex) (synapse_label : Int) (conns : ArrayDatum) : ArrayDatum :=
  (List.range row.length).foldl
    (fun conns key =>
      if requested_source_gid = 0 ∨ gid_of key = requested_source_gid then
        connector_connections Q (row.getD key []) (gid_of key) requested_target_gid tid
          synapse_id synapse_label conns
      else conns)
    conns

/-- Modelled from the spec: `TargetTableDevices::get_connections( requested_source_gid,
requested_target_gid, tid, synapse_id, synapse_label, conns )`: first the
connections to devices, then the connections from devices. -/
def TargetTableDevices.get_connections (Q : QueryServices) (t : TargetTableDevices)
    (requested_source_gid requested_target_gid : index) (tid : thread)
    (synapse_id : synindex) (synapse_label : Int) (conns : ArrayDatum) : ArrayDatum :=
  row_connections Q (t.target_from_devices_.getD tid []) (Q.sending_device_gid tid)
    requested_source_gid requested_target_gid tid synapse_id synapse_label
    (row_connections Q (t.target_to_devices_.getD tid []) (fun key => key)
      requested_source_gid requested_target_gid tid synapse_id synapse_label conns)

/-- The call `std::sort( sources.begin(), sources.end() )`. -/
def std_sort (sources : List index) : List index :=
  List.insertionSort (· ≤ ·) sources

/-- The loop of `std::lower_bound` on the range `[first, first + count)` of `v`;
`fuel` bounds the number of iterations, which is at most `count`. -/
def lower_bound_loop (v : List index) (value : index) : Nat → Nat → Nat → Nat
  | 0, first, _ => first
  | fuel + 1, first, count =>
    if count = 0 then first
    else if v.getD (first + count / 2) 0 < value then
      lower_bound_loop v value fuel (first + count / 2 + 1) (count - (count / 2 + 1))
    else
      lower_bound_loop v value fuel first (count / 2)

/-- The call `std::binary_search( v.begin(), v.end(), value )`: the position
found by `std::lower_bound` is not the end and its element is not greater than
`value`. -/
def binary_search (v : List index) (value : index) : Bool :=
  let first := lower_bound_loop v value v.length 0 v.length
  first != v.length && !(value < v.getD first 0)

/-- The loop over the stored connections of a thread when a source filter is
given (connection_builder_manager.cpp:1854-1876). -/
def store_connections_by_source (Q : QueryServices) (m : ConnectionBuilderManager)
    (source : List index) (target : Option (List index)) (tid : thread)
    (synapse_id : synindex) (synapse_label : Int) : ArrayDatum :=
  let num_connections_in_thread :=
    HetConnector.get_num_connections (m.connections_5g_.getD tid []) synapse_id
  let sources := std_sort source
  (List.range num_connections_in_thread).foldl
    (fun conns_in_thread lcid =>
      let source_gid := m.source_table_.get_gid tid synapse_id lcid
      if binary_search sources source_gid then
        match target with
        | none =>
          HetConnector.get_connection Q (m.connections_5g_.getD tid []) source_gid tid
            synapse_id lcid synapse_label conns_in_thread
        | some target =>
          target.foldl
            (fun conns_in_thread target_gid =>
              HetConnector.get_connection_target Q (m.connections_5g_.getD tid []) source_gid
                target_gid tid synapse_id lcid synapse_label conns_in_thread)
            conns_in_thread
      else conns_in_thread)
    []

/-- The body of the loop over the threads in `get_connections`
(connection_builder_manager.cpp:1753-1904), compiled without OpenMP: the array
`conns_in_thread` of thread `tid`. A thread without a store contributes no
stored connection. -/
def conns_in_thread (Q : QueryServices) (m : ConnectionBuilderManager)
    (source target : Option (List index)) (synapse_id : synindex) (synapse_label : Int)
    (tid : thread) : ArrayDatum :=
  let num_connections_in_thread :=
    HetConnector.get_num_connections (m.connections_5g_.getD tid []) synapse_id
  match source, target with
  | none, none =>
    TargetTableDevices.get_connections Q m.target_table_devices_ 0 0 tid synapse_id
      synapse_label
      ((List.range num_connections_in_thread).foldl
        (fun conns_in_thread lcid =>
          HetConnector.get_connection Q (m.connections_5g_.getD tid [])
            (m.source_table_.get_gid tid synapse_id lcid) tid synapse_id lcid synapse_label
            conns_in_thread)
        [])
  | none, some target =>
    target.foldl
      (fun conns_in_thread target_gid =>
        TargetTableDevices.get_connections Q m.target_table_devices_ 0 target_gid tid
          synapse_id synapse_label conns_in_thread)
      ((List.range num_connections_in_thread).foldl
        (fun conns_in_thread lcid =>
          target.foldl
            (fun conns_in_thread target_gid =>
              HetConnector.get_connection_target Q (m.connections_5g_.getD tid [])
                (m.source_table_.get_gid tid synapse_id lcid) target_gid tid synapse_id lcid
                synapse_label conns_in_thread)
            conns_in_thread)
        [])
  | some source, target =>
    source.foldl
      (fun conns_in_thread source_gid =>
        match target with
        | none =>
          TargetTableDevices.get_connections Q m.target_table_devices_ source_gid 0 tid
            synapse_id synapse_label conns_in_thread
        | some target =>
          target.foldl
            (fun conns_in_thread target_gid =>
              TargetTableDevices.get_connections Q m.target_table_devices_ source_gid
                target_gid tid synapse_id synapse_label conns_in_thread)
            conns_in_thread)
      (store_connections_by_source Q m source target tid synapse_id synapse_label)

/-- The array `connectome` and the result after `get_connections`. -/
structure QueryOutcome where
  connectome : ArrayDatum
  result : Except Exception Unit

/-- `ConnectionBuilderManager::get_connections( connectome, source, target,
synapse_id, synapse_label )` (connection_builder_manager.cpp:1738-1905);
`is_source_table_cleared()` reads the flag of the source table. -/
def get_connections_syn (K : Kernel) (Q : QueryServices) (m : ConnectionBuilderManager)
    (connectome : ArrayDatum) (source target : Option (List index)) (synapse_id : synindex)
    (synapse_label : Int) : QueryOutcome :=
  if m.source_table_.is_cleared_ then
    ⟨connectome, .error (.KernelException
      "Invalid attempt to access connection information: source table was cleared.")⟩
  else
    ⟨(List.range K.num_threads).foldl
        (fun connectome tid =>
          connectome ++ conns_in_thread Q m source target synapse_id synapse_label tid)
        connectome,
      .ok ()⟩

/-- Modelled from the spec: the filter of `get_connections( params )`:
"{sources?, targets?, synapse_type?, label?}". -/
structure ConnectionFilter where
  source : Option (List index)
  target : Option (List index)
  synapse_model : Option String
  synapse_label : Option Int
  deriving DecidableEq, Repr

/-- The value of `model_manager.get_num_synapse_prototypes()`: the number of
prototypes held for thread 0. -/
def get_num_synapse_prototypes (m : ConnectionBuilderManager) : Nat :=
  (m.prototypes_.getD 0 []).length

/-- The loop over all synapse types in `get_connections( params )`
(connection_builder_manager.cpp:1724-1732), given the synapse types still to
visit. -/
def get_connections_loop (K : Kernel) (Q : QueryServices) (m : ConnectionBuilderManager)
    (source target : Option (List index)) (synapse_label : Int) (synapse_ids : List synindex)
    (connectome : List Token) : Except Exception (List Token) :=
  match synapse_ids with
  | [] => .ok connectome
  | synapse_id :: rest =>
    match (get_connections_syn K Q m [] source target synapse_id synapse_label).result with
    | .error e => .error e
    | .ok _ =>
      get_connections_loop K Q m source target synapse_label rest
        (if (get_connections_syn K Q m [] source target synapse_id
            synapse_label).connectome.length > 0 then
          connectome ++ [.array (get_connections_syn K Q m [] source target synapse_id
            synapse_label).connectome]
        else connectome)

/-- `ConnectionBuilderManager::get_connections( params )`
(connection_builder_manager.cpp:1677-1736). -/
def get_connections (K : Kernel) (Q : QueryServices) (m : ConnectionBuilderManager)
    (params : ConnectionFilter) : Except Exception (List Token) :=
  let synapse_label := params.synapse_label.getD Q.UNLABELED_CONNECTION
  match params.synapse_model with
  | some synapse_model_name =>
    match Q.synapsedict.lookup synapse_model_name with
    | none => .error (.UnknownModelName synapse_model_name)
    | some synapse_id =>
      match (get_connections_syn K Q m [] params.source params.target synapse_id
          synapse_label).result with
      | .error e => .error e
      | .ok _ =>
        .ok ((get_connections_syn K Q m [] params.source params.target synapse_id
          synapse_label).connectome.map Token.connection)
  | none =>
    get_connections_loop K Q m params.source params.target synapse_label
      (List.range (get_num_synapse_prototypes m)) []

/-- The connections taken from the store of a thread under a source filter, in
the words of C16: the positions `lcid`, in ascending order, whose source-table
identifier is a member of the caller's list (by linear search), each emitting
its descriptor. -/
def store_connections_by_membership (Q : QueryServices) (m : ConnectionBuilderManager)
    (source : List index) (tid : thread) (synapse_id : synindex) (synapse_label : Int) :
    ArrayDatum :=
  ((List.range (HetConnector.get_num_connections (m.connections_5g_.getD tid []) synapse_id)).filter
    (fun lcid => source.contains (m.source_table_.get_gid tid synapse_id lcid))).filterMap
    (fun lcid =>
      connection_at Q (m.connections_5g_.getD tid [])
        (m.source_table_.get_gid tid synapse_id lcid) tid synapse_id lcid synapse_label)

/-- The example query services: no connection carries a label, device `ldid`
has the global identifier `ldid + 10`, and the one synapse type is
`static_synapse`. -/
def example_query : QueryServices :=
  { get_label := fun _ => -1
    UNLABELED_CONNECTION := -1
    sending_device_gid := fun _ ldid => ldid + 10
    synapsedict := [("static_synapse", 0)] }

/-- The example state with three connections of type 0: neuron 1 to neuron 3
and neuron 7 to neuron 5 on thread 1, neuron 1 to neuron 4 on thread 0. -/
def example_state_three : ConnectionBuilderManager :=
  (connect_ (example_kernel 0)
    (connect_ (example_kernel 1) example_state_connected (example_node 7 1) (example_node 5 1)
      7 1 0 (.val 30) .nan).state
    (example_node 1 0) (example_node 4 0) 1 0 0 .nan .nan).state

/-- The example state in which no delay checker has user-set extrema: the
checker of thread 0 has seen no delay yet (its minimum is the sentinel
`pos_inf` of the example services), the checker of thread 1 has seen delays
from 20 to 50 steps. -/
def example_state_unset : ConnectionBuilderManager :=
  { example_state with
    delay_checkers_ := [⟨1000000, 1, false, false⟩, ⟨20, 50, false, false⟩] }

/-! ## `GenericConnectorModel::set_status` -/

/-- Modelled from the spec: `DelayChecker::freeze_delay_update()` ("`freeze()`/
`unfreeze()`: used to bracket bulk default-property updates"). -/
def DelayChecker.freeze_delay_update (dc : DelayChecker) : DelayChecker :=
  { dc with freeze_delay_update_ := true }

/-- Modelled from the spec: `DelayChecker::enable_delay_update()`, the
`unfreeze()` of the spec. -/
def DelayChecker.enable_delay_update (dc : DelayChecker) : DelayChecker :=
  { dc with freeze_delay_update_ := false }

/-- `GenericConnectorModel::set_status` (connector_model_impl.h:126-152), compiled
without `HAVE_MUSIC`. The common properties `cp_` are not part of the embedded
state: `cp_set_status` tells whether `cp_.set_status( d, *this )` accepts the
dictionary (it throws otherwise). `default_connection_.set_status( d, *this )`
is the kernel service `set_status`. -/
def GenericConnectorModel.set_status (K : Kernel) (cp_set_status : Dictionary → Bool)
    (cm : GenericConnectorModel) (dc : DelayChecker) (d : Dictionary) : ModelOutcome Unit :=
  match updateValue_long d "receptor_type" with
  | .error e => ⟨cm, dc, .error e⟩
  | .ok r =>
    let cm1 := { cm with receptor_type_ := r.getD cm.receptor_type_ }
    let dc1 := dc.freeze_delay_update
    if cp_set_status d then
      match K.set_status cm1.default_connection_ d with
      | none => ⟨cm1, dc1, .error .BadProperty⟩
      | some c =>
        ⟨{ cm1 with default_connection_ := c, default_delay_needs_check_ := true },
          dc1.enable_delay_update, .ok ()⟩
    else
      ⟨cm1, dc1, .error .BadProperty⟩

/-- The example prototype after its default delay has been validated. -/
def example_prototype_checked : GenericConnectorModel :=
  { example_prototype with default_delay_needs_check_ := false }

/-- The example kernel with a `ConnectionT::set_status` that rejects every
dictionary holding a `weight` entry. -/
def example_kernel_strict (tid : thread) : Kernel :=
  { example_kernel tid with
    set_status := fun c p => if Dictionary.known p "weight" then none else some c }

/-- The example state with three connections between neurons and one
connection from neuron 1 to the device 12, held for thread 1 in the
Target-Device Table. -/
def example_state_device : ConnectionBuilderManager :=
  (connect_to_device_ (example_kernel 1) example_state_three (example_node 1 1)
    (example_node 12 1) 1 1 0 .nan .nan).state

/-- The example state after one successful `connect_` without delay argument
(neuron 1 to neuron 3 on thread 1): the default delay of the prototype of
thread 1 has been validated by `used_default_delay`. -/
def example_state_default_used : ConnectionBuilderManager :=
  (connect_ (example_kernel 1) example_state (example_node 1 1) (example_node 3 1) 1 1 0
    .nan .nan).state

/-- The state `example_state_default_used` with the delay window narrowed
afterwards to [2.0, 10.0] ms, which excludes the default delay of 1.0 ms. -/
def example_state_default_used_narrow : ConnectionBuilderManager :=
  { example_state_default_used with
    delay_checkers_ := [⟨20, 100, true, false⟩, ⟨20, 100, true, false⟩] }

/-- A synapse prototype without delay (`has_delay_` is false); its default
connection still carries the delay 1.0 ms. -/
def example_prototype_no_delay : GenericConnectorModel :=
  { example_prototype with has_delay_ := false }

/-- The example state with the window [2.0, 10.0] ms and the prototype without
delay on both threads. -/
def example_state_no_delay : ConnectionBuilderManager :=
  { example_state_narrow with
    prototypes_ := [[example_prototype_no_delay], [example_prototype_no_delay]] }

/-- The example kernel with a waveform-relaxation communication interval of
5.0 ms. -/
def example_kernel_wfr (tid : thread) : Kernel :=
  { example_kernel tid with wfr_comm_interval := .val 50 }

/-! ## Lemmas on vectors -/

theorem getD_set_eq {α : Type} (l : List α) (i : Nat) (a d : α) (h : i < l.length) :
    (l.set i a).getD i d = a := by
  induction l generalizing i with
  | nil => simp at h
  | cons x xs ih =>
    cases i with
    | zero => simp
    | succ k => simpa using ih k (by simpa using h)

theorem getD_set_ne {α : Type} (l : List α) (i j : Nat) (a d : α) (h : i ≠ j) :
    (l.set i a).getD j d = l.getD j d := by
  induction l generalizing i j with
  | nil => simp
  | cons x xs ih =>
    cases i with
    | zero =>
      cases j with
      | zero => exact absurd rfl h
      | succ k => simp
    | succ i1 =>
      cases j with
      | zero => simp
      | succ k => simpa using ih i1 k (by omega)

theorem getD_of_getElem? {α : Type} (l : List α) (i : Nat) (a d : α) (h : l[i]? = some a) :
    l.getD i d = a := by
  rw [List.getD_eq_getElem?_getD, h]
  rfl

theorem lt_length_of_getElem? {α : Type} (l : List α) (i : Nat) (a : α) (h : l[i]? = some a) :
    i < l.length := by
  by_contra hc
  have : l[i]? = none := List.getElem?_eq_none (by omega)
  rw [this] at h
  cases h

theorem sum_set (l : List Nat) (i a : Nat) (h : i < l.length) :
    (l.set i a).sum + l.getD i 0 = l.sum + a := by
  induction l generalizing i with
  | nil => simp at h
  | cons x xs ih =>
    cases i with
    | zero => simp; omega
    | succ k =>
      have := ih k (by simpa using h)
      simp at this ⊢
      omega

theorem grow_length {α : Type} (row : List α) (n : Nat) (d : α) :
    n < (if row.length ≤ n then vresize row (n + 1) d else row).length := by
  unfold vresize
  split
  · rw [if_neg (by omega)]
    simp
    omega
  · omega

theorem grow_getD {α : Type} (row : List α) (n j : Nat) (d : α) :
    (if row.length ≤ n then vresize row (n + 1) d else row).getD j d = row.getD j d := by
  unfold vresize
  split
  · rw [if_neg (by omega)]
    rw [List.getD_eq_getElem?_getD, List.getD_eq_getElem?_getD]
    by_cases hj : j < row.length
    · rw [List.getElem?_append_left hj]
    · have h1 : row[j]? = none := List.getElem?_eq_none (by omega)
      rw [h1, List.getElem?_append_right (by omega)]
      simp only [Option.getD_none]
      rw [List.getElem?_replicate]
      split <;> rfl
  · rfl

theorem grow_sum (row : List Nat) (n : Nat) :
    (if row.length ≤ n then vresize row (n + 1) 0 else row).sum = row.sum := by
  unfold vresize
  split
  · rw [if_neg (by omega)]
    simp
  · rfl

theorem sum_map_set {β : Type} (g : β → Nat) (l : List β) (i : Nat) (b d : β)
    (h : i < l.length) :
    ((l.set i b).map g).sum + g (l.getD i d) = (l.map g).sum + g b := by
  induction l generalizing i with
  | nil => simp at h
  | cons x xs ih =>
    cases i with
    | zero => simp; omega
    | succ k =>
      have := ih k (by simpa using h)
      simp at this ⊢
      omega

/-! ## Lemmas on the counters -/

theorem increment_length (vv vv1 : List (List Nat)) (tid : thread) (syn : index)
    (h : increment_num_connections vv tid syn = some vv1) : vv1.length = vv.length := by
  unfold increment_num_connections at h
  split at h
  · cases h
  · cases h
    simp

theorem increment_tid_lt (vv vv1 : List (List Nat)) (tid : thread) (syn : index)
    (h : increment_num_connections vv tid syn = some vv1) : tid < vv.length := by
  unfold increment_num_connections at h
  split at h
  · cases h
  · next row hrow => exact lt_length_of_getElem? vv tid row hrow

theorem increment_at (vv vv1 : List (List Nat)) (tid : thread) (syn : index)
    (h : increment_num_connections vv tid syn = some vv1) (t : thread) (s : synindex) :
    (vv1.getD t []).getD s 0
      = (vv.getD t []).getD s 0 + (if t = tid ∧ s = syn then 1 else 0) := by
  unfold increment_num_connections at h
  split at h
  · cases h
  · next row hrow =>
    cases h
    have hlt := lt_length_of_getElem? vv tid row hrow
    have hrow1 : vv.getD tid [] = row := getD_of_getElem? vv tid row [] hrow
    by_cases ht : t = tid
    · subst ht
      rw [getD_set_eq _ _ _ _ hlt, hrow1]
      by_cases hs : s = syn
      · subst hs
        rw [getD_set_eq _ _ _ _ (grow_length row s 0), grow_getD]
        simp
      · rw [getD_set_ne _ _ _ _ _ (fun e => hs e.symm), grow_getD]
        simp [hs]
    · rw [getD_set_ne _ _ _ _ _ (fun e => ht e.symm)]
      simp [ht]

theorem increment_sum (vv vv1 : List (List Nat)) (tid : thread) (syn : index)
    (h : increment_num_connections vv tid syn = some vv1) :
    (vv1.map List.sum).sum = (vv.map List.sum).sum + 1 := by
  unfold increment_num_connections at h
  split at h
  · cases h
  · next row hrow =>
    cases h
    have hlt := lt_length_of_getElem? vv tid row hrow
    have hrow1 : vv.getD tid [] = row := getD_of_getElem? vv tid row [] hrow
    have h1 := sum_map_set List.sum vv tid
      ((if row.length ≤ syn then vresize row (syn + 1) 0 else row).set syn
        ((if row.length ≤ syn then vresize row (syn + 1) 0 else row).getD syn 0 + 1)) [] hlt
    have h2 := sum_set (if row.length ≤ syn then vresize row (syn + 1) 0 else row) syn
      ((if row.length ≤ syn then vresize row (syn + 1) 0 else row).getD syn 0 + 1)
      (grow_length row syn 0)
    rw [hrow1] at h1
    rw [grow_sum] at h2
    omega

theorem row_entry_eq (s : synindex) (row : List Nat) :
    (if row.length > s then row.getD s 0 else 0) = row.getD s 0 := by
  split
  · rfl
  · rw [List.getD_eq_getElem?_getD, List.getElem?_eq_none (by omega)]
    rfl

theorem increment_sum_syn (vv vv1 : List (List Nat)) (tid : thread) (syn : index)
    (h : increment_num_connections vv tid syn = some vv1) (s : synindex) :
    (vv1.map (fun row => if row.length > s then row.getD s 0 else 0)).sum
      = (vv.map (fun row => if row.length > s then row.getD s 0 else 0)).sum
        + (if s = syn then 1 else 0) := by
  have hat := increment_at vv vv1 tid syn h tid s
  unfold increment_num_connections at h
  split at h
  · cases h
  · next row hrow =>
    cases h
    have hlt := lt_length_of_getElem? vv tid row hrow
    have hrow1 : vv.getD tid [] = row := getD_of_getElem? vv tid row [] hrow
    have h1 := sum_map_set (fun row => if row.length > s then row.getD s 0 else 0) vv tid
      ((if row.length ≤ syn then vresize row (syn + 1) 0 else row).set syn
        ((if row.length ≤ syn then vresize row (syn + 1) 0 else row).getD syn 0 + 1)) [] hlt
    rw [getD_set_eq _ _ _ _ hlt, hrow1] at hat
    simp only [row_entry_eq] at h1 ⊢
    rw [hrow1] at h1
    simp only [true_and] at hat
    omega

/-! ## Lemmas on the connector store -/

theorem find_synapse_index_some (hetconn : HetConnector) (syn_id : synindex) (i : Nat)
    (h : find_synapse_index hetconn syn_id = some i) :
    ∃ conn, hetconn[i]? = some conn ∧ conn.syn_id = syn_id := by
  induction hetconn generalizing i with
  | nil => simp [find_synapse_index] at h
  | cons vc rest ih =>
    unfold find_synapse_index at h
    split at h
    · next heq =>
      cases h
      exact ⟨vc, by simp, heq⟩
    · cases hrest : find_synapse_index rest syn_id with
      | none => simp [hrest] at h
      | some k =>
        simp [hrest] at h
        subst h
        obtain ⟨conn, hc, hs⟩ := ih k hrest
        exact ⟨conn, by simpa using hc, hs⟩

theorem find_synapse_index_none (hetconn : HetConnector) (syn_id : synindex)
    (h : find_synapse_index hetconn syn_id = none) :
    ∀ vc ∈ hetconn, vc.syn_id ≠ syn_id := by
  induction hetconn with
  | nil => simp
  | cons vc rest ih =>
    unfold find_synapse_index at h
    split at h
    · cases h
    · next hne =>
      cases hrest : find_synapse_index rest syn_id with
      | some k => simp [hrest] at h
      | none =>
        intro x hx
        rcases List.mem_cons.mp hx with hx1 | hx1
        · subst hx1
          exact hne
        · exact ih hrest x hx1

theorem get_num_connections_append (h1 h2 : HetConnector) (s : synindex) :
    HetConnector.get_num_connections (h1 ++ h2) s
      = HetConnector.get_num_connections h1 s + HetConnector.get_num_connections h2 s := by
  induction h1 with
  | nil => simp [HetConnector.get_num_connections]
  | cons vc rest ih =>
    have e1 : HetConnector.get_num_connections (vc :: rest ++ h2) s
        = (if vc.syn_id = s then vc.C_.length else 0)
          + HetConnector.get_num_connections (rest ++ h2) s := rfl
    have e2 : HetConnector.get_num_connections (vc :: rest) s
        = (if vc.syn_id = s then vc.C_.length else 0)
          + HetConnector.get_num_connections rest s := rfl
    rw [e1, e2, ih]
    omega

theorem get_num_connections_set_push (hetconn : HetConnector) (i : Nat) (conn : Connector)
    (c : Connection) (s : synindex) (h : hetconn[i]? = some conn) :
    HetConnector.get_num_connections (hetconn.set i (conn.push_back c)) s
      = HetConnector.get_num_connections hetconn s + (if conn.syn_id = s then 1 else 0) := by
  induction hetconn generalizing i with
  | nil => simp at h
  | cons vc rest ih =>
    cases i with
    | zero =>
      simp at h
      subst h
      simp only [List.set_cons_zero, HetConnector.get_num_connections, Connector.push_back,
        List.length_append, List.length_singleton]
      split <;> omega
    | succ k =>
      have := ih k (by simpa using h)
      simp only [List.set_cons_succ, HetConnector.get_num_connections, this]
      omega

theorem vresize_succ_set {α : Type} (v : List α) (d x : α) :
    (vresize v (v.length + 1) d).set v.length x = v ++ [x] := by
  unfold vresize
  rw [if_neg (by omega)]
  have : v.length + 1 - v.length = 1 := by omega
  rw [this]
  induction v with
  | nil => rfl
  | cons y ys ih => simp

/-- The store after `add_connection_5g_` when no connector of the type
existed: one new connector, at the end, holding the new record. -/
theorem add_connection_5g__new (K : Kernel) (src tgt : Node) (hetconn hetconn1 : HetConnector)
    (syn_id : synindex) (c : Connection) (receptor_type : rport)
    (hf : find_synapse_index hetconn syn_id = none)
    (h : add_connection_5g_ K src tgt hetconn syn_id c receptor_type = .ok hetconn1) :
    hetconn1 = hetconn ++
      [⟨syn_id, [{ c with target := tgt.get_gid, receptor := receptor_type }]⟩] := by
  unfold add_connection_5g_ at h
  rw [hf] at h
  simp only at h
  split at h
  · simp only [Except.ok.injEq] at h
    rw [← h, vresize_succ_set]
    rfl
  · cases h

/-- The store after `add_connection_5g_` when a connector of the type
exists: the record is appended to that connector. -/
theorem add_connection_5g__old (K : Kernel) (src tgt : Node) (hetconn hetconn1 : HetConnector)
    (syn_id : synindex) (c : Connection) (receptor_type : rport) (i : Nat)
    (hf : find_synapse_index hetconn syn_id = some i)
    (h : add_connection_5g_ K src tgt hetconn syn_id c receptor_type = .ok hetconn1) :
    ∃ conn, hetconn[i]? = some conn ∧ conn.syn_id = syn_id ∧
      hetconn1 = hetconn.set i
        (conn.push_back { c with target := tgt.get_gid, receptor := receptor_type }) := by
  obtain ⟨conn, hc, hs⟩ := find_synapse_index_some hetconn syn_id i hf
  refine ⟨conn, hc, hs, ?_⟩
  unfold add_connection_5g_ at h
  rw [hf] at h
  simp only [hc] at h
  split at h
  · simp only [Except.ok.injEq] at h
    exact h.symm
  · cases h

/-- A successful `add_connection_5g_` adds exactly one record, of type
`syn_id`. -/
theorem add_connection_5g__count (K : Kernel) (src tgt : Node)
    (hetconn hetconn1 : HetConnector) (syn_id : synindex) (c : Connection)
    (receptor_type : rport)
    (h : add_connection_5g_ K src tgt hetconn syn_id c receptor_type = .ok hetconn1)
    (s : synindex) :
    HetConnector.get_num_connections hetconn1 s
      = HetConnector.get_num_connections hetconn s + (if syn_id = s then 1 else 0) := by
  cases hf : find_synapse_index hetconn syn_id with
  | none =>
    rw [add_connection_5g__new K src tgt hetconn hetconn1 syn_id c receptor_type hf h,
      get_num_connections_append]
    simp [HetConnector.get_num_connections]
  | some i =>
    obtain ⟨conn, hc, hs, he⟩ :=
      add_connection_5g__old K src tgt hetconn hetconn1 syn_id c receptor_type i hf h
    rw [he, get_num_connections_set_push hetconn i conn _ s hc, hs]

theorem add_connection_5g_addsOne (K : Kernel) (src tgt : Node) (syn : synindex)
    (d w : double_t) :
    AddsOne syn (fun cm dc h => add_connection_5g K cm dc src tgt h syn d w) := by
  intro cm dc hetconn hetconn1 h s
  simp only [add_connection_5g] at h
  split at h
  · cases h
  · split at h
    · cases h
    · exact add_connection_5g__count K src tgt hetconn hetconn1 syn _ _ h s

theorem add_connection_5g_dict_tail_count (K : Kernel) (cm : GenericConnectorModel)
    (src tgt : Node) (hetconn hetconn1 : HetConnector) (syn : synindex) (p : Dictionary)
    (d w : double_t)
    (h : add_connection_5g_dict_tail K cm src tgt hetconn syn p d w = .ok hetconn1)
    (s : synindex) :
    HetConnector.get_num_connections hetconn1 s
      = HetConnector.get_num_connections hetconn s + (if syn = s then 1 else 0) := by
  simp only [add_connection_5g_dict_tail] at h
  split at h
  · cases h
  · split at h
    · cases h
    · exact add_connection_5g__count K src tgt hetconn hetconn1 syn _ _ h s

theorem add_connection_5g_dict_addsOne (K : Kernel) (src tgt : Node) (syn : synindex)
    (p : Dictionary) (d w : double_t) :
    AddsOne syn (fun cm dc h => add_connection_5g_dict K cm dc src tgt h syn p d w) := by
  intro cm dc hetconn hetconn1 h s
  simp only [add_connection_5g_dict] at h
  split at h
  · split at h
    · cases h
    · split at h
      · cases h
      · exact add_connection_5g_dict_tail_count K cm src tgt hetconn hetconn1 syn p d w h s
  · split at h
    · cases h
    · split at h
      · cases h
      · exact add_connection_5g_dict_tail_count K cm src tgt hetconn hetconn1 syn p d w h s
    · split at h
      · cases h
      · exact add_connection_5g_dict_tail_count K _ src tgt hetconn hetconn1 syn p d w h s

/-! ## The shape of the state after a primitive -/

/-- A successful `connect_`: the record went into the store of `tid`, the
source was appended to the source table and the counter was incremented. -/
theorem connect_with_ok_form (K : Kernel) (m : ConnectionBuilderManager) (s_gid : index)
    (tid : thread) (syn : index) (add : Adder)
    (h : (connect_with K m s_gid tid syn add).result = .ok ()) :
    ∃ cm dc hetconn hetconn1 st vv,
      m.connections_5g_[tid]? = some hetconn ∧
      (add cm dc hetconn).result = .ok hetconn1 ∧
      m.source_table_.add_source tid syn s_gid = some st ∧
      increment_num_connections m.vv_num_connections_ tid syn = some vv ∧
      (connect_with K m s_gid tid syn add).state =
        { put_model K m tid syn (add cm dc hetconn).model (add cm dc hetconn).checker with
          connections_5g_ := m.connections_5g_.set tid hetconn1
          source_table_ := st
          vv_num_connections_ := vv } := by
  cases hp : get_synapse_prototype m syn tid with
  | error e => simp [connect_with, hp] at h
  | ok cm =>
    cases hdc : m.delay_checkers_[K.thread_id]? with
    | none => simp [connect_with, hp, hdc] at h
    | some dc =>
      cases hh : m.connections_5g_[tid]? with
      | none => simp [connect_with, hp, hdc, hh] at h
      | some hetconn =>
        cases hr : (add cm dc hetconn).result with
        | error e => simp [connect_with, hp, hdc, hh, hr] at h
        | ok hetconn1 =>
          cases hst : m.source_table_.add_source tid syn s_gid with
          | none => simp [connect_with, hp, hdc, hh, hr, put_model, hst] at h
          | some st =>
            cases hvv : increment_num_connections m.vv_num_connections_ tid syn with
            | none => simp [connect_with, hp, hdc, hh, hr, put_model, hst, hvv] at h
            | some vv =>
              refine ⟨cm, dc, hetconn, hetconn1, st, vv, rfl, hr, rfl, rfl, ?_⟩
              simp [connect_with, hp, hdc, hh, hr, put_model, hst, hvv]

/-- When the prototype's `add_connection_5g` throws, `connect_` throws the same
exception and only the prototype and the delay checker may have changed. -/
theorem connect_with_add_error (K : Kernel) (m : ConnectionBuilderManager) (s_gid : index)
    (tid : thread) (syn : index) (add : Adder) (cm : GenericConnectorModel)
    (dc : DelayChecker) (hetconn : HetConnector) (e : Error)
    (hp : get_synapse_prototype m syn tid = .ok cm)
    (hdc : m.delay_checkers_[K.thread_id]? = some dc)
    (hh : m.connections_5g_[tid]? = some hetconn)
    (hr : (add cm dc hetconn).result = .error e) :
    (connect_with K m s_gid tid syn add).result = .error e ∧
    (connect_with K m s_gid tid syn add).state
      = put_model K m tid syn (add cm dc hetconn).model (add cm dc hetconn).checker := by
  simp [connect_with, hp, hdc, hh, hr]

/-- A failing `connect_` in a state whose per-thread vectors have equal
lengths leaves the store, the tables and the counters as they were. -/
theorem connect_with_error_frame (K : Kernel) (m : ConnectionBuilderManager) (s_gid : index)
    (tid : thread) (syn : index) (add : Adder) (e : Error)
    (hl1 : m.source_table_.sources_.length = m.connections_5g_.length)
    (hl2 : m.vv_num_connections_.length = m.connections_5g_.length)
    (h : (connect_with K m s_gid tid syn add).result = .error e) :
    (connect_with K m s_gid tid syn add).state.connections_5g_ = m.connections_5g_ ∧
    (connect_with K m s_gid tid syn add).state.source_table_ = m.source_table_ ∧
    (connect_with K m s_gid tid syn add).state.target_table_devices_
      = m.target_table_devices_ ∧
    (connect_with K m s_gid tid syn add).state.vv_num_connections_
      = m.vv_num_connections_ := by
  cases hp : get_synapse_prototype m syn tid with
  | error e1 => simp [connect_with, hp]
  | ok cm =>
    cases hdc : m.delay_checkers_[K.thread_id]? with
    | none => simp [connect_with, hp, hdc]
    | some dc =>
      cases hh : m.connections_5g_[tid]? with
      | none => simp [connect_with, hp, hdc, hh]
      | some hetconn =>
        have hlt := lt_length_of_getElem? _ _ _ hh
        cases hr : (add cm dc hetconn).result with
        | error e1 => simp [connect_with, hp, hdc, hh, hr, put_model]
        | ok hetconn1 =>
          exfalso
          obtain ⟨row, hrow⟩ : ∃ row, m.source_table_.sources_[tid]? = some row :=
            ⟨m.source_table_.sources_[tid], List.getElem?_eq_getElem (by omega)⟩
          obtain ⟨crow, hcrow⟩ : ∃ crow, m.vv_num_connections_[tid]? = some crow :=
            ⟨m.vv_num_connections_[tid], List.getElem?_eq_getElem (by omega)⟩
          simp [connect_with, hp, hdc, hh, hr, put_model, SourceTable.add_source, hrow,
            increment_num_connections, hcrow] at h

/-- `connect_` never touches the Target-Device Table. -/
theorem connect_with_devices (K : Kernel) (m : ConnectionBuilderManager) (s_gid : index)
    (tid : thread) (syn : index) (add : Adder) :
    (connect_with K m s_gid tid syn add).state.target_table_devices_
      = m.target_table_devices_ := by
  simp only [connect_with, put_model]
  repeat' split
  all_goals rfl

/-! ## Lemmas on the device tables -/

theorem grow_sum_map {β : Type} (g : β → Nat) (row : List β) (n : Nat) (d : β)
    (hd : g d = 0) :
    ((if row.length ≤ n then vresize row (n + 1) d else row).map g).sum = (row.map g).sum := by
  unfold vresize
  split
  · rw [if_neg (by omega)]
    simp [hd]
  · rfl

/-- A successful insertion into a row of a device table adds exactly one
record, of type `syn`, to the row. -/
theorem add_connection_to_row_count (row row1 : List HetConnector) (key : index)
    (cm : GenericConnectorModel) (dc : DelayChecker) (add : Adder) (syn : synindex)
    (hadd : AddsOne syn add)
    (h : (add_connection_to_row row key cm dc add).result = .ok row1) (s : synindex) :
    row_num_connections row1 s = row_num_connections row s + (if syn = s then 1 else 0) := by
  simp only [add_connection_to_row] at h
  split at h
  · cases h
  · next hetconn1 hr =>
    simp only [Except.ok.injEq] at h
    subst h
    have h1 := hadd cm dc _ hetconn1 hr s
    have h2 := sum_map_set (fun h => HetConnector.get_num_connections h s)
      (if row.length ≤ key then vresize row (key + 1) [] else row) key hetconn1 []
      (grow_length row key [])
    have h3 := grow_sum_map (fun h => HetConnector.get_num_connections h s) row key [] rfl
    simp only [row_num_connections]
    simp only at h2
    omega

/-- A successful `connect_to_device_`: the record went into the to-device
table of `tid` and the counter was incremented. -/
theorem connect_to_device_with_ok_form (K : Kernel) (m : ConnectionBuilderManager)
    (key : index) (tid : thread) (syn : index) (add : Adder)
    (h : (connect_to_device_with K m key tid syn add).result = .ok ()) :
    ∃ cm dc row row1 vv,
      m.target_table_devices_.target_to_devices_[tid]? = some row ∧
      (add_connection_to_row row key cm dc add).result = .ok row1 ∧
      increment_num_connections m.vv_num_connections_ tid syn = some vv ∧
      (connect_to_device_with K m key tid syn add).state =
        { put_model K m tid syn (add_connection_to_row row key cm dc add).model
            (add_connection_to_row row key cm dc add).checker with
          target_table_devices_ :=
            { m.target_table_devices_ with
              target_to_devices_ := m.target_table_devices_.target_to_devices_.set tid row1 }
          vv_num_connections_ := vv } := by
  cases hp : get_synapse_prototype m syn tid with
  | error e => simp [connect_to_device_with, hp] at h
  | ok cm =>
    cases hdc : m.delay_checkers_[K.thread_id]? with
    | none => simp [connect_to_device_with, hp, hdc] at h
    | some dc =>
      cases hh : m.target_table_devices_.target_to_devices_[tid]? with
      | none => simp [connect_to_device_with, hp, hdc, hh] at h
      | some row =>
        cases hr : (add_connection_to_row row key cm dc add).result with
        | error e => simp [connect_to_device_with, hp, hdc, hh, hr] at h
        | ok row1 =>
          cases hvv : increment_num_connections m.vv_num_connections_ tid syn with
          | none => simp [connect_to_device_with, hp, hdc, hh, hr, put_model, hvv] at h
          | some vv =>
            refine ⟨cm, dc, row, row1, vv, rfl, hr, rfl, ?_⟩
            simp [connect_to_device_with, hp, hdc, hh, hr, put_model, hvv]

/-- A failing `connect_to_device_` in a state whose per-thread vectors have
equal lengths leaves the store, the tables and the counters as they were. -/
theorem connect_to_device_with_error_frame (K : Kernel) (m : ConnectionBuilderManager)
    (key : index) (tid : thread) (syn : index) (add : Adder) (e : Error)
    (hl : m.vv_num_connections_.length
      = m.target_table_devices_.target_to_devices_.length)
    (h : (connect_to_device_with K m key tid syn add).result = .error e) :
    (connect_to_device_with K m key tid syn add).state.connections_5g_
      = m.connections_5g_ ∧
    (connect_to_device_with K m key tid syn add).state.source_table_ = m.source_table_ ∧
    (connect_to_device_with K m key tid syn add).state.target_table_devices_
      = m.target_table_devices_ ∧
    (connect_to_device_with K m key tid syn add).state.vv_num_connections_
      = m.vv_num_connections_ := by
  cases hp : get_synapse_prototype m syn tid with
  | error e1 => simp [connect_to_device_with, hp]
  | ok cm =>
    cases hdc : m.delay_checkers_[K.thread_id]? with
    | none => simp [connect_to_device_with, hp, hdc]
    | some dc =>
      cases hh : m.target_table_devices_.target_to_devices_[tid]? with
      | none => simp [connect_to_device_with, hp, hdc, hh]
      | some row =>
        have hlt := lt_length_of_getElem? _ _ _ hh
        cases hr : (add_connection_to_row row key cm dc add).result with
        | error e1 => simp [connect_to_device_with, hp, hdc, hh, hr, put_model]
        | ok row1 =>
          exfalso
          obtain ⟨crow, hcrow⟩ : ∃ crow, m.vv_num_connections_[tid]? = some crow :=
            ⟨m.vv_num_connections_[tid], List.getElem?_eq_getElem (by omega)⟩
          simp [connect_to_device_with, hp, hdc, hh, hr, put_model,
            increment_num_connections, hcrow] at h

/-- `connect_to_device_` never touches the connector stores nor the source
table. -/
theorem connect_to_device_with_store (K : Kernel) (m : ConnectionBuilderManager)
    (key : index) (tid : thread) (syn : index) (add : Adder) :
    (connect_to_device_with K m key tid syn add).state.connections_5g_
      = m.connections_5g_ ∧
    (connect_to_device_with K m key tid syn add).state.source_table_
      = m.source_table_ := by
  simp only [connect_to_device_with, put_model]
  constructor
  all_goals
    repeat' split
    all_goals rfl

/-- When the prototype's `add_connection_5g` throws, `connect_to_device_` throws
the same exception and only the prototype and the delay checker may have
changed. -/
theorem connect_to_device_with_add_error (K : Kernel) (m : ConnectionBuilderManager)
    (key : index) (tid : thread) (syn : index) (add : Adder) (cm : GenericConnectorModel)
    (dc : DelayChecker) (row : List HetConnector) (e : Error)
    (hp : get_synapse_prototype m syn tid = .ok cm)
    (hdc : m.delay_checkers_[K.thread_id]? = some dc)
    (hh : m.target_table_devices_.target_to_devices_[tid]? = some row)
    (hr : (add_connection_to_row row key cm dc add).result = .error e) :
    (connect_to_device_with K m key tid syn add).result = .error e ∧
    (connect_to_device_with K m key tid syn add).state
      = put_model K m tid syn (add_connection_to_row row key cm dc add).model
          (add_connection_to_row row key cm dc add).checker := by
  simp [connect_to_device_with, hp, hdc, hh, hr]

/-- A successful `connect_from_device_`: the record went into the from-device
table of `tid` and the counter was incremented. -/
theorem connect_from_device_with_ok_form (K : Kernel) (m : ConnectionBuilderManager)
    (key : index) (tid : thread) (syn : index) (add : Adder)
    (h : (connect_from_device_with K m key tid syn add).result = .ok ()) :
    ∃ cm dc row row1 vv,
      m.target_table_devices_.target_from_devices_[tid]? = some row ∧
      (add_connection_to_row row key cm dc add).result = .ok row1 ∧
      increment_num_connections m.vv_num_connections_ tid syn = some vv ∧
      (connect_from_device_with K m key tid syn add).state =
        { put_model K m tid syn (add_connection_to_row row key cm dc add).model
            (add_connection_to_row row key cm dc add).checker with
          target_table_devices_ :=
            { m.target_table_devices_ with
              target_from_devices_ := m.target_table_devices_.target_from_devices_.set tid row1 }
          vv_num_connections_ := vv } := by
  cases hp : get_synapse_prototype m syn tid with
  | error e => simp [connect_from_device_with, hp] at h
  | ok cm =>
    cases hdc : m.delay_checkers_[K.thread_id]? with
    | none => simp [connect_from_device_with, hp, hdc] at h
    | some dc =>
      cases hh : m.target_table_devices_.target_from_devices_[tid]? with
      | none => simp [connect_from_device_with, hp, hdc, hh] at h
      | some row =>
        cases hr : (add_connection_to_row row key cm dc add).result with
        | error e => simp [connect_from_device_with, hp, hdc, hh, hr] at h
        | ok row1 =>
          cases hvv : increment_num_connections m.vv_num_connections_ tid syn with
          | none => simp [connect_from_device_with, hp, hdc, hh, hr, put_model, hvv] at h
          | some vv =>
            refine ⟨cm, dc, row, row1, vv, rfl, hr, rfl, ?_⟩
            simp [connect_from_device_with, hp, hdc, hh, hr, put_model, hvv]

/-- A failing `connect_from_device_` in a state whose per-thread vectors have
equal lengths leaves the store, the tables and the counters as they were. -/
theorem connect_from_device_with_error_frame (K : Kernel) (m : ConnectionBuilderManager)
    (key : index) (tid : thread) (syn : index) (add : Adder) (e : Error)
    (hl : m.vv_num_connections_.length
      = m.target_table_devices_.target_from_devices_.length)
    (h : (connect_from_device_with K m key tid syn add).result = .error e) :
    (connect_from_device_with K m key tid syn add).state.connections_5g_
      = m.connections_5g_ ∧
    (connect_from_device_with K m key tid syn add).state.source_table_ = m.source_table_ ∧
    (connect_from_device_with K m key tid syn add).state.target_table_devices_
      = m.target_table_devices_ ∧
    (connect_from_device_with K m key tid syn add).state.vv_num_connections_
      = m.vv_num_connections_ := by
  cases hp : get_synapse_prototype m syn tid with
  | error e1 => simp [connect_from_device_with, hp]
  | ok cm =>
    cases hdc : m.delay_checkers_[K.thread_id]? with
    | none => simp [connect_from_device_with, hp, hdc]
    | some dc =>
      cases hh : m.target_table_devices_.target_from_devices_[tid]? with
      | none => simp [connect_from_device_with, hp, hdc, hh]
      | some row =>
        have hlt := lt_length_of_getElem? _ _ _ hh
        cases hr : (add_connection_to_row row key cm dc add).result with
        | error e1 => simp [connect_from_device_with, hp, hdc, hh, hr, put_model]
        | ok row1 =>
          exfalso
          obtain ⟨crow, hcrow⟩ : ∃ crow, m.vv_num_connections_[tid]? = some crow :=
            ⟨m.vv_num_connections_[tid], List.getElem?_eq_getElem (by omega)⟩
          simp [connect_from_device_with, hp, hdc, hh, hr, put_model,
            increment_num_connections, hcrow] at h

/-- `connect_from_device_` never touches the connector stores nor the source
table. -/
theorem connect_from_device_with_store (K : Kernel) (m : ConnectionBuilderManager)
    (key : index) (tid : thread) (syn : index) (add : Adder) :
    (connect_from_device_with K m key tid syn add).state.connections_5g_
      = m.connections_5g_ ∧
    (connect_from_device_with K m key tid syn add).state.source_table_
      = m.source_table_ := by
  simp only [connect_from_device_with, put_model]
  constructor
  all_goals
    repeat' split
    all_goals rfl

/-- When the prototype's `add_connection_5g` throws, `connect_from_device_` throws
the same exception and only the prototype and the delay checker may have
changed. -/
theorem connect_from_device_with_add_error (K : Kernel) (m : ConnectionBuilderManager)
    (key : index) (tid : thread) (syn : index) (add : Adder) (cm : GenericConnectorModel)
    (dc : DelayChecker) (row : List HetConnector) (e : Error)
    (hp : get_synapse_prototype m syn tid = .ok cm)
    (hdc : m.delay_checkers_[K.thread_id]? = some dc)
    (hh : m.target_table_devices_.target_from_devices_[tid]? = some row)
    (hr : (add_connection_to_row row key cm dc add).result = .error e) :
    (connect_from_device_with K m key tid syn add).result = .error e ∧
    (connect_from_device_with K m key tid syn add).state
      = put_model K m tid syn (add_connection_to_row row key cm dc add).model
          (add_connection_to_row row key cm dc add).checker := by
  simp [connect_from_device_with, hp, hdc, hh, hr]

/-! ## Counters and source table after a primitive -/

/-- What an increment of `vv_num_connections_[ tid ][ syn ]` does to the three
observations of the counters. -/
theorem counters_after_increment (m m1 : ConnectionBuilderManager) (tid : thread)
    (syn : index)
    (h : increment_num_connections m.vv_num_connections_ tid syn
      = some m1.vv_num_connections_) :
    (∀ t s, num_connections_at m1 t s
      = num_connections_at m t s + (if t = tid ∧ s = syn then 1 else 0)) ∧
    get_num_connections m1 = get_num_connections m + 1 ∧
    (∀ s, get_num_connections_syn m1 s
      = get_num_connections_syn m s + (if s = syn then 1 else 0)) :=
  ⟨fun t s => increment_at _ _ tid syn h t s, increment_sum _ _ tid syn h,
    fun s => increment_sum_syn _ _ tid syn h s⟩

theorem add_source_get (st st1 : SourceTable) (tid : thread) (syn : synindex) (gid : index)
    (h : st.add_source tid syn gid = some st1) (t : thread) (s : synindex) :
    st1.get_sources t s
      = st.get_sources t s ++ (if t = tid ∧ s = syn then [gid] else []) := by
  unfold SourceTable.add_source at h
  split at h
  · cases h
  · next row hrow =>
    cases h
    have hlt := lt_length_of_getElem? _ tid row hrow
    have hrow1 : st.sources_.getD tid [] = row := getD_of_getElem? _ tid row [] hrow
    simp only [SourceTable.get_sources]
    by_cases ht : t = tid
    · subst ht
      rw [getD_set_eq _ _ _ _ hlt, hrow1]
      by_cases hs : s = syn
      · subst hs
        rw [getD_set_eq _ _ _ _ (grow_length row s []), grow_getD]
        simp
      · rw [getD_set_ne _ _ _ _ _ (fun e => hs e.symm), grow_getD]
        simp [hs]
    · rw [getD_set_ne _ _ _ _ _ (fun e => ht e.symm)]
      simp [ht]

/-! ## C1: a connection between two nodes with proxies -/

/-- C1. For every call `connect(sgid, target, target_thread, syn, d, w)` in which
source and target both have proxies and which succeeds: the cached counter of
`(target_thread, syn)` increases by exactly 1, every other counter entry keeps
its value, `sgid` becomes the last entry of the source table of
`(target_thread, syn)`, and `get_num_connections()` and
`get_num_connections(syn)` both increase by exactly 1. -/
theorem connect_proxies_to_proxies (K : Kernel) (m : ConnectionBuilderManager) (sgid : index)
    (target : Node) (target_thread : thread) (syn : index) (d w : double_t)
    (hs : (K.get_node sgid target_thread).has_proxies = true)
    (ht : target.has_proxies = true)
    (hok : (connect K m sgid target target_thread syn d w).result = .ok ()) :
    num_connections_at (connect K m sgid target target_thread syn d w).state target_thread syn
      = num_connections_at m target_thread syn + 1 ∧
    (∀ t s, ¬(t = target_thread ∧ s = syn) →
      num_connections_at (connect K m sgid target target_thread syn d w).state t s
        = num_connections_at m t s) ∧
    (connect K m sgid target target_thread syn d w).state.source_table_.get_sources
        target_thread syn
      = m.source_table_.get_sources target_thread syn ++ [sgid] ∧
    get_num_connections (connect K m sgid target target_thread syn d w).state
      = get_num_connections m + 1 ∧
    get_num_connections_syn (connect K m sgid target target_thread syn d w).state syn
      = get_num_connections_syn m syn + 1 := by
  have hc : connect K m sgid target target_thread syn d w
      = connect_with K m sgid target_thread syn (fun cm dc h =>
          add_connection_5g K cm dc (K.get_node sgid target_thread) target h syn d w) := by
    simp [connect, connect_route, hs, ht, connect_]
  rw [hc] at hok ⊢
  obtain ⟨cm, dc, hetconn, hetconn1, st, vv, -, -, hst, hvv, hstate⟩ :=
    connect_with_ok_form K m sgid target_thread syn _ hok
  rw [hstate]
  obtain ⟨h1, h2, h3⟩ := counters_after_increment m
    { put_model K m target_thread syn
        (add_connection_5g K cm dc (K.get_node sgid target_thread) target hetconn syn d w).model
        (add_connection_5g K cm dc (K.get_node sgid target_thread) target hetconn syn d w).checker
      with
      connections_5g_ := m.connections_5g_.set target_thread hetconn1
      source_table_ := st
      vv_num_connections_ := vv } target_thread syn hvv
  refine ⟨?_, ?_, ?_, h2, ?_⟩
  · simpa using h1 target_thread syn
  · intro t s hne
    simpa [hne] using h1 t s
  · simpa using add_source_get _ _ target_thread syn sgid hst target_thread syn
  · simpa using h3 syn

/-- The call of C1 on the example network: neuron 1 to neuron 3 (on thread 1)
with delay 5.0 ms succeeds and the total count goes from 0 to 1. -/
theorem connect_proxies_to_proxies_witness :
    (connect (example_kernel 1) example_state 1 (example_node 3 1) 1 0 (.val 50)
      (.val 20)).result = .ok () ∧
    get_num_connections (connect (example_kernel 1) example_state 1 (example_node 3 1) 1 0
      (.val 50) (.val 20)).state = get_num_connections example_state + 1 :=
  ⟨by rfl,
    (connect_proxies_to_proxies (example_kernel 1) example_state 1 (example_node 3 1) 1 0
      (.val 50) (.val 20) (by decide) (by decide) (by rfl)).2.2.2.1⟩

/-! ## C2: a rejected delay -/

theorem raisesBadDelayUnchanged_of_add (K : Kernel) (m : ConnectionBuilderManager)
    (s_gid : index) (tid : thread) (syn : index) (add : Adder) (cm : GenericConnectorModel)
    (dc : DelayChecker) (hetconn : HetConnector)
    (hp : get_synapse_prototype m syn tid = .ok cm)
    (hdc : m.delay_checkers_[K.thread_id]? = some dc)
    (hh : m.connections_5g_[tid]? = some hetconn)
    (hr : (add cm dc hetconn).result = .error .BadDelay) :
    RaisesBadDelayUnchanged m (connect_with K m s_gid tid syn add) := by
  obtain ⟨h1, h2⟩ := connect_with_add_error K m s_gid tid syn add cm dc hetconn _ hp hdc hh hr
  refine ⟨h1, ?_, ?_, ?_, ?_⟩ <;> rw [h2] <;> rfl

theorem add_connection_5g__ne_bad_delay (K : Kernel) (src tgt : Node) (hetconn : HetConnector)
    (syn_id : synindex) (c : Connection) (receptor_type : rport) :
    add_connection_5g_ K src tgt hetconn syn_id c receptor_type ≠ .error .BadDelay := by
  unfold add_connection_5g_
  repeat' split
  all_goals simp

theorem add_connection_5g_dict_tail_ne_bad_delay (K : Kernel) (cm : GenericConnectorModel)
    (src tgt : Node) (hetconn : HetConnector) (syn_id : synindex) (p : Dictionary)
    (delay weight : double_t) :
    add_connection_5g_dict_tail K cm src tgt hetconn syn_id p delay weight
      ≠ .error .BadDelay := by
  simp only [add_connection_5g_dict_tail]
  split
  · simp
  · split
    · next e he =>
      intro h
      simp only [Except.error.injEq] at h
      subst h
      unfold updateValue_long at he
      split at he <;> simp at he
    · exact add_connection_5g__ne_bad_delay K src tgt hetconn syn_id _ _

/-- When the prototype's `add_connection_5g` does not raise `BadDelay`, neither
does `connect_`. -/
theorem connect_with_ne_bad_delay (K : Kernel) (m : ConnectionBuilderManager) (s_gid : index)
    (tid : thread) (syn : index) (add : Adder) (cm : GenericConnectorModel)
    (dc : DelayChecker) (hetconn : HetConnector)
    (hp : get_synapse_prototype m syn tid = .ok cm)
    (hdc : m.delay_checkers_[K.thread_id]? = some dc)
    (hh : m.connections_5g_[tid]? = some hetconn)
    (hne : (add cm dc hetconn).result ≠ .error .BadDelay) :
    (connect_with K m s_gid tid syn add).result ≠ .error .BadDelay := by
  cases hr : (add cm dc hetconn).result with
  | error e =>
    rw [(connect_with_add_error K m s_gid tid syn add cm dc hetconn e hp hdc hh hr).1]
    rw [hr] at hne
    intro h
    simp only [Except.error.injEq] at h
    subst h
    exact hne rfl
  | ok hetconn1 =>
    simp only [connect_with, hp, hdc, hh, hr]
    repeat' split
    all_goals simp

/-- C2, counterexample. On the example network the default delay of 1.0 ms is
validated by a first `connect_` without delay argument, which clears
`default_delay_needs_check_`; the window is then narrowed to [2.0, 10.0] ms.
The delay checker now rejects the default delay, but a second `connect_`
without delay argument does not hand it to the checker: the call succeeds and
the count goes from 1 to 2. For the prototype without delay
(`has_delay_` false) whose flag is still set, the value handed to the checker
is the waveform-relaxation interval of 5.0 ms, which the window accepts, so the
call succeeds although the checker rejects the default delay. -/
theorem connect__default_delay_counterexample :
    get_synapse_prototype example_state_default_used_narrow 0 1 = .ok example_prototype_checked ∧
    example_state_default_used_narrow.delay_checkers_[(example_kernel 1).thread_id]?
      = some ⟨20, 100, true, false⟩ ∧
    (example_kernel 1).assert_valid_delay_ms ⟨20, 100, true, false⟩
      example_prototype_checked.default_connection_.delay = none ∧
    (connect_ (example_kernel 1) example_state_default_used_narrow (example_node 7 1)
      (example_node 5 1) 7 1 0 .nan .nan).result = .ok () ∧
    get_num_connections example_state_default_used_narrow = 1 ∧
    get_num_connections
      (connect_ (example_kernel 1) example_state_default_used_narrow (example_node 7 1)
        (example_node 5 1) 7 1 0 .nan .nan).state = 2 ∧
    (connect_dict_ (example_kernel 1) example_state_default_used_narrow (example_node 7 1)
      (example_node 5 1) 7 1 0 [] .nan .nan).result = .ok () ∧
    ¬ RaisesBadDelayUnchanged example_state_default_used_narrow
      (connect_ (example_kernel 1) example_state_default_used_narrow (example_node 7 1)
        (example_node 5 1) 7 1 0 .nan .nan) ∧
    get_synapse_prototype example_state_no_delay 0 1 = .ok example_prototype_no_delay ∧
    (example_kernel_wfr 1).assert_valid_delay_ms ⟨20, 100, true, false⟩
      example_prototype_no_delay.default_connection_.delay = none ∧
    (connect_ (example_kernel_wfr 1) example_state_no_delay (example_node 7 1)
      (example_node 5 1) 7 1 0 .nan .nan).result = .ok () ∧
    get_num_connections
      (connect_ (example_kernel_wfr 1) example_state_no_delay (example_node 7 1)
        (example_node 5 1) 7 1 0 .nan .nan).state = 1 := by
  refine ⟨by rfl, by rfl, by rfl, by rfl, by decide, by decide, by rfl, ?_, by rfl, by rfl,
    by rfl, by decide⟩
  intro h
  have h1 : (connect_ (example_kernel 1) example_state_default_used_narrow (example_node 7 1)
      (example_node 5 1) 7 1 0 .nan .nan).result = .ok () := by rfl
  have h2 := h.1
  rw [h1] at h2
  cases h2

/-- C2, amended. In a state in which the prototype of `syn`, the delay checker
of the calling thread and the store of `tid` exist: whenever the delay checker
rejects the delay handed to it, both overloads of `connect_` raise `BadDelay`
and leave the connector stores, the source table, the Target-Device Table and
every counter unchanged. The delay handed to the checker is the explicit delay
argument; the `delay` entry of the dictionary when the argument is NaN; and,
when neither is given and `default_delay_needs_check_` is set, the value
`used_default_delay` checks: the default delay of the synapse type, or the
waveform-relaxation communication interval when the synapse type has no
delay. When neither is given and `default_delay_needs_check_` is not set, the
checker is not consulted and `connect_` does not raise `BadDelay`. -/
theorem connect__rejected_delay (K : Kernel) (m : ConnectionBuilderManager) (s r : Node)
    (s_gid : index) (tid : thread) (syn : index) (cm : GenericConnectorModel)
    (dc : DelayChecker) (hetconn : HetConnector)
    (hp : get_synapse_prototype m syn tid = .ok cm)
    (hdc : m.delay_checkers_[K.thread_id]? = some dc)
    (hh : m.connections_5g_[tid]? = some hetconn) :
    (∀ d w, is_nan d = false → K.assert_valid_delay_ms dc d = none →
      RaisesBadDelayUnchanged m (connect_ K m s r s_gid tid syn d w)) ∧
    (∀ w, cm.default_delay_needs_check_ = true →
      K.assert_valid_delay_ms dc
        (if cm.has_delay_ then cm.default_connection_.delay else K.wfr_comm_interval) = none →
      RaisesBadDelayUnchanged m (connect_ K m s r s_gid tid syn .nan w)) ∧
    (∀ p d w, is_nan d = false → K.assert_valid_delay_ms dc d = none →
      RaisesBadDelayUnchanged m (connect_dict_ K m s r s_gid tid syn p d w)) ∧
    (∀ p d1 w, updateValue_double p "delay" = .ok (some d1) →
      K.assert_valid_delay_ms dc d1 = none →
      RaisesBadDelayUnchanged m (connect_dict_ K m s r s_gid tid syn p .nan w)) ∧
    (∀ p w, updateValue_double p "delay" = .ok none →
      cm.default_delay_needs_check_ = true →
      K.assert_valid_delay_ms dc
        (if cm.has_delay_ then cm.default_connection_.delay else K.wfr_comm_interval) = none →
      RaisesBadDelayUnchanged m (connect_dict_ K m s r s_gid tid syn p .nan w)) ∧
    (∀ w, cm.default_delay_needs_check_ = false →
      (connect_ K m s r s_gid tid syn .nan w).result ≠ .error .BadDelay) ∧
    (∀ p w, updateValue_double p "delay" = .ok none →
      cm.default_delay_needs_check_ = false →
      (connect_dict_ K m s r s_gid tid syn p .nan w).result ≠ .error .BadDelay) := by
  refine ⟨?_, ?_, ?_, ?_, ?_, ?_, ?_⟩
  · intro d w hd hrej
    apply raisesBadDelayUnchanged_of_add K m s_gid tid syn _ cm dc hetconn hp hdc hh
    simp [add_connection_5g, hd, hrej]
  · intro w hflag hrej
    apply raisesBadDelayUnchanged_of_add K m s_gid tid syn _ cm dc hetconn hp hdc hh
    simp [add_connection_5g, is_nan, used_default_delay, hflag, hrej]
  · intro p d w hd hrej
    apply raisesBadDelayUnchanged_of_add K m s_gid tid syn _ cm dc hetconn hp hdc hh
    simp [add_connection_5g_dict, hd, hrej]
  · intro p d1 w hp1 hrej
    apply raisesBadDelayUnchanged_of_add K m s_gid tid syn _ cm dc hetconn hp hdc hh
    simp [add_connection_5g_dict, is_nan, hp1, hrej]
  · intro p w hp1 hflag hrej
    apply raisesBadDelayUnchanged_of_add K m s_gid tid syn _ cm dc hetconn hp hdc hh
    simp [add_connection_5g_dict, is_nan, hp1, used_default_delay, hflag, hrej]
  · intro w hflag
    apply connect_with_ne_bad_delay K m s_gid tid syn _ cm dc hetconn hp hdc hh
    simp only [add_connection_5g, is_nan, used_default_delay, hflag]
    exact add_connection_5g__ne_bad_delay K s r hetconn syn _ _
  · intro p w hp1 hflag
    apply connect_with_ne_bad_delay K m s_gid tid syn _ cm dc hetconn hp hdc hh
    simp only [add_connection_5g_dict, is_nan, hp1, used_default_delay, hflag]
    exact add_connection_5g_dict_tail_ne_bad_delay K cm s r hetconn syn p _ _

/-- The scenario of the spec: with the window [0.1, 10.0] ms a connection with
the explicit delay 15.0 ms is rejected, by both overloads, and so is a `delay`
entry of 15.0 ms in the dictionary; with the window [2.0, 10.0] ms the default
delay 1.0 ms is rejected. -/
theorem connect__rejected_delay_witness :
    RaisesBadDelayUnchanged example_state
      (connect_ (example_kernel 1) example_state (example_node 1 1) (example_node 3 1) 1 1 0
        (.val 150) (.val 20)) ∧
    RaisesBadDelayUnchanged example_state
      (connect_dict_ (example_kernel 1) example_state (example_node 1 1) (example_node 3 1)
        1 1 0 [] (.val 150) (.val 20)) ∧
    RaisesBadDelayUnchanged example_state
      (connect_dict_ (example_kernel 1) example_state (example_node 1 1) (example_node 3 1)
        1 1 0 [("delay", .double (.val 150))] .nan (.val 20)) ∧
    RaisesBadDelayUnchanged example_state_narrow
      (connect_ (example_kernel 1) example_state_narrow (example_node 1 1) (example_node 3 1)
        1 1 0 .nan (.val 20)) :=
  ⟨(connect__rejected_delay (example_kernel 1) example_state (example_node 1 1)
      (example_node 3 1) 1 1 0 example_prototype ⟨1, 100, true, false⟩ [] (by rfl) (by rfl)
      (by rfl)).1 (.val 150) (.val 20) (by rfl) (by rfl),
    (connect__rejected_delay (example_kernel 1) example_state (example_node 1 1)
      (example_node 3 1) 1 1 0 example_prototype ⟨1, 100, true, false⟩ [] (by rfl) (by rfl)
      (by rfl)).2.2.1 [] (.val 150) (.val 20) (by rfl) (by rfl),
    (connect__rejected_delay (example_kernel 1) example_state (example_node 1 1)
      (example_node 3 1) 1 1 0 example_prototype ⟨1, 100, true, false⟩ [] (by rfl) (by rfl)
      (by rfl)).2.2.2.1 [("delay", .double (.val 150))] (.val 150) (.val 20) (by rfl) (by rfl),
    (connect__rejected_delay (example_kernel 1) example_state_narrow (example_node 1 1)
      (example_node 3 1) 1 1 0 example_prototype ⟨20, 100, true, false⟩ [] (by rfl) (by rfl)
      (by rfl)).2.1 (.val 20) (by rfl) (by rfl)⟩

/-! ## C3: the record created by `add_connection_5g` -/

theorem used_default_delay_receptor (K : Kernel) (cm : GenericConnectorModel)
    (dc : DelayChecker) :
    (used_default_delay K cm dc).model.receptor_type_ = cm.receptor_type_ := by
  unfold used_default_delay
  split
  · split <;> rfl
  · rfl

theorem new_connection_bound (cm : GenericConnectorModel) (tgt : Node)
    (delay weight : double_t) :
    { new_connection cm delay weight with
      target := tgt.get_gid, receptor := cm.receptor_type_ }
      = default_copy cm tgt delay weight := by
  cases delay <;> cases weight <;> rfl

/-- C3. For every call `add_connection_5g(src, tgt, hetconn, syn_id, delay, weight)`
that succeeds, the store afterwards is the store before with one record
appended (in a new connector at the end when the type had none, at the end of
the connector of the type otherwise), and that record is the copy of the
default connection in which the weight is the argument exactly when the
argument is not NaN and the delay is the argument exactly when the argument is
not NaN. -/
theorem add_connection_5g_record (K : Kernel) (cm : GenericConnectorModel)
    (dc : DelayChecker) (src tgt : Node) (hetconn hetconn1 : HetConnector)
    (syn_id : synindex) (delay weight : double_t)
    (h : (add_connection_5g K cm dc src tgt hetconn syn_id delay weight).result
      = .ok hetconn1) :
    ((find_synapse_index hetconn syn_id = none ∧
        hetconn1 = hetconn ++ [⟨syn_id, [default_copy cm tgt delay weight]⟩]) ∨
      (∃ i conn, find_synapse_index hetconn syn_id = some i ∧ hetconn[i]? = some conn ∧
        conn.syn_id = syn_id ∧
        hetconn1 = hetconn.set i
          ⟨conn.syn_id, conn.C_ ++ [default_copy cm tgt delay weight]⟩)) ∧
    (default_copy cm tgt delay weight).weight
      = (if is_nan weight then cm.default_connection_.weight else weight) ∧
    (default_copy cm tgt delay weight).delay
      = (if is_nan delay then cm.default_connection_.delay else delay) ∧
    (default_copy cm tgt .nan .nan).weight = cm.default_connection_.weight ∧
    (default_copy cm tgt .nan .nan).delay = cm.default_connection_.delay := by
  refine ⟨?_, rfl, rfl, rfl, rfl⟩
  have key : ∃ rt, rt = cm.receptor_type_ ∧
      add_connection_5g_ K src tgt hetconn syn_id (new_connection cm delay weight) rt
        = .ok hetconn1 := by
    simp only [add_connection_5g] at h
    split at h
    · cases h
    · split at h
      · cases h
      · refine ⟨_, ?_, h⟩
        split
        · rfl
        · exact used_default_delay_receptor K cm _
  obtain ⟨rt, hrt, hadd⟩ := key
  subst hrt
  cases hf : find_synapse_index hetconn syn_id with
  | none =>
    left
    refine ⟨rfl, ?_⟩
    rw [add_connection_5g__new K src tgt hetconn hetconn1 syn_id _ _ hf hadd,
      new_connection_bound]
  | some i =>
    right
    obtain ⟨conn, hc, hs, he⟩ :=
      add_connection_5g__old K src tgt hetconn hetconn1 syn_id _ _ i hf hadd
    refine ⟨i, conn, rfl, hc, hs, ?_⟩
    rw [he, new_connection_bound]
    rfl

/-- Two calls on the example network: with weight 2.0 and delay 5.0 ms the
stored record carries them; with both NaN it carries the default weight 1.0 and
the default delay 1.0 ms. -/
theorem add_connection_5g_record_witness :
    (add_connection_5g (example_kernel 1) example_prototype ⟨1, 100, true, false⟩
      (example_node 1 1) (example_node 3 1) [] 0 (.val 50) (.val 20)).result
      = .ok [⟨0, [⟨3, 0, 0, .val 20, .val 50⟩]⟩] ∧
    (add_connection_5g (example_kernel 1) example_prototype ⟨1, 100, true, false⟩
      (example_node 1 1) (example_node 3 1) [] 0 .nan .nan).result
      = .ok [⟨0, [⟨3, 0, 0, .val 10, .val 10⟩]⟩] ∧
    (default_copy example_prototype (example_node 3 1) (.val 50) (.val 20)).weight = .val 20 :=
  ⟨by rfl, by rfl,
    (add_connection_5g_record (example_kernel 1) example_prototype ⟨1, 100, true, false⟩
      (example_node 1 1) (example_node 3 1) [] _ 0 (.val 50) (.val 20) (by rfl)).2.1⟩

/-- A successful `connect_to_device_` adds exactly one record, of type `syn`, to
the to-device table of thread `tid`, leaves the from-device table alone and
increments the counter of `(tid, syn)`. -/
theorem connect_to_device_with_counts (K : Kernel) (m : ConnectionBuilderManager)
    (key : index) (tid : thread) (syn : index) (add : Adder) (hadd : AddsOne syn add)
    (h : (connect_to_device_with K m key tid syn add).result = .ok ()) :
    (∀ t s, to_device_num_connections (connect_to_device_with K m key tid syn add).state t s
      = to_device_num_connections m t s + (if t = tid ∧ s = syn then 1 else 0)) ∧
    (connect_to_device_with K m key tid syn add).state.target_table_devices_.target_from_devices_
      = m.target_table_devices_.target_from_devices_ ∧
    (∀ t s, num_connections_at (connect_to_device_with K m key tid syn add).state t s
      = num_connections_at m t s + (if t = tid ∧ s = syn then 1 else 0)) ∧
    get_num_connections (connect_to_device_with K m key tid syn add).state
      = get_num_connections m + 1 ∧
    (∀ s, get_num_connections_syn (connect_to_device_with K m key tid syn add).state s
      = get_num_connections_syn m s + (if s = syn then 1 else 0)) := by
  obtain ⟨cm, dc, row, row1, vv, hrow, hr, hvv, hstate⟩ :=
    connect_to_device_with_ok_form K m key tid syn add h
  rw [hstate]
  obtain ⟨h1, h2, h3⟩ := counters_after_increment m
    { put_model K m tid syn (add_connection_to_row row key cm dc add).model
        (add_connection_to_row row key cm dc add).checker with
      target_table_devices_ :=
        { m.target_table_devices_ with
          target_to_devices_ := m.target_table_devices_.target_to_devices_.set tid row1 }
      vv_num_connections_ := vv } tid syn hvv
  refine ⟨?_, rfl, h1, h2, h3⟩
  intro t s
  have hlt := lt_length_of_getElem? _ tid row hrow
  have hrow0 : m.target_table_devices_.target_to_devices_.getD tid [] = row :=
    getD_of_getElem? _ tid row [] hrow
  have hcount := add_connection_to_row_count row row1 key cm dc add syn hadd hr s
  simp only [to_device_num_connections, put_model]
  by_cases ht : t = tid
  · subst ht
    rw [getD_set_eq _ _ _ _ hlt, hrow0, hcount]
    by_cases hs : s = syn
    · subst hs
      simp
    · have hs1 : ¬ syn = s := fun e => hs e.symm
      simp [hs, hs1]
  · rw [getD_set_ne _ _ _ _ _ (fun e => ht e.symm)]
    simp [ht]

/-- A successful `connect_from_device_` adds exactly one record, of type `syn`, to
the from-device table of thread `tid`, leaves the to-device table alone and
increments the counter of `(tid, syn)`. -/
theorem connect_from_device_with_counts (K : Kernel) (m : ConnectionBuilderManager)
    (key : index) (tid : thread) (syn : index) (add : Adder) (hadd : AddsOne syn add)
    (h : (connect_from_device_with K m key tid syn add).result = .ok ()) :
    (∀ t s, from_device_num_connections (connect_from_device_with K m key tid syn add).state t s
      = from_device_num_connections m t s + (if t = tid ∧ s = syn then 1 else 0)) ∧
    (connect_from_device_with K m key tid syn add).state.target_table_devices_.target_to_devices_
      = m.target_table_devices_.target_to_devices_ ∧
    (∀ t s, num_connections_at (connect_from_device_with K m key tid syn add).state t s
      = num_connections_at m t s + (if t = tid ∧ s = syn then 1 else 0)) ∧
    get_num_connections (connect_from_device_with K m key tid syn add).state
      = get_num_connections m + 1 ∧
    (∀ s, get_num_connections_syn (connect_from_device_with K m key tid syn add).state s
      = get_num_connections_syn m s + (if s = syn then 1 else 0)) := by
  obtain ⟨cm, dc, row, row1, vv, hrow, hr, hvv, hstate⟩ :=
    connect_from_device_with_ok_form K m key tid syn add h
  rw [hstate]
  obtain ⟨h1, h2, h3⟩ := counters_after_increment m
    { put_model K m tid syn (add_connection_to_row row key cm dc add).model
        (add_connection_to_row row key cm dc add).checker with
      target_table_devices_ :=
        { m.target_table_devices_ with
          target_from_devices_ := m.target_table_devices_.target_from_devices_.set tid row1 }
      vv_num_connections_ := vv } tid syn hvv
  refine ⟨?_, rfl, h1, h2, h3⟩
  intro t s
  have hlt := lt_length_of_getElem? _ tid row hrow
  have hrow0 : m.target_table_devices_.target_from_devices_.getD tid [] = row :=
    getD_of_getElem? _ tid row [] hrow
  have hcount := add_connection_to_row_count row row1 key cm dc add syn hadd hr s
  simp only [from_device_num_connections, put_model]
  by_cases ht : t = tid
  · subst ht
    rw [getD_set_eq _ _ _ _ hlt, hrow0, hcount]
    by_cases hs : s = syn
    · subst hs
      simp
    · have hs1 : ¬ syn = s := fun e => hs e.symm
      simp [hs, hs1]
  · rw [getD_set_ne _ _ _ _ _ (fun e => ht e.symm)]
    simp [ht]

/-! ## C4: from a node with proxies to a device -/

/-- C4. For every call `connect(sgid, target, target_thread, syn, d, w)` in which
the source has proxies and the target has none: when the source node is not a
proxy and lives on the calling thread, the call is the call of
`connect_to_device_`, which on success creates exactly one connection, in the
to-device table of `target_thread`, and counts it; in every other case the call
returns normally and leaves the whole state unchanged. -/
theorem connect_proxies_to_device (K : Kernel) (m : ConnectionBuilderManager) (sgid : index)
    (target : Node) (target_thread : thread) (syn : index) (d w : double_t)
    (hs : (K.get_node sgid target_thread).has_proxies = true)
    (ht : target.has_proxies = false) :
    (((K.get_node sgid target_thread).is_proxy = false ∧
        (K.get_node sgid target_thread).get_thread = K.thread_id) →
      connect K m sgid target target_thread syn d w
        = connect_to_device_ K m (K.get_node sgid target_thread) target sgid target_thread
            syn d w ∧
      ((connect K m sgid target target_thread syn d w).result = .ok () →
        (∀ t s,
          to_device_num_connections (connect K m sgid target target_thread syn d w).state t s
            = to_device_num_connections m t s
              + (if t = target_thread ∧ s = syn then 1 else 0)) ∧
        (∀ t s,
          from_device_num_connections (connect K m sgid target target_thread syn d w).state t s
            = from_device_num_connections m t s) ∧
        (connect K m sgid target target_thread syn d w).state.connections_5g_
          = m.connections_5g_ ∧
        (connect K m sgid target target_thread syn d w).state.source_table_
          = m.source_table_ ∧
        (∀ t s, num_connections_at (connect K m sgid target target_thread syn d w).state t s
          = num_connections_at m t s + (if t = target_thread ∧ s = syn then 1 else 0)) ∧
        get_num_connections (connect K m sgid target target_thread syn d w).state
          = get_num_connections m + 1)) ∧
    (¬((K.get_node sgid target_thread).is_proxy = false ∧
        (K.get_node sgid target_thread).get_thread = K.thread_id) →
      (connect K m sgid target target_thread syn d w).result = .ok () ∧
      (connect K m sgid target target_thread syn d w).state = m) := by
  constructor
  · intro hc
    have heq : connect K m sgid target target_thread syn d w
        = connect_to_device_ K m (K.get_node sgid target_thread) target sgid target_thread
            syn d w := by
      simp [connect, connect_route, hs, ht, hc.1, hc.2]
    refine ⟨heq, ?_⟩
    rw [heq]
    intro hok
    obtain ⟨h1, h2, h3, h4, -⟩ := connect_to_device_with_counts K m sgid target_thread syn _
      (add_connection_5g_addsOne K (K.get_node sgid target_thread) target syn d w) hok
    obtain ⟨h5, h6⟩ := connect_to_device_with_store K m sgid target_thread syn
      (fun cm dc h =>
        add_connection_5g K cm dc (K.get_node sgid target_thread) target h syn d w)
    refine ⟨h1, ?_, h5, h6, h3, h4⟩
    intro t s
    unfold from_device_num_connections
    unfold connect_to_device_
    rw [h2]
  · intro hc
    have hc1 : (K.get_node sgid target_thread).is_proxy = true ∨
        (K.get_node sgid target_thread).get_thread ≠ K.thread_id := by
      by_cases hp : (K.get_node sgid target_thread).is_proxy = true
      · exact Or.inl hp
      · right
        intro he
        exact hc ⟨by simpa using hp, he⟩
    rcases hc1 with hp | hth
    · simp [connect, connect_route, hs, ht, hp]
    · simp [connect, connect_route, hs, ht, hth]

/-- On the example network, neuron 2 (on thread 0) to device 12: on thread 0 the
call succeeds and the count goes up by one; on thread 1, where neuron 2 is a
proxy, nothing changes. -/
theorem connect_proxies_to_device_witness :
    (connect (example_kernel 0) example_state 2 (example_node 12 0) 0 0 (.val 50)
      (.val 20)).result = .ok () ∧
    get_num_connections (connect (example_kernel 0) example_state 2 (example_node 12 0) 0 0
      (.val 50) (.val 20)).state = get_num_connections example_state + 1 ∧
    (connect (example_kernel 1) example_state 2 (example_node 12 1) 1 0 (.val 50)
      (.val 20)).state = example_state :=
  ⟨by rfl,
    (((connect_proxies_to_device (example_kernel 0) example_state 2 (example_node 12 0) 0 0
      (.val 50) (.val 20) (by rfl) (by rfl)).1 ⟨by rfl, by rfl⟩).2 (by rfl)).2.2.2.2.2,
    ((connect_proxies_to_device (example_kernel 1) example_state 2 (example_node 12 1) 1 0
      (.val 50) (.val 20) (by rfl) (by rfl)).2 (by decide)).2⟩

/-! ## C5: from a device to a node with proxies -/

/-- C5, counterexample. Two worker threads; the target, neuron 3, is assigned to
thread 1 by `vp_to_thread(suggest_vp(3))`. A call made on thread 0 with the
device 12 as source is not a no-op: it succeeds and creates a connection,
counted in the shard of `target_thread`. -/
theorem connect_device_to_proxies_counterexample :
    ((example_kernel 0).get_node 12 1).has_proxies = false ∧
    (example_node 3 1).has_proxies = true ∧
    (example_kernel 0).vp_to_thread ((example_kernel 0).suggest_vp 3)
      ≠ (example_kernel 0).thread_id ∧
    (connect (example_kernel 0) example_state 12 (example_node 3 1) 1 0 .nan .nan).result
      = .ok () ∧
    get_num_connections
      (connect (example_kernel 0) example_state 12 (example_node 3 1) 1 0 .nan .nan).state = 1 ∧
    get_num_connections example_state = 0 ∧
    from_device_num_connections
      (connect (example_kernel 0) example_state 12 (example_node 3 1) 1 0 .nan .nan).state 1 0
      = 1 := by
  refine ⟨by rfl, by rfl, by decide, by rfl, by rfl, by rfl, by rfl⟩

/-- C5, amended. For every call of a connect overload in which the source has
no proxies and the target has proxies, the call is the call of
`connect_from_device_` for the shard `target_thread` (in the gid/gid overload:
the thread of the target, when the target is local), whatever the calling
thread: no overload compares the calling thread with
`vp_to_thread(suggest_vp(gid))`. On success exactly one connection is recorded,
in the from-device table and the counter of that shard. -/
theorem connect_device_to_proxies (K : Kernel) (m : ConnectionBuilderManager) (sgid : index)
    (target : Node) (target_thread : thread) (syn : index) (params : Dictionary)
    (d w : double_t)
    (hs : (K.get_node sgid target_thread).has_proxies = false)
    (ht : target.has_proxies = true) :
    connect K m sgid target target_thread syn d w
      = connect_from_device_ K m (K.get_node sgid target_thread) target sgid target_thread
          syn d w ∧
    connect_dict K m sgid target target_thread syn params d w
      = connect_from_device_dict_ K m (K.get_node sgid target_thread) target sgid
          target_thread syn params d w ∧
    (K.is_local_gid target.get_gid = true →
      K.get_node target.get_gid K.thread_id = target → target.get_thread = target_thread →
      connect_gid K m sgid target.get_gid params syn
        = returns_true (connect_from_device_dict_ K m (K.get_node sgid target_thread) target
            sgid target_thread syn params .nan .nan)) ∧
    ((connect K m sgid target target_thread syn d w).result = .ok () →
      (∀ t s,
        from_device_num_connections (connect K m sgid target target_thread syn d w).state t s
          = from_device_num_connections m t s
            + (if t = target_thread ∧ s = syn then 1 else 0)) ∧
      (∀ t s, num_connections_at (connect K m sgid target target_thread syn d w).state t s
        = num_connections_at m t s + (if t = target_thread ∧ s = syn then 1 else 0)) ∧
      get_num_connections (connect K m sgid target target_thread syn d w).state
        = get_num_connections m + 1) := by
  have heq : connect K m sgid target target_thread syn d w
      = connect_from_device_ K m (K.get_node sgid target_thread) target sgid target_thread
          syn d w := by
    simp [connect, connect_route, hs, ht]
  refine ⟨heq, ?_, ?_, ?_⟩
  · simp [connect_dict, connect_route, hs, ht]
  · intro hloc hnode hthr
    simp [connect_gid, connect_route, hloc, hnode, hthr, hs, ht, returns_true]
  · rw [heq]
    intro hok
    obtain ⟨h1, -, h3, h4, -⟩ := connect_from_device_with_counts K m
      (K.get_node sgid target_thread).get_local_device_id target_thread syn _
      (add_connection_5g_addsOne K (K.get_node sgid target_thread) target syn d w) hok
    exact ⟨h1, h3, h4⟩

/-- The amended C5 on the example network: the call made on thread 0 for the
target on thread 1 is the call of `connect_from_device_` for shard 1. -/
theorem connect_device_to_proxies_witness :
    connect (example_kernel 0) example_state 12 (example_node 3 1) 1 0 .nan .nan
      = connect_from_device_ (example_kernel 0) example_state (example_node 12 1)
          (example_node 3 1) 12 1 0 .nan .nan :=
  (connect_device_to_proxies (example_kernel 0) example_state 12 (example_node 3 1) 1 0 []
    .nan .nan (by rfl) (by rfl)).1

/-! ## C6: from a device to a device -/

/-- A loop over the worker threads whose body does something on one thread only
ends in the outcome of the body on that thread. -/
theorem for_threads_single (m : ConnectionBuilderManager) (tids : List thread) (a : thread)
    (body : ConnectionBuilderManager → thread → Result Unit)
    (hnodup : tids.Nodup) (ha : a ∈ tids)
    (hskip : ∀ m1 t, t ≠ a → body m1 t = ⟨m1, .ok ()⟩) :
    for_threads m tids body = body m a := by
  induction tids generalizing m with
  | nil => simp at ha
  | cons t rest ih =>
    have hnd := List.nodup_cons.mp hnodup
    by_cases hta : t = a
    · subst hta
      have hrest : ∀ m1, for_threads m1 rest body = ⟨m1, .ok ()⟩ := by
        intro m1
        have hall : ∀ x ∈ rest, x ≠ t := fun x hx e => hnd.1 (e ▸ hx)
        clear ih hnodup ha hnd
        induction rest generalizing m1 with
        | nil => rfl
        | cons y ys ihy =>
          have hy := hskip m1 y (hall y (List.mem_cons_self y ys))
          simp only [for_threads, hy]
          exact ihy m1 (fun x hx => hall x (List.mem_cons_of_mem y hx))
      cases hb : body m t with
      | mk st res =>
        cases res with
        | error e => simp [for_threads, hb]
        | ok u => simp [for_threads, hb, hrest]
    · have hmem : a ∈ rest := by
        rcases List.mem_cons.mp ha with h | h
        · exact absurd h.symm hta
        · exact h
      simp only [for_threads, hskip m t hta]
      exact ih m hnd.2 hmem

/-- C6. For every call of a connect overload in which neither source nor target
has proxies: on the thread `vp_to_thread(suggest_vp(target gid))` the call is
the call of `connect_from_device_` for that thread's shard, which on success
adds one record to the from-device table and increments the counter of that
shard; on every other thread the call returns with the state unchanged.
Consequently one call per worker thread with the same arguments has the
outcome of the single call on the assigned thread. -/
theorem connect_device_to_device (K : Kernel) (m : ConnectionBuilderManager) (sgid : index)
    (target : Node) (target_thread : thread) (syn : index) (params : Dictionary)
    (d w : double_t)
    (hs : (K.get_node sgid target_thread).has_proxies = false)
    (ht : target.has_proxies = false) :
    (K.vp_to_thread (K.suggest_vp target.get_gid) = K.thread_id →
      connect K m sgid target target_thread syn d w
        = connect_from_device_ K m (K.get_node sgid target_thread) target sgid K.thread_id
            syn d w ∧
      connect_dict K m sgid target target_thread syn params d w
        = connect_from_device_dict_ K m (K.get_node sgid target_thread) target sgid
            K.thread_id syn params d w ∧
      ((connect K m sgid target target_thread syn d w).result = .ok () →
        (∀ t s,
          from_device_num_connections (connect K m sgid target target_thread syn d w).state t s
            = from_device_num_connections m t s
              + (if t = K.thread_id ∧ s = syn then 1 else 0)) ∧
        (∀ t s, num_connections_at (connect K m sgid target target_thread syn d w).state t s
          = num_connections_at m t s + (if t = K.thread_id ∧ s = syn then 1 else 0)) ∧
        get_num_connections (connect K m sgid target target_thread syn d w).state
          = get_num_connections m + 1)) ∧
    (K.vp_to_thread (K.suggest_vp target.get_gid) ≠ K.thread_id →
      connect K m sgid target target_thread syn d w = ⟨m, .ok ()⟩ ∧
      connect_dict K m sgid target target_thread syn params d w = ⟨m, .ok ()⟩) ∧
    (K.vp_to_thread (K.suggest_vp target.get_gid) < K.num_threads →
      for_threads m (List.range K.num_threads)
          (fun m1 t => connect (K.on_thread t) m1 sgid target target_thread syn d w)
        = connect_from_device_ (K.on_thread (K.vp_to_thread (K.suggest_vp target.get_gid))) m
            (K.get_node sgid target_thread) target sgid
            (K.vp_to_thread (K.suggest_vp target.get_gid)) syn d w) ∧
    (K.vp_to_thread (K.suggest_vp target.get_gid) < K.num_threads →
      (for_threads m (List.range K.num_threads)
          (fun m1 t => connect (K.on_thread t) m1 sgid target target_thread syn d w)).result
        = .ok () →
      ∀ t s,
        from_device_num_connections
            (for_threads m (List.range K.num_threads)
              (fun m1 t => connect (K.on_thread t) m1 sgid target target_thread syn d w)).state
            t s
          = from_device_num_connections m t s
            + (if t = K.vp_to_thread (K.suggest_vp target.get_gid) ∧ s = syn then 1 else 0)) ∧
    (K.is_local_gid target.get_gid = true →
      K.get_node target.get_gid K.thread_id = target → target.get_thread = target_thread →
      (K.vp_to_thread (K.suggest_vp target.get_gid) = K.thread_id →
        connect_gid K m sgid target.get_gid params syn
          = returns_true (connect_from_device_dict_ K m (K.get_node sgid target_thread)
              target sgid K.thread_id syn params .nan .nan)) ∧
      (K.vp_to_thread (K.suggest_vp target.get_gid) ≠ K.thread_id →
        connect_gid K m sgid target.get_gid params syn = ⟨m, .ok true⟩)) := by
  have hloop : K.vp_to_thread (K.suggest_vp target.get_gid) < K.num_threads →
      for_threads m (List.range K.num_threads)
          (fun m1 t => connect (K.on_thread t) m1 sgid target target_thread syn d w)
        = connect_from_device_ (K.on_thread (K.vp_to_thread (K.suggest_vp target.get_gid))) m
            (K.get_node sgid target_thread) target sgid
            (K.vp_to_thread (K.suggest_vp target.get_gid)) syn d w := by
    intro hlt
    rw [for_threads_single m (List.range K.num_threads)
      (K.vp_to_thread (K.suggest_vp target.get_gid)) _ (List.nodup_range _)
      (List.mem_range.mpr hlt)]
    · simp [connect, connect_route, Kernel.on_thread, hs, ht]
    · intro m1 t hne
      have hne1 : ¬ K.vp_to_thread (K.suggest_vp target.get_gid) = t := fun e => hne e.symm
      simp [connect, connect_route, Kernel.on_thread, hs, ht, hne1]
  refine ⟨?_, ?_, hloop, ?_, ?_⟩
  · intro hthr
    have heq : connect K m sgid target target_thread syn d w
        = connect_from_device_ K m (K.get_node sgid target_thread) target sgid K.thread_id
            syn d w := by
      simp [connect, connect_route, hs, ht, hthr]
    refine ⟨heq, ?_, ?_⟩
    · simp [connect_dict, connect_route, hs, ht, hthr]
    · rw [heq]
      intro hok
      obtain ⟨h1, -, h3, h4, -⟩ := connect_from_device_with_counts K m
        (K.get_node sgid target_thread).get_local_device_id K.thread_id syn _
        (add_connection_5g_addsOne K (K.get_node sgid target_thread) target syn d w) hok
      exact ⟨h1, h3, h4⟩
  · intro hthr
    constructor
    · simp [connect, connect_route, hs, ht, hthr]
    · simp [connect_dict, connect_route, hs, ht, hthr]
  · intro hlt
    rw [hloop hlt]
    intro hok
    exact (connect_from_device_with_counts _ m
      (K.get_node sgid target_thread).get_local_device_id _ syn _
      (add_connection_5g_addsOne _ (K.get_node sgid target_thread) target syn d w) hok).1
  · intro hloc hnode hthr
    constructor
    · intro hass
      simp [connect_gid, connect_route, hloc, hnode, hthr, hs, ht, hass]
    · intro hass
      simp [connect_gid, connect_route, hloc, hnode, hthr, hs, ht, hass]

/-- On the example network, device 12 to device 13 (assigned to thread 1): the
call on thread 1 creates the connection, the call on thread 0 changes nothing,
and one call per thread leaves exactly one connection, held by thread 1. -/
theorem connect_device_to_device_witness :
    (connect (example_kernel 1) example_state 12 (example_node 13 1) 1 0 .nan .nan).result
      = .ok () ∧
    get_num_connections
      (connect (example_kernel 1) example_state 12 (example_node 13 1) 1 0 .nan .nan).state
      = get_num_connections example_state + 1 ∧
    connect (example_kernel 0) example_state 12 (example_node 13 1) 1 0 .nan .nan
      = ⟨example_state, .ok ()⟩ ∧
    for_threads example_state (List.range (example_kernel 0).num_threads)
        (fun m1 t => connect ((example_kernel 0).on_thread t) m1 12 (example_node 13 1) 1 0
          .nan .nan)
      = connect_from_device_ ((example_kernel 0).on_thread 1) example_state (example_node 12 1)
          (example_node 13 1) 12 1 0 .nan .nan :=
  ⟨by rfl,
    (((connect_device_to_device (example_kernel 1) example_state 12 (example_node 13 1) 1 0 []
      .nan .nan (by rfl) (by rfl)).1 (by rfl)).2.2 (by rfl)).2.2,
    ((connect_device_to_device (example_kernel 0) example_state 12 (example_node 13 1) 1 0 []
      .nan .nan (by rfl) (by rfl)).2.1 (by decide)).1,
    (connect_device_to_device (example_kernel 0) example_state 12 (example_node 13 1) 1 0 []
      .nan .nan (by rfl) (by rfl)).2.2.1 (by decide)⟩

/-! ## C7 and C8: global receivers and the final `else` -/

/-- The branch for globally receiving devices is never selected: the four
conditions before it cover every combination. -/
theorem connect_route_never_global_receiver
    (source_has_proxies target_has_proxies target_local_receiver : Bool) :
    connect_route source_has_proxies target_has_proxies target_local_receiver
      ≠ .global_receiver := by
  cases source_has_proxies <;> cases target_has_proxies <;> cases target_local_receiver <;>
    decide

/-- C7, the code at the failing input. Two worker threads, target 22 without
proxies and not a local receiver. From neuron 2 the call made on thread 0
creates one connection, in the to-device table of shard 0 only: shard 1 counts
nothing and the total is 1, not 2. From device 12 the call made on thread 0, the
thread assigned to the target, creates a connection although the source is a
device. -/
theorem connect_global_receiver_divergence :
    (example_node 22 0).has_proxies = false ∧
    (example_node 22 0).local_receiver = false ∧
    (example_kernel 0).num_threads = 2 ∧
    ((example_kernel 0).get_node 2 0).has_proxies = true ∧
    num_connections_at
      (connect (example_kernel 0) example_state 2 (example_node 22 0) 0 0 .nan .nan).state 0 0
      = 1 ∧
    num_connections_at
      (connect (example_kernel 0) example_state 2 (example_node 22 0) 0 0 .nan .nan).state 1 0
      = 0 ∧
    get_num_connections
      (connect (example_kernel 0) example_state 2 (example_node 22 0) 0 0 .nan .nan).state = 1 ∧
    to_device_num_connections
      (connect (example_kernel 0) example_state 2 (example_node 22 0) 0 0 .nan .nan).state 0 0
      = 1 ∧
    ((example_kernel 0).get_node 12 0).has_proxies = false ∧
    get_num_connections
      (connect (example_kernel 0) example_state 12 (example_node 22 0) 0 0 .nan .nan).state
      = 1 := by
  refine ⟨by rfl, by rfl, by rfl, by rfl, by rfl, by rfl, by rfl, by rfl, by rfl, by rfl⟩

/-! ## No call ends in the assertion failure -/

theorem updateValue_double_no_assert (p : Dictionary) (key : String) :
    updateValue_double p key ≠ .error .AssertionFailed := by
  unfold updateValue_double
  split <;> simp

theorem updateValue_long_no_assert (p : Dictionary) (key : String) :
    updateValue_long p key ≠ .error .AssertionFailed := by
  unfold updateValue_long
  split <;> simp

theorem add_connection_5g__no_assert (K : Kernel) (src tgt : Node) (hetconn : HetConnector)
    (syn_id : synindex) (c : Connection) (receptor_type : rport) :
    add_connection_5g_ K src tgt hetconn syn_id c receptor_type ≠ .error .AssertionFailed := by
  unfold add_connection_5g_
  repeat' split
  all_goals simp

theorem used_default_delay_no_assert (K : Kernel) (cm : GenericConnectorModel)
    (dc : DelayChecker) :
    (used_default_delay K cm dc).result ≠ .error .AssertionFailed := by
  unfold used_default_delay
  repeat' split
  all_goals simp

theorem add_connection_5g_no_assert (K : Kernel) (src tgt : Node) (syn_id : synindex)
    (delay weight : double_t) :
    NoAssert (fun cm dc h => add_connection_5g K cm dc src tgt h syn_id delay weight) := by
  intro cm dc hetconn
  simp only [add_connection_5g]
  split
  · simp
  · split
    · next e he =>
      intro h
      simp only [Except.error.injEq] at h
      subst h
      split at he
      · simp at he
      · exact used_default_delay_no_assert K cm _ he
    · exact add_connection_5g__no_assert K src tgt hetconn syn_id _ _

theorem add_connection_5g_dict_tail_no_assert (K : Kernel) (cm : GenericConnectorModel)
    (src tgt : Node) (hetconn : HetConnector) (syn_id : synindex) (p : Dictionary)
    (delay weight : double_t) :
    add_connection_5g_dict_tail K cm src tgt hetconn syn_id p delay weight
      ≠ .error .AssertionFailed := by
  simp only [add_connection_5g_dict_tail]
  split
  · simp
  · split
    · next e he =>
      intro h
      simp only [Except.error.injEq] at h
      subst h
      exact updateValue_long_no_assert p _ he
    · exact add_connection_5g__no_assert K src tgt hetconn syn_id _ _

theorem add_connection_5g_dict_no_assert (K : Kernel) (src tgt : Node) (syn_id : synindex)
    (p : Dictionary) (delay weight : double_t) :
    NoAssert (fun cm dc h => add_connection_5g_dict K cm dc src tgt h syn_id p delay weight) := by
  intro cm dc hetconn
  simp only [add_connection_5g_dict]
  split
  · split
    · simp
    · split
      · simp
      · exact add_connection_5g_dict_tail_no_assert K cm src tgt hetconn syn_id p _ _
  · split
    · next e he =>
      intro h
      simp only [Except.error.injEq] at h
      subst h
      exact updateValue_double_no_assert p _ he
    · split
      · simp
      · exact add_connection_5g_dict_tail_no_assert K cm src tgt hetconn syn_id p _ _
    · split
      · next e he =>
        intro h
        simp only [Except.error.injEq] at h
        subst h
        exact used_default_delay_no_assert K cm dc he
      · exact add_connection_5g_dict_tail_no_assert K _ src tgt hetconn syn_id p _ _

theorem get_synapse_prototype_no_assert (m : ConnectionBuilderManager) (syn : synindex)
    (tid : thread) : get_synapse_prototype m syn tid ≠ .error .AssertionFailed := by
  unfold get_synapse_prototype
  repeat' split
  all_goals simp

theorem connect_with_no_assert (K : Kernel) (m : ConnectionBuilderManager) (s_gid : index)
    (tid : thread) (syn : index) (add : Adder) (hadd : NoAssert add) :
    (connect_with K m s_gid tid syn add).result ≠ .error .AssertionFailed := by
  simp only [connect_with]
  split
  · next e he =>
    intro h
    simp only [Except.error.injEq] at h
    subst h
    exact get_synapse_prototype_no_assert m syn tid he
  · split
    · split
      · next e he =>
        intro h
        simp only [Except.error.injEq] at h
        subst h
        exact hadd _ _ _ he
      · repeat' split
        all_goals simp
    · simp

theorem add_connection_to_row_no_assert (row : List HetConnector) (key : index)
    (cm : GenericConnectorModel) (dc : DelayChecker) (add : Adder) (hadd : NoAssert add) :
    (add_connection_to_row row key cm dc add).result ≠ .error .AssertionFailed := by
  simp only [add_connection_to_row]
  split
  · next e he =>
    intro h
    simp only [Except.error.injEq] at h
    subst h
    exact hadd _ _ _ he
  · simp

theorem connect_to_device_with_no_assert (K : Kernel) (m : ConnectionBuilderManager)
    (key : index) (tid : thread) (syn : index) (add : Adder) (hadd : NoAssert add) :
    (connect_to_device_with K m key tid syn add).result ≠ .error .AssertionFailed := by
  simp only [connect_to_device_with]
  split
  · next e he =>
    intro h
    simp only [Except.error.injEq] at h
    subst h
    exact get_synapse_prototype_no_assert m syn tid he
  · split
    · split
      · next e he =>
        intro h
        simp only [Except.error.injEq] at h
        subst h
        exact add_connection_to_row_no_assert _ _ _ _ add hadd he
      · repeat' split
        all_goals simp
    · simp

theorem connect_from_device_with_no_assert (K : Kernel) (m : ConnectionBuilderManager)
    (key : index) (tid : thread) (syn : index) (add : Adder) (hadd : NoAssert add) :
    (connect_from_device_with K m key tid syn add).result ≠ .error .AssertionFailed := by
  simp only [connect_from_device_with]
  split
  · next e he =>
    intro h
    simp only [Except.error.injEq] at h
    subst h
    exact get_synapse_prototype_no_assert m syn tid he
  · split
    · split
      · next e he =>
        intro h
        simp only [Except.error.injEq] at h
        subst h
        exact add_connection_to_row_no_assert _ _ _ _ add hadd he
      · repeat' split
        all_goals simp
    · simp

theorem for_threads_no_assert (m : ConnectionBuilderManager) (tids : List thread)
    (body : ConnectionBuilderManager → thread → Result Unit)
    (hbody : ∀ m1 t, (body m1 t).result ≠ .error .AssertionFailed) :
    (for_threads m tids body).result ≠ .error .AssertionFailed := by
  induction tids generalizing m with
  | nil => simp [for_threads]
  | cons t rest ih =>
    simp only [for_threads]
    split
    · next e he =>
      intro h
      simp only [Except.error.injEq] at h
      subst h
      exact hbody m t he
    · exact ih _

theorem returns_true_no_assert (r : Result Unit)
    (h : r.result ≠ .error .AssertionFailed) :
    (returns_true r).result ≠ .error .AssertionFailed := by
  unfold returns_true
  cases hr : r.result with
  | error e =>
    intro h1
    simp [hr, Except.map] at h1
    subst h1
    exact h hr
  | ok u => simp [hr, Except.map]

theorem connect_route_ne_assert_false
    (source_has_proxies target_has_proxies target_local_receiver : Bool) :
    connect_route source_has_proxies target_has_proxies target_local_receiver
      ≠ .assert_false := by
  cases source_has_proxies <;> cases target_has_proxies <;> cases target_local_receiver <;>
    decide

theorem synapse_status_route_ne_assert_false (source_has_proxies target_has_proxies : Bool) :
    synapse_status_route source_has_proxies target_has_proxies ≠ .assert_false := by
  cases source_has_proxies <;> cases target_has_proxies <;> decide

theorem connect_no_assert (K : Kernel) (m : ConnectionBuilderManager) (sgid : index)
    (target : Node) (target_thread : thread) (syn : index) (d w : double_t) :
    (connect K m sgid target target_thread syn d w).result ≠ .error .AssertionFailed := by
  simp only [connect]
  split
  · exact connect_with_no_assert _ _ _ _ _ _ (add_connection_5g_no_assert _ _ _ _ _ _)
  · split
    · simp
    · exact connect_to_device_with_no_assert _ _ _ _ _ _ (add_connection_5g_no_assert _ _ _ _ _ _)
  · exact connect_from_device_with_no_assert _ _ _ _ _ _ (add_connection_5g_no_assert _ _ _ _ _ _)
  · split
    · exact connect_from_device_with_no_assert _ _ _ _ _ _
        (add_connection_5g_no_assert _ _ _ _ _ _)
    · simp
  · split
    · simp
    · exact for_threads_no_assert _ _ _ (fun m1 t =>
        connect_with_no_assert _ _ _ _ _ _ (add_connection_5g_no_assert _ _ _ _ _ _))
  · next h => exact absurd h (connect_route_ne_assert_false _ _ _)

theorem connect_dict_no_assert (K : Kernel) (m : ConnectionBuilderManager) (sgid : index)
    (target : Node) (target_thread : thread) (syn : index) (params : Dictionary)
    (d w : double_t) :
    (connect_dict K m sgid target target_thread syn params d w).result
      ≠ .error .AssertionFailed := by
  simp only [connect_dict]
  split
  · exact connect_with_no_assert _ _ _ _ _ _ (add_connection_5g_dict_no_assert _ _ _ _ _ _ _)
  · split
    · simp
    · split
      · exact connect_to_device_with_no_assert _ _ _ _ _ _
          (add_connection_5g_dict_no_assert _ _ _ _ _ _ _)
      · exact connect_to_device_with_no_assert _ _ _ _ _ _
          (add_connection_5g_dict_no_assert _ _ _ _ _ _ _)
  · exact connect_from_device_with_no_assert _ _ _ _ _ _
      (add_connection_5g_dict_no_assert _ _ _ _ _ _ _)
  · split
    · exact connect_from_device_with_no_assert _ _ _ _ _ _
        (add_connection_5g_dict_no_assert _ _ _ _ _ _ _)
    · simp
  · split
    · simp
    · exact for_threads_no_assert _ _ _ (fun m1 t =>
        connect_to_device_with_no_assert _ _ _ _ _ _
          (add_connection_5g_dict_no_assert _ _ _ _ _ _ _))
  · next h => exact absurd h (connect_route_ne_assert_false _ _ _)

theorem connect_gid_no_assert (K : Kernel) (m : ConnectionBuilderManager) (sgid tgid : index)
    (params : Dictionary) (syn : index) :
    (connect_gid K m sgid tgid params syn).result ≠ .error .AssertionFailed := by
  simp only [connect_gid]
  split
  · simp
  · split
    · exact returns_true_no_assert _ (connect_with_no_assert _ _ _ _ _ _
        (add_connection_5g_dict_no_assert _ _ _ _ _ _ _))
    · split
      · simp
      · split
        · exact returns_true_no_assert _ (connect_to_device_with_no_assert _ _ _ _ _ _
            (add_connection_5g_dict_no_assert _ _ _ _ _ _ _))
        · exact returns_true_no_assert _ (connect_to_device_with_no_assert _ _ _ _ _ _
            (add_connection_5g_dict_no_assert _ _ _ _ _ _ _))
    · exact returns_true_no_assert _ (connect_from_device_with_no_assert _ _ _ _ _ _
        (add_connection_5g_dict_no_assert _ _ _ _ _ _ _))
    · split
      · exact returns_true_no_assert _ (connect_from_device_with_no_assert _ _ _ _ _ _
          (add_connection_5g_dict_no_assert _ _ _ _ _ _ _))
      · simp
    · split
      · simp
      · exact returns_true_no_assert _ (for_threads_no_assert _ _ _ (fun m1 t =>
          connect_with_no_assert _ _ _ _ _ _
            (add_connection_5g_dict_no_assert _ _ _ _ _ _ _)))
    · next h => exact absurd h (connect_route_ne_assert_false _ _ _)

theorem hetConnector_get_synapse_status_no_assert (hetconn : HetConnector)
    (syn_id : synindex) (p : Nat) :
    HetConnector.get_synapse_status hetconn syn_id p ≠ .error .AssertionFailed := by
  unfold HetConnector.get_synapse_status
  repeat' split
  all_goals simp

theorem hetConnector_set_synapse_status_no_assert (K : Kernel) (hetconn : HetConnector)
    (syn_id : synindex) (dict : Dictionary) (p : Nat) :
    HetConnector.set_synapse_status K hetconn syn_id dict p ≠ .error .AssertionFailed := by
  unfold HetConnector.set_synapse_status
  split
  · simp
  · simp only
    split
    · simp
    · split <;> simp

theorem get_synapse_status_no_assert (K : Kernel) (m : ConnectionBuilderManager)
    (source_gid target_gid : index) (tid : thread) (syn_id : synindex) (p : Nat) :
    get_synapse_status K m source_gid target_gid tid syn_id p ≠ .error .AssertionFailed := by
  simp only [get_synapse_status]
  split
  · next e he =>
    intro h
    simp only [Except.error.injEq] at h
    subst h
    exact get_synapse_prototype_no_assert m syn_id tid he
  · split
    · next e he =>
      intro h
      simp only [Except.error.injEq] at h
      subst h
      revert he
      split
      · split <;> simp
      · split <;> simp
      · split <;> simp
      · next hr => exact absurd hr (synapse_status_route_ne_assert_false _ _)
    · split
      · next e he =>
        intro h
        simp only [Except.error.injEq] at h
        subst h
        exact hetConnector_get_synapse_status_no_assert _ _ _ he
      · simp

theorem set_synapse_status_no_assert (K : Kernel) (m : ConnectionBuilderManager)
    (source_gid target_gid : index) (tid : thread) (syn_id : synindex) (p : Nat)
    (dict : Dictionary) :
    (set_synapse_status K m source_gid target_gid tid syn_id p dict).result
      ≠ .error .AssertionFailed := by
  simp only [set_synapse_status]
  split
  · next e he =>
    intro h
    simp only [Except.error.injEq] at h
    subst h
    exact get_synapse_prototype_no_assert m syn_id tid he
  · split
    · split
      · simp
      · split
        · next e he =>
          intro h
          simp only [Except.error.injEq] at h
          subst h
          exact hetConnector_set_synapse_status_no_assert _ _ _ _ _ he
        · simp
    · split
      · simp
      · split
        · next e he =>
          intro h
          simp only [Except.error.injEq] at h
          subst h
          exact hetConnector_set_synapse_status_no_assert _ _ _ _ _ he
        · simp
    · split
      · simp
      · split
        · next e he =>
          intro h
          simp only [Except.error.injEq] at h
          subst h
          exact hetConnector_set_synapse_status_no_assert _ _ _ _ _ he
        · simp
    · next hr => exact absurd hr (synapse_status_route_ne_assert_false _ _)

/-- C8. In the chain of the three routing overloads of `connect` and in the
chain of `get_synapse_status` and `set_synapse_status`, one of the conditions
before the final `else` holds for every combination of `source.has_proxies()`,
`target.has_proxies()` and `target.local_receiver()`: the branch with
`assert( false )` is never selected, and no call of the five functions ends in
the assertion failure. -/
theorem final_else_unreachable :
    (∀ source_has_proxies target_has_proxies target_local_receiver : Bool,
      connect_route source_has_proxies target_has_proxies target_local_receiver
        ≠ .assert_false) ∧
    (∀ source_has_proxies target_has_proxies : Bool,
      synapse_status_route source_has_proxies target_has_proxies ≠ .assert_false) ∧
    (∀ K m sgid target target_thread syn d w,
      (connect K m sgid target target_thread syn d w).result ≠ .error .AssertionFailed) ∧
    (∀ K m sgid target target_thread syn params d w,
      (connect_dict K m sgid target target_thread syn params d w).result
        ≠ .error .AssertionFailed) ∧
    (∀ K m sgid tgid params syn,
      (connect_gid K m sgid tgid params syn).result ≠ .error .AssertionFailed) ∧
    (∀ K m source_gid target_gid tid syn_id p,
      get_synapse_status K m source_gid target_gid tid syn_id p ≠ .error .AssertionFailed) ∧
    (∀ K m source_gid target_gid tid syn_id p dict,
      (set_synapse_status K m source_gid target_gid tid syn_id p dict).result
        ≠ .error .AssertionFailed) :=
  ⟨connect_route_ne_assert_false, synapse_status_route_ne_assert_false, connect_no_assert,
    connect_dict_no_assert, connect_gid_no_assert, get_synapse_status_no_assert,
    set_synapse_status_no_assert⟩

/-! ## C9 and C10: the counters and the contents -/

theorem add_source_length (st st1 : SourceTable) (tid : thread) (syn : synindex) (gid : index)
    (h : st.add_source tid syn gid = some st1) :
    st1.sources_.length = st.sources_.length := by
  unfold SourceTable.add_source at h
  split at h
  · cases h
  · cases h
    simp

/-- A successful `connect_` adds exactly one record, of type `syn`, to the store
of thread `tid`, and increments the counter of `(tid, syn)`. -/
theorem connect_with_counts (K : Kernel) (m : ConnectionBuilderManager) (s_gid : index)
    (tid : thread) (syn : index) (add : Adder) (hadd : AddsOne syn add)
    (h : (connect_with K m s_gid tid syn add).result = .ok ()) :
    (∀ t s, store_num_connections (connect_with K m s_gid tid syn add).state t s
      = store_num_connections m t s + (if t = tid ∧ s = syn then 1 else 0)) ∧
    (∀ t s, (connect_with K m s_gid tid syn add).state.source_table_.get_sources t s
      = m.source_table_.get_sources t s ++ (if t = tid ∧ s = syn then [s_gid] else [])) ∧
    (∀ t s, num_connections_at (connect_with K m s_gid tid syn add).state t s
      = num_connections_at m t s + (if t = tid ∧ s = syn then 1 else 0)) ∧
    (∀ n, SameLengths n m → SameLengths n (connect_with K m s_gid tid syn add).state) := by
  obtain ⟨cm, dc, hetconn, hetconn1, st, vv, hh, hr, hst, hvv, hstate⟩ :=
    connect_with_ok_form K m s_gid tid syn add h
  rw [hstate]
  obtain ⟨h1, -, -⟩ := counters_after_increment m
    { put_model K m tid syn (add cm dc hetconn).model (add cm dc hetconn).checker with
      connections_5g_ := m.connections_5g_.set tid hetconn1
      source_table_ := st
      vv_num_connections_ := vv } tid syn hvv
  refine ⟨?_, ?_, h1, ?_⟩
  · intro t s
    have hlt := lt_length_of_getElem? _ tid hetconn hh
    have h0 : m.connections_5g_.getD tid [] = hetconn := getD_of_getElem? _ tid hetconn [] hh
    have hcount := hadd cm dc hetconn hetconn1 hr s
    simp only [store_num_connections]
    by_cases ht : t = tid
    · subst ht
      rw [getD_set_eq _ _ _ _ hlt, h0, hcount]
      by_cases hs : s = syn
      · subst hs
        simp
      · have hs1 : ¬ syn = s := fun e => hs e.symm
        simp [hs, hs1]
    · rw [getD_set_ne _ _ _ _ _ (fun e => ht e.symm)]
      simp [ht]
  · intro t s
    exact add_source_get _ _ tid syn s_gid hst t s
  · intro n hl
    obtain ⟨l1, l2, l3, l4, l5⟩ := hl
    have hvl := increment_length _ _ tid syn hvv
    have hsl := add_source_length _ _ tid syn s_gid hst
    refine ⟨?_, ?_, ?_, ?_, ?_⟩
    · simpa using l1
    · simpa [hsl] using l2
    · simpa [hvl] using l3
    · simpa [put_model] using l4
    · simpa [put_model] using l5

theorem connect_to_device_with_lengths (K : Kernel) (m : ConnectionBuilderManager)
    (key : index) (tid : thread) (syn : index) (add : Adder) (n : Nat)
    (hl : SameLengths n m)
    (h : (connect_to_device_with K m key tid syn add).result = .ok ()) :
    SameLengths n (connect_to_device_with K m key tid syn add).state := by
  obtain ⟨cm, dc, row, row1, vv, -, -, hvv, hstate⟩ :=
    connect_to_device_with_ok_form K m key tid syn add h
  rw [hstate]
  obtain ⟨l1, l2, l3, l4, l5⟩ := hl
  have hvl := increment_length _ _ tid syn hvv
  refine ⟨l1, l2, ?_, ?_, ?_⟩
  · simpa [hvl] using l3
  · simpa [put_model] using l4
  · simpa [put_model] using l5

theorem connect_from_device_with_lengths (K : Kernel) (m : ConnectionBuilderManager)
    (key : index) (tid : thread) (syn : index) (add : Adder) (n : Nat)
    (hl : SameLengths n m)
    (h : (connect_from_device_with K m key tid syn add).result = .ok ()) :
    SameLengths n (connect_from_device_with K m key tid syn add).state := by
  obtain ⟨cm, dc, row, row1, vv, -, -, hvv, hstate⟩ :=
    connect_from_device_with_ok_form K m key tid syn add h
  rw [hstate]
  obtain ⟨l1, l2, l3, l4, l5⟩ := hl
  have hvl := increment_length _ _ tid syn hvv
  refine ⟨l1, l2, ?_, ?_, ?_⟩
  · simpa [hvl] using l3
  · simpa [put_model] using l4
  · simpa [put_model] using l5

theorem vresize_length {α : Type} (v : List α) (n : Nat) (d : α) :
    (vresize v n d).length = n := by
  unfold vresize
  split
  · simp
    omega
  · simp
    omega

theorem getD_replicate_nil {α : Type} (n t : Nat) :
    (List.replicate n ([] : List α)).getD t [] = [] := by
  rw [List.getD_eq_getElem?_getD, List.getElem?_replicate]
  split <;> rfl

theorem map_const_nil_getD {α β : Type} (l : List α) (t : Nat) :
    (l.map (fun _ => ([] : List β))).getD t [] = [] := by
  induction l generalizing t with
  | nil => rfl
  | cons x xs ih =>
    cases t with
    | zero => rfl
    | succ k => simp [ih k]

/-- After `initialize()` every per-thread vector has one entry per worker
thread and all counts and contents are empty. -/
theorem initialize_manager_inv (K : Kernel) (m0 : ConnectionBuilderManager) :
    SameLengths K.num_threads (initialize_manager K m0) ∧
    CountsConsistent (initialize_manager K m0) := by
  constructor
  · refine ⟨?_, ?_, ?_, ?_, ?_⟩
    · simp [initialize_manager, vresize_length]
    · simp [initialize_manager, SourceTable.init]
    · simp [initialize_manager]
    · simp [initialize_manager, TargetTableDevices.init]
    · simp [initialize_manager, TargetTableDevices.init]
  · intro t s
    simp only [num_connections_at, store_num_connections,
      TargetTableDevices.get_num_connections, initialize_manager, TargetTableDevices.init,
      getD_replicate_nil, map_const_nil_getD]
    rfl

theorem countsConsistent_of_fields (m m1 : ConnectionBuilderManager)
    (h1 : m1.connections_5g_ = m.connections_5g_)
    (h2 : m1.target_table_devices_ = m.target_table_devices_)
    (h3 : m1.vv_num_connections_ = m.vv_num_connections_)
    (hc : CountsConsistent m) : CountsConsistent m1 := by
  intro t s
  have := hc t s
  simp only [num_connections_at, store_num_connections, h1, h2, h3] at this ⊢
  exact this

theorem sameLengths_of_fields (n : Nat) (m m1 : ConnectionBuilderManager)
    (h1 : m1.connections_5g_ = m.connections_5g_)
    (h2 : m1.source_table_ = m.source_table_)
    (h3 : m1.target_table_devices_ = m.target_table_devices_)
    (h4 : m1.vv_num_connections_ = m.vv_num_connections_)
    (hl : SameLengths n m) : SameLengths n m1 := by
  unfold SameLengths at hl ⊢
  rw [h1, h2, h3, h4]
  exact hl

/-- `connect_`, successful or failing, keeps the counters consistent with the
contents. -/
theorem connect_with_inv (K : Kernel) (m : ConnectionBuilderManager) (s_gid : index)
    (tid : thread) (syn : index) (add : Adder) (hadd : AddsOne syn add) (n : Nat)
    (hl : SameLengths n m) (hc : CountsConsistent m) :
    SameLengths n (connect_with K m s_gid tid syn add).state ∧
    CountsConsistent (connect_with K m s_gid tid syn add).state := by
  cases hres : (connect_with K m s_gid tid syn add).result with
  | error e =>
    obtain ⟨l1, l2, l3, l4, l5⟩ := hl
    obtain ⟨f1, f2, f3, f4⟩ := connect_with_error_frame K m s_gid tid syn add e
      (by omega) (by omega) hres
    exact ⟨sameLengths_of_fields n m _ f1 f2 f3 f4 ⟨l1, l2, l3, l4, l5⟩,
      countsConsistent_of_fields m _ f1 f3 f4 hc⟩
  | ok u =>
    obtain ⟨h1, -, h3, h4⟩ := connect_with_counts K m s_gid tid syn add hadd hres
    refine ⟨h4 n hl, ?_⟩
    intro t s
    have hd := connect_with_devices K m s_gid tid syn add
    rw [h3 t s, h1 t s, hd, hc t s]
    omega

theorem connect_to_device_with_inv (K : Kernel) (m : ConnectionBuilderManager) (key : index)
    (tid : thread) (syn : index) (add : Adder) (hadd : AddsOne syn add) (n : Nat)
    (hl : SameLengths n m) (hc : CountsConsistent m) :
    SameLengths n (connect_to_device_with K m key tid syn add).state ∧
    CountsConsistent (connect_to_device_with K m key tid syn add).state := by
  cases hres : (connect_to_device_with K m key tid syn add).result with
  | error e =>
    obtain ⟨l1, l2, l3, l4, l5⟩ := hl
    obtain ⟨f1, f2, f3, f4⟩ := connect_to_device_with_error_frame K m key tid syn add e
      (by omega) hres
    exact ⟨sameLengths_of_fields n m _ f1 f2 f3 f4 ⟨l1, l2, l3, l4, l5⟩,
      countsConsistent_of_fields m _ f1 f3 f4 hc⟩
  | ok u =>
    obtain ⟨h1, h2, h3, -, -⟩ := connect_to_device_with_counts K m key tid syn add hadd hres
    obtain ⟨h5, -⟩ := connect_to_device_with_store K m key tid syn add
    refine ⟨connect_to_device_with_lengths K m key tid syn add n hl hres, ?_⟩
    intro t s
    have e1 := h1 t s
    have e3 := h3 t s
    have e0 := hc t s
    simp only [num_connections_at, store_num_connections, to_device_num_connections,
      TargetTableDevices.get_num_connections, h5, h2] at e0 e1 e3 ⊢
    omega

theorem connect_from_device_with_inv (K : Kernel) (m : ConnectionBuilderManager)
    (key : index) (tid : thread) (syn : index) (add : Adder) (hadd : AddsOne syn add)
    (n : Nat) (hl : SameLengths n m) (hc : CountsConsistent m) :
    SameLengths n (connect_from_device_with K m key tid syn add).state ∧
    CountsConsistent (connect_from_device_with K m key tid syn add).state := by
  cases hres : (connect_from_device_with K m key tid syn add).result with
  | error e =>
    obtain ⟨l1, l2, l3, l4, l5⟩ := hl
    obtain ⟨f1, f2, f3, f4⟩ := connect_from_device_with_error_frame K m key tid syn add e
      (by omega) hres
    exact ⟨sameLengths_of_fields n m _ f1 f2 f3 f4 ⟨l1, l2, l3, l4, l5⟩,
      countsConsistent_of_fields m _ f1 f3 f4 hc⟩
  | ok u =>
    obtain ⟨h1, h2, h3, -, -⟩ := connect_from_device_with_counts K m key tid syn add hadd hres
    obtain ⟨h5, -⟩ := connect_from_device_with_store K m key tid syn add
    refine ⟨connect_from_device_with_lengths K m key tid syn add n hl hres, ?_⟩
    intro t s
    have e1 := h1 t s
    have e3 := h3 t s
    have e0 := hc t s
    simp only [num_connections_at, store_num_connections, from_device_num_connections,
      TargetTableDevices.get_num_connections, h5, h2] at e0 e1 e3 ⊢
    omega

theorem initialized_inv (K : Kernel) (m : ConnectionBuilderManager) (h : Initialized K m) :
    SameLengths K.num_threads m ∧ CountsConsistent m := by
  induction h with
  | start m0 => exact initialize_manager_inv K m0
  | store m caller s r s_gid tid syn d w _ ih =>
    exact connect_with_inv _ m s_gid tid syn _ (add_connection_5g_addsOne _ s r syn d w) _
      ih.1 ih.2
  | store_dict m caller s r s_gid tid syn p d w _ ih =>
    exact connect_with_inv _ m s_gid tid syn _ (add_connection_5g_dict_addsOne _ s r syn p d w)
      _ ih.1 ih.2
  | to_device m caller s r s_gid tid syn d w _ ih =>
    exact connect_to_device_with_inv _ m s_gid tid syn _
      (add_connection_5g_addsOne _ s r syn d w) _ ih.1 ih.2
  | to_device_dict m caller s r s_gid tid syn p d w _ ih =>
    exact connect_to_device_with_inv _ m s_gid tid syn _
      (add_connection_5g_dict_addsOne _ s r syn p d w) _ ih.1 ih.2
  | from_device m caller s r s_gid tid syn d w _ ih =>
    exact connect_from_device_with_inv _ m s.get_local_device_id tid syn _
      (add_connection_5g_addsOne _ s r syn d w) _ ih.1 ih.2
  | from_device_dict m caller s r s_gid tid syn p d w _ ih =>
    exact connect_from_device_with_inv _ m s.get_local_device_id tid syn _
      (add_connection_5g_dict_addsOne _ s r syn p d w) _ ih.1 ih.2

/-- C9, counterexample. On the example network: `initialize()`, one successful
`connect_` into the store of thread 1, then `finalize()`. The state is
reachable, its cached count for thread 1 and synapse type 0 is still 1, and
neither the connector stores nor the Target-Device Table hold a record. -/
theorem cached_counts_counterexample :
    ¬ (∀ m, Reachable (example_kernel 0) m → CountsConsistent m) := by
  intro h
  have hr : Reachable (example_kernel 0)
      (finalize (connect_ ((example_kernel 0).on_thread 1) example_state (example_node 1 1)
        (example_node 3 1) 1 1 0 (.val 50) (.val 20)).state) :=
    Reachable.final _ (Reachable.store _ 1 _ _ 1 1 0 _ _ (Reachable.start _))
  have hc := h _ hr 1 0
  revert hc
  decide

/-- C9, amended. In every state reachable from `initialize()` through any
sequence of `initialize`, `finalize` and the six primitives (successful or
failing) in which no `finalize()` has been called since the last
`initialize()`, the cached count `vv_num_connections_[t][s]` (0 when absent)
equals the number of records of type `s` in the connector store of thread `t`
plus the number held for `t` in the Target-Device Table. `finalize()` deletes
the stores and leaves the cached counts as they are; the next `initialize()`
resets them. -/
theorem cached_counts_consistent (K : Kernel) :
    (∀ m, Initialized K m → CountsConsistent m) ∧
    (∀ m, Reachable K m → Initialized K (initialize_manager K m)) ∧
    (∀ m, (finalize m).vv_num_connections_ = m.vv_num_connections_ ∧
      (finalize m).connections_5g_ = []) :=
  ⟨fun m h => (initialized_inv K m h).2, fun m _ => Initialized.start m,
    fun _ => ⟨rfl, rfl⟩⟩

/-- The amended C9 on the example network: after `initialize()` and one
successful `connect_` the count of thread 1 and type 0 is 1, and so is the
number of records held. -/
theorem cached_counts_consistent_witness :
    Initialized (example_kernel 0)
      (connect_ ((example_kernel 0).on_thread 1) example_state (example_node 1 1)
        (example_node 3 1) 1 1 0 (.val 50) (.val 20)).state ∧
    CountsConsistent
      (connect_ ((example_kernel 0).on_thread 1) example_state (example_node 1 1)
        (example_node 3 1) 1 1 0 (.val 50) (.val 20)).state ∧
    num_connections_at
      (connect_ ((example_kernel 0).on_thread 1) example_state (example_node 1 1)
        (example_node 3 1) 1 1 0 (.val 50) (.val 20)).state 1 0 = 1 :=
  ⟨Initialized.store _ 1 _ _ 1 1 0 _ _ (Initialized.start _),
    (cached_counts_consistent (example_kernel 0)).1 _
      (Initialized.store _ 1 _ _ 1 1 0 _ _ (Initialized.start _)),
    by rfl⟩

theorem addedToStore_of_ok (K : Kernel) (m : ConnectionBuilderManager) (s_gid : index)
    (tid : thread) (syn : index) (add : Adder) (hadd : AddsOne syn add)
    (hok : (connect_with K m s_gid tid syn add).result = .ok ()) :
    AddedToStore m (connect_with K m s_gid tid syn add) s_gid tid syn := by
  obtain ⟨h1, h2, -, -⟩ := connect_with_counts K m s_gid tid syn add hadd hok
  exact ⟨h1, h2, connect_with_devices K m s_gid tid syn add⟩

theorem addedToDevice_of_ok (K : Kernel) (m : ConnectionBuilderManager) (key : index)
    (tid : thread) (syn : index) (add : Adder) (hadd : AddsOne syn add)
    (hok : (connect_to_device_with K m key tid syn add).result = .ok ()) :
    AddedToDevice m (connect_to_device_with K m key tid syn add) tid syn := by
  obtain ⟨h1, h2, -, -, -⟩ := connect_to_device_with_counts K m key tid syn add hadd hok
  obtain ⟨h5, h6⟩ := connect_to_device_with_store K m key tid syn add
  exact ⟨h1, h2, h5, h6⟩

theorem addedFromDevice_of_ok (K : Kernel) (m : ConnectionBuilderManager) (key : index)
    (tid : thread) (syn : index) (add : Adder) (hadd : AddsOne syn add)
    (hok : (connect_from_device_with K m key tid syn add).result = .ok ()) :
    AddedFromDevice m (connect_from_device_with K m key tid syn add) tid syn := by
  obtain ⟨h1, h2, -, -, -⟩ := connect_from_device_with_counts K m key tid syn add hadd hok
  obtain ⟨h5, h6⟩ := connect_from_device_with_store K m key tid syn add
  exact ⟨h1, h2, h5, h6⟩

/-- C10. Each successful low-level primitive adds exactly one record to exactly
one structure: `connect_` (both overloads) adds one record of type `syn` to the
connector store of `tid` and one entry to the source table and leaves the
Target-Device Table unchanged; `connect_to_device_` and `connect_from_device_`
(both overloads) add one record of type `syn` to their part of the Target-Device
Table for `tid` and leave the other part, the connector stores and the source
table unchanged. -/
theorem primitives_add_one_record (K : Kernel) (m : ConnectionBuilderManager) (s r : Node)
    (s_gid : index) (tid : thread) (syn : index) (p : Dictionary) (d w : double_t) :
    ((connect_ K m s r s_gid tid syn d w).result = .ok () →
      AddedToStore m (connect_ K m s r s_gid tid syn d w) s_gid tid syn) ∧
    ((connect_dict_ K m s r s_gid tid syn p d w).result = .ok () →
      AddedToStore m (connect_dict_ K m s r s_gid tid syn p d w) s_gid tid syn) ∧
    ((connect_to_device_ K m s r s_gid tid syn d w).result = .ok () →
      AddedToDevice m (connect_to_device_ K m s r s_gid tid syn d w) tid syn) ∧
    ((connect_to_device_dict_ K m s r s_gid tid syn p d w).result = .ok () →
      AddedToDevice m (connect_to_device_dict_ K m s r s_gid tid syn p d w) tid syn) ∧
    ((connect_from_device_ K m s r s_gid tid syn d w).result = .ok () →
      AddedFromDevice m (connect_from_device_ K m s r s_gid tid syn d w) tid syn) ∧
    ((connect_from_device_dict_ K m s r s_gid tid syn p d w).result = .ok () →
      AddedFromDevice m (connect_from_device_dict_ K m s r s_gid tid syn p d w) tid syn) :=
  ⟨addedToStore_of_ok K m s_gid tid syn _ (add_connection_5g_addsOne K s r syn d w),
    addedToStore_of_ok K m s_gid tid syn _ (add_connection_5g_dict_addsOne K s r syn p d w),
    addedToDevice_of_ok K m s_gid tid syn _ (add_connection_5g_addsOne K s r syn d w),
    addedToDevice_of_ok K m s_gid tid syn _ (add_connection_5g_dict_addsOne K s r syn p d w),
    addedFromDevice_of_ok K m s.get_local_device_id tid syn _
      (add_connection_5g_addsOne K s r syn d w),
    addedFromDevice_of_ok K m s.get_local_device_id tid syn _
      (add_connection_5g_dict_addsOne K s r syn p d w)⟩

/-- C10 on the example network: a successful `connect_`, `connect_to_device_` and
`connect_from_device_`, each adding its one record. -/
theorem primitives_add_one_record_witness :
    AddedToStore example_state
      (connect_ (example_kernel 1) example_state (example_node 1 1) (example_node 3 1) 1 1 0
        (.val 50) (.val 20)) 1 1 0 ∧
    store_num_connections
      (connect_ (example_kernel 1) example_state (example_node 1 1) (example_node 3 1) 1 1 0
        (.val 50) (.val 20)).state 1 0 = 1 ∧
    AddedToDevice example_state
      (connect_to_device_ (example_kernel 0) example_state (example_node 2 0)
        (example_node 12 0) 2 0 0 (.val 50) (.val 20)) 0 0 ∧
    AddedFromDevice example_state
      (connect_from_device_dict_ (example_kernel 1) example_state (example_node 12 1)
        (example_node 3 1) 12 1 0 [("delay", .double (.val 30))] .nan .nan) 1 0 :=
  ⟨(primitives_add_one_record (example_kernel 1) example_state (example_node 1 1)
      (example_node 3 1) 1 1 0 [] (.val 50) (.val 20)).1 (by rfl),
    by rfl,
    (primitives_add_one_record (example_kernel 0) example_state (example_node 2 0)
      (example_node 12 0) 2 0 0 [] (.val 50) (.val 20)).2.2.1 (by rfl),
    (primitives_add_one_record (example_kernel 1) example_state (example_node 12 1)
      (example_node 3 1) 12 1 0 [("delay", .double (.val 30))] .nan .nan).2.2.2.2.2 (by rfl)⟩

/-! ## C11: `initialize(); finalize(); initialize()` -/

theorem replicate_map_sum_zero (n : Nat) :
    ((List.replicate n ([] : List Nat)).map List.sum).sum = 0 := by
  induction n with
  | zero => rfl
  | succ k ih => simp [List.replicate_succ, ih]

theorem replicate_map_entry_zero (n : Nat) (s : synindex) :
    ((List.replicate n ([] : List Nat)).map
      (fun row => if row.length > s then row.getD s 0 else 0)).sum = 0 := by
  induction n with
  | zero => rfl
  | succ k ih => simp [List.replicate_succ, ih]

theorem map_const_eq_replicate {α β : Type} (l : List α) (b : β) :
    l.map (fun _ => b) = List.replicate l.length b := by
  induction l with
  | nil => rfl
  | cons x xs ih => simp [List.replicate_succ, ih]

/-- C11. From any state, the sequence `initialize(); finalize(); initialize()`
leaves the manager in the state a single `initialize()` leaves it in:
`get_num_connections()` is 0, `get_num_connections(s)` is 0 for every synapse
type, `min_delay_` and `max_delay_` are 1 step, and there is one empty connector
store, one (default) delay checker and one empty counter table per worker
thread. -/
theorem initialize_finalize_initialize (K : Kernel) (m : ConnectionBuilderManager) :
    initialize_manager K (finalize (initialize_manager K m)) = initialize_manager K m ∧
    get_num_connections (initialize_manager K (finalize (initialize_manager K m))) = 0 ∧
    (∀ s, get_num_connections_syn
      (initialize_manager K (finalize (initialize_manager K m))) s = 0) ∧
    (initialize_manager K (finalize (initialize_manager K m))).min_delay_ = 1 ∧
    (initialize_manager K (finalize (initialize_manager K m))).max_delay_ = 1 ∧
    (initialize_manager K (finalize (initialize_manager K m))).connections_5g_
      = List.replicate K.num_threads [] ∧
    (initialize_manager K (finalize (initialize_manager K m))).delay_checkers_
      = List.replicate K.num_threads K.default_delay_checker ∧
    (initialize_manager K (finalize (initialize_manager K m))).vv_num_connections_
      = List.replicate K.num_threads [] := by
  have hstore : ∀ v : List HetConnector,
      (vresize v K.num_threads []).map (fun _ => ([] : HetConnector))
        = List.replicate K.num_threads [] := by
    intro v
    rw [map_const_eq_replicate, vresize_length]
  have heq : initialize_manager K (finalize (initialize_manager K m))
      = initialize_manager K m := by
    simp only [initialize_manager, finalize, delete_connections_5g_, hstore]
  refine ⟨heq, ?_, ?_, rfl, rfl, ?_, rfl, rfl⟩
  · simp only [get_num_connections, initialize_manager]
    exact replicate_map_sum_zero _
  · intro s
    simp only [get_num_connections_syn, initialize_manager]
    exact replicate_map_entry_zero _ s
  · simp only [initialize_manager]
    exact hstore _

/-! ## C18: the routing of `get_synapse_status` and `set_synapse_status` -/

/-- C18. For a valid synapse type, `get_synapse_status` and `set_synapse_status`
address the same structure for every source/target pair: the connector store of
thread `tid` exactly when source and target both have proxies; the to-device
part of the Target-Device Table, at the source's global identifier, when the
source has proxies and the target has none; the from-device part, at the
source's local device id, whenever the source has no proxies, whatever the
target is. -/
theorem synapse_status_routing (K : Kernel) (m : ConnectionBuilderManager)
    (source_gid target_gid : index) (tid : thread) (syn_id : synindex) (p : Nat)
    (dict : Dictionary) (cm : GenericConnectorModel)
    (hp : get_synapse_prototype m syn_id tid = .ok cm) :
    (∀ sp tp : Bool, (synapse_status_route sp tp = .connector_store ↔ (sp = true ∧ tp = true)) ∧
      (synapse_status_route sp tp = .to_device ↔ (sp = true ∧ tp = false)) ∧
      (synapse_status_route sp tp = .from_device ↔ sp = false)) ∧
    (((K.get_node source_gid tid).has_proxies = true ∧
        (K.get_node target_gid tid).has_proxies = true) →
      get_synapse_status K m source_gid target_gid tid syn_id p
        = (match m.connections_5g_[tid]? with
          | none => .error .OutOfRange
          | some h => status_of source_gid syn_id p h) ∧
      set_synapse_status K m source_gid target_gid tid syn_id p dict
        = (match m.connections_5g_[tid]? with
          | none => ⟨m, .error .OutOfRange⟩
          | some h =>
            match HetConnector.set_synapse_status K h syn_id dict p with
            | .error e => ⟨m, .error e⟩
            | .ok h1 => ⟨{ m with connections_5g_ := m.connections_5g_.set tid h1 }, .ok ()⟩)) ∧
    (((K.get_node source_gid tid).has_proxies = true ∧
        (K.get_node target_gid tid).has_proxies = false) →
      get_synapse_status K m source_gid target_gid tid syn_id p
        = (match m.target_table_devices_.target_to_devices_[tid]? with
          | none => .error .OutOfRange
          | some row => status_of source_gid syn_id p (row.getD source_gid [])) ∧
      set_synapse_status K m source_gid target_gid tid syn_id p dict
        = (match m.target_table_devices_.target_to_devices_[tid]? with
          | none => ⟨m, .error .OutOfRange⟩
          | some row =>
            match HetConnector.set_synapse_status K (row.getD source_gid []) syn_id dict p with
            | .error e => ⟨m, .error e⟩
            | .ok h1 =>
              ⟨{ m with target_table_devices_ :=
                  { m.target_table_devices_ with
                    target_to_devices_ :=
                      m.target_table_devices_.target_to_devices_.set tid
                        (row.set source_gid h1) } },
                .ok ()⟩)) ∧
    ((K.get_node source_gid tid).has_proxies = false →
      get_synapse_status K m source_gid target_gid tid syn_id p
        = (match m.target_table_devices_.target_from_devices_[tid]? with
          | none => .error .OutOfRange
          | some row =>
            status_of source_gid syn_id p
              (row.getD (K.get_node source_gid tid).get_local_device_id [])) ∧
      set_synapse_status K m source_gid target_gid tid syn_id p dict
        = (match m.target_table_devices_.target_from_devices_[tid]? with
          | none => ⟨m, .error .OutOfRange⟩
          | some row =>
            match HetConnector.set_synapse_status K
                (row.getD (K.get_node source_gid tid).get_local_device_id []) syn_id dict p with
            | .error e => ⟨m, .error e⟩
            | .ok h1 =>
              ⟨{ m with target_table_devices_ :=
                  { m.target_table_devices_ with
                    target_from_devices_ :=
                      m.target_table_devices_.target_from_devices_.set tid
                        (row.set (K.get_node source_gid tid).get_local_device_id h1) } },
                .ok ()⟩)) := by
  refine ⟨?_, ?_, ?_, ?_⟩
  · intro sp tp
    cases sp <;> cases tp <;> decide
  · rintro ⟨hs, ht⟩
    constructor
    · simp only [get_synapse_status, hp, synapse_status_route, hs, ht, status_of]
      cases m.connections_5g_[tid]? <;> rfl
    · simp only [set_synapse_status, hp, synapse_status_route, hs, ht]
      rfl
  · rintro ⟨hs, ht⟩
    constructor
    · simp only [get_synapse_status, hp, synapse_status_route, hs, ht, status_of]
      cases m.target_table_devices_.target_to_devices_[tid]? <;> rfl
    · simp only [set_synapse_status, hp, synapse_status_route, hs, ht]
      rfl
  · intro hs
    constructor
    · simp only [get_synapse_status, hp, synapse_status_route, hs, status_of]
      cases m.target_table_devices_.target_from_devices_[tid]? <;> rfl
    · simp only [set_synapse_status, hp, synapse_status_route, hs]
      rfl

/-- C18 on the example network: after neuron 1 has been connected to neuron 3
on thread 1, the status of that connection is read from the connector store of
thread 1. -/
theorem synapse_status_routing_witness :
    get_synapse_status (example_kernel 1) example_state_connected 1 3 1 0 0
      = .ok ⟨1, 0, ⟨3, 0, 0, .val 20, .val 50⟩⟩ ∧
    get_synapse_status (example_kernel 1) example_state_connected 1 3 1 0 0
      = (match example_state_connected.connections_5g_[1]? with
        | none => .error .OutOfRange
        | some h => status_of 1 0 0 h) :=
  ⟨by rfl,
    ((synapse_status_routing (example_kernel 1) example_state_connected 1 3 1 0 0 []
      example_prototype (by rfl)).2.1 ⟨by rfl, by rfl⟩).1⟩

/-! ## C19 and C20: `set_status` and `calibrate` -/

theorem set_status_loop_ok (S : DelayServices) (d : Dictionary)
    (done todo : List DelayChecker)
    (h : ∀ dc ∈ todo, (S.set_status dc d).isSome = true) :
    (set_status_loop S d done todo).2 = .ok () ∧
    (set_status_loop S d done todo).1.map some
      = done.map some ++ todo.map (fun dc => S.set_status dc d) := by
  induction todo generalizing done with
  | nil => simp [set_status_loop]
  | cons dc rest ih =>
    have hdc := h dc (List.mem_cons_self dc rest)
    cases hs : S.set_status dc d with
    | none => simp [hs] at hdc
    | some dc1 =>
      have := ih (done ++ [dc1]) (fun x hx => h x (List.mem_cons_of_mem dc hx))
      simp only [set_status_loop, hs]
      refine ⟨this.1, ?_⟩
      rw [this.2]
      simp [hs]

theorem set_status_loop_error (S : DelayServices) (d : Dictionary)
    (done todo : List DelayChecker) (e : Error)
    (h : (set_status_loop S d done todo).2 = .error e) :
    ∃ dc ∈ todo, S.set_status dc d = none := by
  induction todo generalizing done with
  | nil => simp [set_status_loop] at h
  | cons dc rest ih =>
    cases hs : S.set_status dc d with
    | none => exact ⟨dc, List.mem_cons_self dc rest, hs⟩
    | some dc1 =>
      simp only [set_status_loop, hs] at h
      obtain ⟨x, hx, hx1⟩ := ih (done ++ [dc1]) h
      exact ⟨x, List.mem_cons_of_mem dc hx, hx1⟩

/-- C19, counterexample. Two worker threads; `set_status` with the window
[5, 50] is called on thread 0. The delay checker of thread 1 is not what it was
before the call: it has taken the new window. -/
theorem set_status_counterexample :
    (example_kernel 0).thread_id = 0 ∧
    example_state.delay_checkers_[1]? = some ⟨1, 100, true, false⟩ ∧
    (set_status example_services example_state
      [("min_delay", .long 5), ("max_delay", .long 50)]).state.delay_checkers_[1]?
      = some ⟨5, 50, true, false⟩ ∧
    (set_status example_services example_state
      [("min_delay", .long 5), ("max_delay", .long 50)]).state.delay_checkers_[1]?
      ≠ example_state.delay_checkers_[1]? := by
  refine ⟨by rfl, by rfl, by rfl, by decide⟩

/-- C19, amended. `set_status(d)` applies `d` to the delay checker of every
thread, in thread order, whatever the calling thread is: when no application
throws, the call succeeds and each delay checker is the result of
`DelayChecker::set_status(d)` on the checker the thread had before; a failing
call is one in which some application threw. Nothing but the delay checkers
changes. -/
theorem set_status_all_threads (S : DelayServices) (m : ConnectionBuilderManager)
    (d : Dictionary) :
    ((∀ dc ∈ m.delay_checkers_, (S.set_status dc d).isSome = true) →
      (set_status S m d).result = .ok () ∧
      (set_status S m d).state.delay_checkers_.map some
        = m.delay_checkers_.map (fun dc => S.set_status dc d)) ∧
    (∀ e, (set_status S m d).result = .error e →
      ∃ dc ∈ m.delay_checkers_, S.set_status dc d = none) ∧
    (set_status S m d).state
      = { m with delay_checkers_ := (set_status S m d).state.delay_checkers_ } := by
  refine ⟨?_, ?_, rfl⟩
  · intro h
    have := set_status_loop_ok S d [] m.delay_checkers_ h
    exact ⟨this.1, by simpa [set_status] using this.2⟩
  · intro e he
    exact set_status_loop_error S d [] m.delay_checkers_ e he

/-- The amended C19 on the example network: both delay checkers take the
window [5, 50]. -/
theorem set_status_all_threads_witness :
    (set_status example_services example_state
      [("min_delay", .long 5), ("max_delay", .long 50)]).result = .ok () ∧
    (set_status example_services example_state
      [("min_delay", .long 5), ("max_delay", .long 50)]).state.delay_checkers_
      = [⟨5, 50, true, false⟩, ⟨5, 50, true, false⟩] :=
  ⟨((set_status_all_threads example_services example_state
      [("min_delay", .long 5), ("max_delay", .long 50)]).1 (by decide)).1,
    by rfl⟩

theorem foldl_min_le (l : List delay) (a : delay) :
    l.foldl min a ≤ a ∧ (∀ x ∈ l, l.foldl min a ≤ x) ∧ (l.foldl min a = a ∨ l.foldl min a ∈ l) := by
  induction l generalizing a with
  | nil => simp
  | cons y ys ih =>
    obtain ⟨h1, h2, h3⟩ := ih (min a y)
    simp only [List.foldl_cons, List.mem_cons]
    refine ⟨le_trans h1 (min_le_left a y), ?_, ?_⟩
    · intro x hx
      rcases hx with hx | hx
      · subst hx
        exact le_trans h1 (min_le_right a x)
      · exact h2 x hx
    · rcases h3 with h3 | h3
      · rcases min_choice a y with hc | hc
        · left
          rw [h3, hc]
        · right
          left
          rw [h3, hc]
      · right
        right
        exact h3

theorem foldl_max_ge (l : List delay) (a : delay) :
    a ≤ l.foldl max a ∧ (∀ x ∈ l, x ≤ l.foldl max a) ∧ (l.foldl max a = a ∨ l.foldl max a ∈ l) := by
  induction l generalizing a with
  | nil => simp
  | cons y ys ih =>
    obtain ⟨h1, h2, h3⟩ := ih (max a y)
    simp only [List.foldl_cons, List.mem_cons]
    refine ⟨le_trans (le_max_left a y) h1, ?_, ?_⟩
    · intro x hx
      rcases hx with hx | hx
      · subst hx
        exact le_trans (le_max_right a x) h1
      · exact h2 x hx
    · rcases h3 with h3 | h3
      · rcases max_choice a y with hc | hc
        · left
          rw [h3, hc]
        · right
          left
          rw [h3, hc]
      · right
        right
        exact h3

/-- The value of `min_element` is the least element of a non-empty vector. -/
theorem min_element_least (v : List delay) (hv : v ≠ []) :
    min_element v ∈ v ∧ ∀ x ∈ v, min_element v ≤ x := by
  cases v with
  | nil => exact absurd rfl hv
  | cons y ys =>
    obtain ⟨h1, h2, h3⟩ := foldl_min_le ys y
    simp only [min_element, List.mem_cons]
    refine ⟨?_, ?_⟩
    · rcases h3 with h3 | h3
      · exact Or.inl h3
      · exact Or.inr h3
    · intro x hx
      rcases hx with hx | hx
      · subst hx
        exact h1
      · exact h2 x hx

/-- The value of `max_element` is the greatest element of a non-empty vector. -/
theorem max_element_greatest (v : List delay) (hv : v ≠ []) :
    max_element v ∈ v ∧ ∀ x ∈ v, x ≤ max_element v := by
  cases v with
  | nil => exact absurd rfl hv
  | cons y ys =>
    obtain ⟨h1, h2, h3⟩ := foldl_max_ge ys y
    simp only [max_element, List.mem_cons]
    refine ⟨?_, ?_⟩
    · rcases h3 with h3 | h3
      · exact Or.inl h3
      · exact Or.inr h3
    · intro x hx
      rcases hx with hx | hx
      · subst hx
        exact h1
      · exact h2 x hx

theorem min_element_perm (v v1 : List delay) (hp : v1.Perm v) (hv : v ≠ []) :
    min_element v1 = min_element v := by
  have hv1 : v1 ≠ [] := fun e => hv (by simpa [e] using hp.symm)
  obtain ⟨a1, a2⟩ := min_element_least v hv
  obtain ⟨b1, b2⟩ := min_element_least v1 hv1
  exact le_antisymm (b2 _ (hp.mem_iff.mpr a1)) (a2 _ (hp.mem_iff.mp b1))

theorem max_element_perm (v v1 : List delay) (hp : v1.Perm v) (hv : v ≠ []) :
    max_element v1 = max_element v := by
  have hv1 : v1 ≠ [] := fun e => hv (by simpa [e] using hp.symm)
  obtain ⟨a1, a2⟩ := max_element_greatest v hv
  obtain ⟨b1, b2⟩ := max_element_greatest v1 hv1
  exact le_antisymm (a2 _ (hp.mem_iff.mp b1)) (b2 _ (hp.mem_iff.mpr a1))

/-- After the all-gather every process holds the vector of the contributions. -/
theorem communicate_gathers (contributions : List delay) (rank : Nat) (own : delay)
    (hown : contributions[rank]? = some own) :
    communicate contributions rank ((List.replicate contributions.length 0).set rank own)
      = contributions := by
  have hlt := lt_length_of_getElem? _ _ _ hown
  apply List.ext_getElem
  · simp [communicate]
  · intro j h1 h2
    simp only [communicate, List.getElem_map, List.getElem_range, List.length_set,
      List.length_replicate]
    by_cases hj : j = rank
    · subst hj
      rw [if_pos rfl, getD_set_eq _ _ _ _ (by simpa using hlt)]
      have := List.getElem?_eq_getElem h2
      rw [hown] at this
      exact (Option.some.inj this)
    · rw [if_neg hj, List.getD_eq_getElem?_getD, List.getElem?_eq_getElem h2]
      rfl

theorem local_min_le_pos_inf (S : DelayServices) (m : ConnectionBuilderManager) :
    (local_delay_extrema S m).1 ≤ S.pos_inf_steps := by
  have h := (foldl_min_le (m.delay_checkers_.map (fun dc => dc.min_delay_)) S.pos_inf_steps).1
  have hfold : (m.delay_checkers_.map (fun dc => dc.min_delay_)).foldl min S.pos_inf_steps
      = get_min_delay_time_ S m := by
    simp [get_min_delay_time_, List.foldl_map]
  rw [hfold] at h
  simp only [local_delay_extrema]
  split
  · exact le_trans (min_le_left _ _) h
  · exact h

/-- C12. In a run of `p >= 1` processes, process `i` being given by its services
(with `num_processes = p` and `rank = i`) and its manager state, and all
processes sharing the sentinel `Time::pos_inf()`: when at least one local
minimum is not the sentinel, `update_delay_extrema_` leaves on every process
`min_delay_ = min_i a_i` and `max_delay_ = max_i b_i`, where `(a_i, b_i)` is the
window process `i` holds just before the collective step. The two values do
not depend on the process and are the same for every permutation of the
ranks. -/
theorem update_delay_extrema_distributed
    (procs : List (DelayServices × ConnectionBuilderManager)) (i : Nat) (S : DelayServices)
    (m : ConnectionBuilderManager) (P : delay)
    (hi : procs[i]? = some (S, m))
    (hn : S.num_processes = procs.length) (hr : S.rank = i)
    (hP : ∀ q ∈ procs, q.1.pos_inf_steps = P)
    (hfin : ∃ q ∈ procs, (local_delay_extrema q.1 q.2).1 ≠ P) :
    (update_delay_extrema_ S ((local_windows procs).map Prod.fst)
        ((local_windows procs).map Prod.snd) m).min_delay_
      = min_element ((local_windows procs).map Prod.fst) ∧
    (update_delay_extrema_ S ((local_windows procs).map Prod.fst)
        ((local_windows procs).map Prod.snd) m).max_delay_
      = max_element ((local_windows procs).map Prod.snd) ∧
    (min_element ((local_windows procs).map Prod.fst) ∈ (local_windows procs).map Prod.fst ∧
      ∀ a ∈ (local_windows procs).map Prod.fst,
        min_element ((local_windows procs).map Prod.fst) ≤ a) ∧
    (max_element ((local_windows procs).map Prod.snd) ∈ (local_windows procs).map Prod.snd ∧
      ∀ b ∈ (local_windows procs).map Prod.snd,
        b ≤ max_element ((local_windows procs).map Prod.snd)) ∧
    (∀ procs1 : List (DelayServices × ConnectionBuilderManager), procs1.Perm procs →
      min_element ((local_windows procs1).map Prod.fst)
        = min_element ((local_windows procs).map Prod.fst) ∧
      max_element ((local_windows procs1).map Prod.snd)
        = max_element ((local_windows procs).map Prod.snd)) := by
  have hlt : i < procs.length := lt_length_of_getElem? _ _ _ hi
  have hne : procs ≠ [] := fun e => by simp [e] at hlt
  have hmin_ne : (local_windows procs).map Prod.fst ≠ [] := by
    simpa [local_windows] using hne
  have hmax_ne : (local_windows procs).map Prod.snd ≠ [] := by
    simpa [local_windows] using hne
  have hlen1 : ((local_windows procs).map Prod.fst).length = procs.length := by
    simp [local_windows]
  have hlen2 : ((local_windows procs).map Prod.snd).length = procs.length := by
    simp [local_windows]
  have hown1 : ((local_windows procs).map Prod.fst)[i]? = some (local_delay_extrema S m).1 := by
    simp [local_windows, hi]
  have hown2 : ((local_windows procs).map Prod.snd)[i]? = some (local_delay_extrema S m).2 := by
    simp [local_windows, hi]
  have hmin := min_element_least _ hmin_ne
  have hmax := max_element_greatest _ hmax_ne
  have hSP : S.pos_inf_steps = P := hP (S, m) (List.getElem?_mem hi)
  -- the reduction gives the extrema of the contributions
  have hred : reduce_delay_extrema S ((local_windows procs).map Prod.fst)
      ((local_windows procs).map Prod.snd) (local_delay_extrema S m)
      = (min_element ((local_windows procs).map Prod.fst),
          max_element ((local_windows procs).map Prod.snd)) := by
    unfold reduce_delay_extrema
    split
    · have e1 := communicate_gathers _ i _ hown1
      have e2 := communicate_gathers _ i _ hown2
      rw [hlen1] at e1
      rw [hlen2] at e2
      simp only [hn, hr, e1, e2]
    · next hnp =>
      have hone : procs.length = 1 := by omega
      have hi0 : i = 0 := by omega
      subst hi0
      match procs, hone, hi with
      | [q], _, hq =>
        simp only [List.getElem?_cons_zero, Option.some.injEq] at hq
        subst hq
        simp [local_windows, min_element, max_element]
  -- the minimum is not the sentinel
  have hnot : min_element ((local_windows procs).map Prod.fst) ≠ S.pos_inf_steps := by
    obtain ⟨q, hq, hqne⟩ := hfin
    have hle := local_min_le_pos_inf q.1 q.2
    rw [hP q hq] at hle
    have hmem : (local_delay_extrema q.1 q.2).1 ∈ (local_windows procs).map Prod.fst := by
      simp only [local_windows, List.map_map, List.mem_map]
      exact ⟨q, hq, rfl⟩
    have hle1 := hmin.2 _ hmem
    rw [hSP]
    intro heq
    rw [heq] at hle1
    exact hqne (le_antisymm hle hle1)
  refine ⟨?_, ?_, hmin, hmax, ?_⟩
  · simp only [update_delay_extrema_, hred]
    rw [if_neg hnot]
  · simp only [update_delay_extrema_, hred]
  · intro procs1 hperm
    have hp1 : ((local_windows procs1).map Prod.fst).Perm ((local_windows procs).map Prod.fst) :=
      (hperm.map _).map _
    have hp2 : ((local_windows procs1).map Prod.snd).Perm ((local_windows procs).map Prod.snd) :=
      (hperm.map _).map _
    exact ⟨min_element_perm _ _ hp1 hmin_ne, max_element_perm _ _ hp2 hmax_ne⟩

/-- C12 on a run of two processes with the local windows [1, 100] and
[20, 100]: both processes end with the window [1, 100]. -/
theorem update_delay_extrema_distributed_witness :
    local_windows example_processes = [(1, 100), (20, 100)] ∧
    (update_delay_extrema_ { example_services with num_processes := 2, rank := 1 }
        ((local_windows example_processes).map Prod.fst)
        ((local_windows example_processes).map Prod.snd) example_state_narrow).min_delay_
      = min_element ((local_windows example_processes).map Prod.fst) ∧
    min_element ((local_windows example_processes).map Prod.fst) = 1 ∧
    (update_delay_extrema_ { example_services with num_processes := 2, rank := 0 }
        ((local_windows example_processes).map Prod.fst)
        ((local_windows example_processes).map Prod.snd) example_state).max_delay_
      = max_element ((local_windows example_processes).map Prod.snd) :=
  ⟨by rfl,
    (update_delay_extrema_distributed example_processes 1
      { example_services with num_processes := 2, rank := 1 } example_state_narrow 1000000
      (by rfl) (by rfl) (by rfl) (by decide) (by decide)).1,
    by rfl,
    (update_delay_extrema_distributed example_processes 0
      { example_services with num_processes := 2, rank := 0 } example_state 1000000
      (by rfl) (by rfl) (by rfl) (by decide) (by decide)).2.1⟩

/-! ## C13 and C14: the rule-driven `connect` -/

theorem clear_access_flags_idem (d : ConfigMap) :
    ConfigMap.clear_access_flags (ConfigMap.clear_access_flags d)
      = ConfigMap.clear_access_flags d := by
  simp [ConfigMap.clear_access_flags, List.map_map, Function.comp_def]

/-- C13. `connect(sources, targets, conn_spec, syn_spec)` first clears the access
flags of both maps (the flags the caller passes in are irrelevant); and when,
after the builder has been constructed, an entry of `conn_spec` or of
`syn_spec` is not accessed, the call fails with `UnaccessedDictionaryEntry`
listing the unread entries of the first map that has one, and the state is the
state before the call whatever the builder's `connect()` would do. -/
theorem connect_spec_unread (R : RuleRegistry) (m : ConnectionBuilderManager)
    (sources targets : List index) (conn_spec syn_spec : ConfigMap) (rule_name : String)
    (rule_id : Nat) (factory : ConnBuilderFactory) (cb : ConnBuilder)
    (hrule : ConfigMap.lookup (ConfigMap.clear_access_flags conn_spec) "rule"
      = some (.literal rule_name))
    (hid : R.connruledict_.lookup rule_name = some rule_id)
    (hfac : R.connbuilder_factories_[rule_id]? = some factory)
    (hcb : (factory sources targets
        (ConfigMap.access (ConfigMap.clear_access_flags conn_spec) "rule")
        (ConfigMap.clear_access_flags syn_spec)).builder = .ok cb)
    (hunread :
      ConfigMap.unaccessed (factory sources targets
        (ConfigMap.access (ConfigMap.clear_access_flags conn_spec) "rule")
        (ConfigMap.clear_access_flags syn_spec)).conn_spec ≠ [] ∨
      ConfigMap.unaccessed (factory sources targets
        (ConfigMap.access (ConfigMap.clear_access_flags conn_spec) "rule")
        (ConfigMap.clear_access_flags syn_spec)).syn_spec ≠ []) :
    (connect_spec R m sources targets conn_spec syn_spec).state = m ∧
    (ConfigMap.unaccessed (factory sources targets
        (ConfigMap.access (ConfigMap.clear_access_flags conn_spec) "rule")
        (ConfigMap.clear_access_flags syn_spec)).conn_spec ≠ [] →
      (connect_spec R m sources targets conn_spec syn_spec).result
        = .error (.UnaccessedDictionaryEntry "Unread dictionary entries in conn_spec: "
            (ConfigMap.unaccessed (factory sources targets
              (ConfigMap.access (ConfigMap.clear_access_flags conn_spec) "rule")
              (ConfigMap.clear_access_flags syn_spec)).conn_spec))) ∧
    (ConfigMap.unaccessed (factory sources targets
        (ConfigMap.access (ConfigMap.clear_access_flags conn_spec) "rule")
        (ConfigMap.clear_access_flags syn_spec)).conn_spec = [] →
      (connect_spec R m sources targets conn_spec syn_spec).result
        = .error (.UnaccessedDictionaryEntry "Unread dictionary entries in syn_spec: "
            (ConfigMap.unaccessed (factory sources targets
              (ConfigMap.access (ConfigMap.clear_access_flags conn_spec) "rule")
              (ConfigMap.clear_access_flags syn_spec)).syn_spec))) ∧
    connect_spec R m sources targets conn_spec syn_spec
      = connect_spec R m sources targets (ConfigMap.clear_access_flags conn_spec)
          (ConfigMap.clear_access_flags syn_spec) := by
  have hknown : ConfigMap.known (ConfigMap.clear_access_flags conn_spec) "rule" = true := by
    simp [ConfigMap.known, hrule]
  refine ⟨?_, ?_, ?_, ?_⟩
  · simp only [connect_spec, hknown, hrule, hid, hfac, hcb]
    by_cases h1 : ConfigMap.unaccessed (factory sources targets
        (ConfigMap.access (ConfigMap.clear_access_flags conn_spec) "rule")
        (ConfigMap.clear_access_flags syn_spec)).conn_spec = []
    · have h2 : ConfigMap.unaccessed (factory sources targets
          (ConfigMap.access (ConfigMap.clear_access_flags conn_spec) "rule")
          (ConfigMap.clear_access_flags syn_spec)).syn_spec ≠ [] := by
        rcases hunread with h | h
        · exact absurd h1 h
        · exact h
      simp [h1, h2]
    · simp [h1]
  · intro h1
    simp [connect_spec, hknown, hrule, hid, hfac, hcb, h1]
  · intro h1
    have h2 : ConfigMap.unaccessed (factory sources targets
        (ConfigMap.access (ConfigMap.clear_access_flags conn_spec) "rule")
        (ConfigMap.clear_access_flags syn_spec)).syn_spec ≠ [] := by
      rcases hunread with h | h
      · exact absurd h1 h
      · exact h
    simp [connect_spec, hknown, hrule, hid, hfac, hcb, h1, h2]
  · simp only [connect_spec, clear_access_flags_idem]

/-- C13 on the example registry: the synapse spec carries the misspelt entry
`wieght`, which the builder of `one_to_one` does not read; the call fails
naming that entry and no connection is created. -/
theorem connect_spec_unread_witness :
    (connect_spec example_registry example_state [1, 2] [3, 4]
      [⟨"rule", .literal "one_to_one", true⟩]
      [⟨"model", .literal "static_synapse", false⟩,
        ⟨"wieght", .datum (.double (.val 20)), true⟩]).result
      = .error (.UnaccessedDictionaryEntry "Unread dictionary entries in syn_spec: "
          ["wieght"]) ∧
    (connect_spec example_registry example_state [1, 2] [3, 4]
      [⟨"rule", .literal "one_to_one", true⟩]
      [⟨"model", .literal "static_synapse", false⟩,
        ⟨"wieght", .datum (.double (.val 20)), true⟩]).state = example_state :=
  ⟨by rfl,
    (connect_spec_unread example_registry example_state [1, 2] [3, 4]
      [⟨"rule", .literal "one_to_one", true⟩]
      [⟨"model", .literal "static_synapse", false⟩,
        ⟨"wieght", .datum (.double (.val 20)), true⟩]
      "one_to_one" 0 _ (example_one_to_one [(1, 3), (2, 4)]) (by rfl) (by rfl) (by rfl)
      (by rfl) (Or.inr (by decide))).1⟩

/-- C14, counterexample. With the example registry, a `conn_spec` without a rule
entry and a `conn_spec` naming the unregistered rule `no_such_rule` are both
reported as `BadProperty`; the two exceptions differ in their message only. -/
theorem connect_spec_rule_counterexample :
    (connect_spec example_registry example_state [1] [3] [] []).result
      = .error (.BadProperty "Connectivity spec must contain connectivity rule.") ∧
    (connect_spec example_registry example_state [1] [3]
      [⟨"rule", .literal "no_such_rule", false⟩] []).result
      = .error (.BadProperty "Unknown connectivty rule: no_such_rule") ∧
    ¬ (Exception.kind (.BadProperty "Unknown connectivty rule: no_such_rule")
      ≠ Exception.kind (.BadProperty "Connectivity spec must contain connectivity rule.")) := by
  refine ⟨by rfl, by rfl, by decide⟩

/-- C14, amended. `connect(sources, targets, conn_spec, syn_spec)` fails without
constructing a builder (the outcome is the same for every vector of factories)
and without changing any connection state when `conn_spec` has no rule entry
or names a rule that is not registered; both cases are reported as
`BadProperty`, with different messages. -/
theorem connect_spec_rule_errors (R : RuleRegistry) (m : ConnectionBuilderManager)
    (sources targets : List index) (conn_spec syn_spec : ConfigMap) :
    (ConfigMap.lookup (ConfigMap.clear_access_flags conn_spec) "rule" = none →
      (connect_spec R m sources targets conn_spec syn_spec).result
        = .error (.BadProperty "Connectivity spec must contain connectivity rule.") ∧
      (connect_spec R m sources targets conn_spec syn_spec).state = m ∧
      ∀ factories, connect_spec { R with connbuilder_factories_ := factories } m sources targets
          conn_spec syn_spec
        = connect_spec R m sources targets conn_spec syn_spec) ∧
    (∀ rule_name,
      ConfigMap.lookup (ConfigMap.clear_access_flags conn_spec) "rule"
        = some (.literal rule_name) →
      R.connruledict_.lookup rule_name = none →
      (connect_spec R m sources targets conn_spec syn_spec).result
        = .error (.BadProperty ("Unknown connectivty rule: " ++ rule_name)) ∧
      (connect_spec R m sources targets conn_spec syn_spec).state = m ∧
      ∀ factories, connect_spec { R with connbuilder_factories_ := factories } m sources targets
          conn_spec syn_spec
        = connect_spec R m sources targets conn_spec syn_spec) := by
  constructor
  · intro hnone
    have hknown : ConfigMap.known (ConfigMap.clear_access_flags conn_spec) "rule" = false := by
      simp [ConfigMap.known, hnone]
    refine ⟨?_, ?_, ?_⟩
    · simp [connect_spec, hknown]
    · simp [connect_spec, hknown]
    · intro factories
      simp [connect_spec, hknown]
  · intro rule_name hrule hid
    have hknown : ConfigMap.known (ConfigMap.clear_access_flags conn_spec) "rule" = true := by
      simp [ConfigMap.known, hrule]
    refine ⟨?_, ?_, ?_⟩
    · simp [connect_spec, hknown, hrule, hid]
    · simp [connect_spec, hknown, hrule, hid]
    · intro factories
      simp [connect_spec, hknown, hrule, hid]

/-- The amended C14 on the example registry: the unregistered rule
`no_such_rule` is reported as `BadProperty` and the state is unchanged. -/
theorem connect_spec_rule_errors_witness :
    (connect_spec example_registry example_state [1] [3]
      [⟨"rule", .literal "no_such_rule", false⟩] []).result
      = .error (.BadProperty ("Unknown connectivty rule: " ++ "no_such_rule")) ∧
    (connect_spec example_registry example_state [1] [3]
      [⟨"rule", .literal "no_such_rule", false⟩] []).state = example_state :=
  ⟨((connect_spec_rule_errors example_registry example_state [1] [3]
      [⟨"rule", .literal "no_such_rule", false⟩] []).2 "no_such_rule" (by rfl) (by rfl)).1,
    ((connect_spec_rule_errors example_registry example_state [1] [3]
      [⟨"rule", .literal "no_such_rule", false⟩] []).2 "no_such_rule" (by rfl) (by rfl)).2.1⟩

/-! ## C17: `get_connections` after the source table was cleared -/

/-- C17. Whenever the source table has been cleared,
`get_connections(connectome, source, target, synapse_id, synapse_label)` raises
`KernelException` and leaves `connectome` as it was, for every source filter,
target filter, synapse type and label; the outcome is the same for every such
state of the manager: no connector store and no table is read. -/
theorem get_connections_cleared (K : Kernel) (Q : QueryServices)
    (m : ConnectionBuilderManager) (connectome : ArrayDatum)
    (source target : Option (List index)) (synapse_id : synindex) (synapse_label : Int)
    (h : m.source_table_.is_cleared_ = true) :
    (get_connections_syn K Q m connectome source target synapse_id synapse_label).result
      = .error (.KernelException
          "Invalid attempt to access connection information: source table was cleared.") ∧
    (get_connections_syn K Q m connectome source target synapse_id synapse_label).connectome
      = connectome ∧
    (∀ m1 : ConnectionBuilderManager, m1.source_table_.is_cleared_ = true →
      get_connections_syn K Q m1 connectome source target synapse_id synapse_label
        = get_connections_syn K Q m connectome source target synapse_id synapse_label) := by
  refine ⟨?_, ?_, ?_⟩
  · simp [get_connections_syn, h]
  · simp [get_connections_syn, h]
  · intro m1 h1
    simp [get_connections_syn, h, h1]

/-- C17 on the example network: after `finalize()` the query fails and the
array handed in, here holding one descriptor, is returned unchanged. -/
theorem get_connections_cleared_witness :
    (finalize example_state_three).source_table_.is_cleared_ = true ∧
    (get_connections_syn (example_kernel 0) example_query (finalize example_state_three)
      [⟨1, 3, 1, 0, 0⟩] (some [1]) none 0 (-1)).connectome = [⟨1, 3, 1, 0, 0⟩] :=
  ⟨by rfl,
    (get_connections_cleared (example_kernel 0) example_query (finalize example_state_three)
      [⟨1, 3, 1, 0, 0⟩] (some [1]) none 0 (-1) (by rfl)).2.1⟩

/-! ## C16: the source filter -/

/-- The loop of `std::lower_bound` on a sorted vector ends at the boundary
between the elements smaller than `value` and the others. -/
theorem lower_bound_loop_spec (v : List index) (value : index)
    (hsorted : ∀ i j, i ≤ j → j < v.length → v.getD i 0 ≤ v.getD j 0)
    (fuel first count : Nat) (hfuel : count ≤ fuel) (hlen : first + count ≤ v.length)
    (hlow : ∀ i, i < first → v.getD i 0 < value)
    (hhigh : ∀ i, first + count ≤ i → i < v.length → value ≤ v.getD i 0) :
    lower_bound_loop v value fuel first count ≤ v.length ∧
    (∀ i, i < lower_bound_loop v value fuel first count → v.getD i 0 < value) ∧
    (∀ i, lower_bound_loop v value fuel first count ≤ i → i < v.length →
      value ≤ v.getD i 0) := by
  induction fuel generalizing first count with
  | zero =>
    have hc : count = 0 := by omega
    subst hc
    simp only [lower_bound_loop]
    exact ⟨by omega, hlow, fun i hi hil => hhigh i (by omega) hil⟩
  | succ k ih =>
    simp only [lower_bound_loop]
    split
    · next hc =>
      subst hc
      exact ⟨by omega, hlow, fun i hi hil => hhigh i (by omega) hil⟩
    · next hc =>
      have hstep : count / 2 < count := Nat.div_lt_self (by omega) (by omega)
      split
      · next hlt =>
        apply ih
        · omega
        · omega
        · intro i hi
          exact Nat.lt_of_le_of_lt (hsorted i (first + count / 2) (by omega) (by omega)) hlt
        · intro i hi hil
          exact hhigh i (by omega) hil
      · next hge =>
        apply ih
        · omega
        · omega
        · exact hlow
        · intro i hi hil
          exact Nat.le_trans (Nat.le_of_not_lt hge) (hsorted (first + count / 2) i hi hil)

theorem sorted_getD (v : List index) (hs : v.Sorted (· ≤ ·)) :
    ∀ i j, i ≤ j → j < v.length → v.getD i 0 ≤ v.getD j 0 := by
  intro i j hij hj
  rcases Nat.eq_or_lt_of_le hij with h | h
  · subst h
    exact le_refl _
  · have hp := (List.pairwise_iff_getElem.mp hs) i j (by omega) hj h
    rw [List.getD_eq_getElem _ _ (by omega : i < v.length), List.getD_eq_getElem _ _ hj]
    exact hp

/-- On a sorted vector `std::binary_search` decides membership. -/
theorem binary_search_sorted (v : List index) (value : index) (hs : v.Sorted (· ≤ ·)) :
    binary_search v value = true ↔ value ∈ v := by
  have hsorted := sorted_getD v hs
  obtain ⟨h1, h2, h3⟩ := lower_bound_loop_spec v value hsorted v.length 0 v.length
    (le_refl _) (by omega) (fun i hi => absurd hi (by omega))
    (fun i hi hil => absurd hil (by omega))
  simp only [binary_search, Bool.and_eq_true, bne_iff_ne, ne_eq, Bool.not_eq_true',
    decide_eq_false_iff_not, not_lt]
  constructor
  · rintro ⟨hne, hle⟩
    have hlt : lower_bound_loop v value v.length 0 v.length < v.length := by omega
    have hge := h3 _ (le_refl _) hlt
    have heq : v.getD (lower_bound_loop v value v.length 0 v.length) 0 = value :=
      Nat.le_antisymm hle hge
    rw [List.getD_eq_getElem _ _ hlt] at heq
    rw [← heq]
    exact List.getElem_mem _
  · intro hmem
    obtain ⟨i, hi, hiv⟩ := List.mem_iff_getElem.mp hmem
    have hiv1 : v.getD i 0 = value := by
      rw [List.getD_eq_getElem _ _ hi]
      exact hiv
    have hge : lower_bound_loop v value v.length 0 v.length ≤ i := by
      by_contra hc
      have hlt := h2 i (by omega)
      rw [hiv1] at hlt
      exact absurd hlt (Nat.lt_irrefl _)
    refine ⟨by omega, ?_⟩
    have hle := hsorted _ i hge hi
    rw [hiv1] at hle
    exact hle

/-- Sorting the list and searching it by bisection decides the same
membership as a linear search of the original list. -/
theorem binary_search_std_sort (source : List index) (value : index) :
    binary_search (std_sort source) value = source.contains value := by
  have hs : (std_sort source).Sorted (· ≤ ·) := List.sorted_insertionSort _ _
  have h1 := binary_search_sorted (std_sort source) value hs
  have h2 : value ∈ std_sort source ↔ value ∈ source := List.mem_insertionSort _
  cases hb : binary_search (std_sort source) value with
  | true =>
    have := h2.mp (h1.mp hb)
    simp [this]
  | false =>
    have hn : ¬ value ∈ source := fun hm => by
      have := h1.mpr (h2.mpr hm)
      rw [hb] at this
      cases this
    simp [hn]

theorem foldl_filter_emit {β : Type} (p : Nat → Bool) (f : Nat → Option β) (l : List Nat)
    (init : List β) :
    l.foldl (fun acc x => if p x then acc ++ (f x).toList else acc) init
      = init ++ (l.filter p).filterMap f := by
  induction l generalizing init with
  | nil => simp
  | cons x xs ih =>
    simp only [List.foldl_cons]
    rw [ih]
    cases hp : p x with
    | true =>
      cases hf : f x with
      | none => simp [List.filter_cons, hp, hf]
      | some y => simp [List.filter_cons, hp, hf]
    | false => simp [List.filter_cons, hp]

/-- C16. For `get_connections` with a source filter and no target filter, the
connections taken from a thread's connector store for a synapse type are
exactly those at the positions `lcid` whose source-table identifier is a
member of the caller's source list, in ascending order of `lcid`: sorting the
list and testing by binary search decides the same membership as a linear
search of the original list, for every list. -/
theorem source_filter_by_membership (Q : QueryServices) (m : ConnectionBuilderManager)
    (source : List index) (tid : thread) (synapse_id : synindex) (synapse_label : Int) :
    store_connections_by_source Q m source none tid synapse_id synapse_label
      = store_connections_by_membership Q m source tid synapse_id synapse_label ∧
    (∀ value, binary_search (std_sort source) value = source.contains value) ∧
    conns_in_thread Q m (some source) none synapse_id synapse_label tid
      = source.foldl
          (fun conns_in_thread source_gid =>
            TargetTableDevices.get_connections Q m.target_table_devices_ source_gid 0 tid
              synapse_id synapse_label conns_in_thread)
          (store_connections_by_membership Q m source tid synapse_id synapse_label) := by
  have h1 : store_connections_by_source Q m source none tid synapse_id synapse_label
      = store_connections_by_membership Q m source tid synapse_id synapse_label := by
    simp only [store_connections_by_source, store_connections_by_membership,
      HetConnector.get_connection, binary_search_std_sort]
    rw [foldl_filter_emit
      (fun lcid => source.contains (m.source_table_.get_gid tid synapse_id lcid))
      (fun lcid => connection_at Q (m.connections_5g_.getD tid [])
        (m.source_table_.get_gid tid synapse_id lcid) tid synapse_id lcid synapse_label)]
    simp
  refine ⟨h1, binary_search_std_sort source, ?_⟩
  simp only [conns_in_thread, h1]

/-- The scenario of the spec on the example network: two connections from
neuron 1 and one from neuron 7; the query with the source list `[1]` returns
exactly the two connections from neuron 1. -/
theorem source_filter_scenario :
    get_connections (example_kernel 0) example_query example_state_three
      ⟨some [1], none, some "static_synapse", none⟩
      = .ok [.connection ⟨1, 4, 0, 0, 0⟩, .connection ⟨1, 3, 1, 0, 0⟩] ∧
    store_connections_by_source example_query example_state_three [7, 1, 7] none 1 0 (-1)
      = [⟨1, 3, 1, 0, 0⟩, ⟨7, 5, 1, 0, 1⟩] := by
  refine ⟨by rfl, by rfl⟩

/-! ## C15: the unfiltered query and the cached total -/

theorem foldl_or_any {α : Type} (f : α → Bool) (l : List α) (a : Bool) :
    l.foldl (fun u x => u || f x) a = (a || l.any f) := by
  induction l generalizing a with
  | nil => simp
  | cons x xs ih =>
    simp only [List.foldl_cons, List.any_cons, ih]
    cases a <;> cases f x <;> simp

theorem get_user_set_delay_extrema_iff (m : ConnectionBuilderManager) :
    get_user_set_delay_extrema m = true
      ↔ ∃ dc ∈ m.delay_checkers_, dc.user_set_delay_extrema_ = true := by
  simp [get_user_set_delay_extrema, foldl_or_any]

theorem get_min_delay_time__le (S : DelayServices) (m : ConnectionBuilderManager) :
    get_min_delay_time_ S m ≤ S.pos_inf_steps ∧
    (∀ dc ∈ m.delay_checkers_, get_min_delay_time_ S m ≤ dc.min_delay_) ∧
    (get_min_delay_time_ S m = S.pos_inf_steps ∨
      ∃ dc ∈ m.delay_checkers_, get_min_delay_time_ S m = dc.min_delay_) := by
  obtain ⟨h1, h2, h3⟩ :=
    foldl_min_le (m.delay_checkers_.map (fun dc => dc.min_delay_)) S.pos_inf_steps
  have hfold : (m.delay_checkers_.map (fun dc => dc.min_delay_)).foldl min S.pos_inf_steps
      = get_min_delay_time_ S m := by
    simp [get_min_delay_time_, List.foldl_map]
  rw [hfold] at h1 h2 h3
  refine ⟨h1, ?_, ?_⟩
  · intro dc hdc
    exact h2 _ (List.mem_map_of_mem (fun dc => dc.min_delay_) hdc)
  · rcases h3 with h3 | h3
    · exact Or.inl h3
    · obtain ⟨dc, hdc, heq⟩ := List.mem_map.mp h3
      exact Or.inr ⟨dc, hdc, heq.symm⟩

theorem get_max_delay_time__ge (S : DelayServices) (m : ConnectionBuilderManager) :
    S.resolution_steps ≤ get_max_delay_time_ S m ∧
    (∀ dc ∈ m.delay_checkers_, dc.max_delay_ ≤ get_max_delay_time_ S m) := by
  obtain ⟨h1, h2, -⟩ :=
    foldl_max_ge (m.delay_checkers_.map (fun dc => dc.max_delay_)) S.resolution_steps
  have hfold : (m.delay_checkers_.map (fun dc => dc.max_delay_)).foldl max S.resolution_steps
      = get_max_delay_time_ S m := by
    simp [get_max_delay_time_, List.foldl_map]
  rw [hfold] at h1 h2
  refine ⟨h1, ?_⟩
  intro dc hdc
  exact h2 _ (List.mem_map_of_mem (fun dc => dc.max_delay_) hdc)

/-- C21. On a single process (the sentinel `Time::pos_inf()` being at least one
resolution step), the window stored by `update_delay_extrema_` is the reduction
over the delay checkers of all threads (`min_delay_` is at most the minimum and
`max_delay_` at least the maximum of every checker), folded with the builder
window when no checker has user-set extrema: then `min_delay_ <=
builder_min_delay()` and `max_delay_ >= builder_max_delay()`. When some checker
has user-set extrema the stored window is the same for every builder window. -/
theorem update_delay_extrema_single (S : DelayServices) (all_min all_max : List delay)
    (m : ConnectionBuilderManager) (hp : S.num_processes ≤ 1)
    (hres : S.resolution_steps ≤ S.pos_inf_steps) :
    (∀ dc ∈ m.delay_checkers_,
      (update_delay_extrema_ S all_min all_max m).min_delay_ ≤ dc.min_delay_ ∧
      dc.max_delay_ ≤ (update_delay_extrema_ S all_min all_max m).max_delay_) ∧
    ((∀ dc ∈ m.delay_checkers_, dc.user_set_delay_extrema_ = false) →
      (update_delay_extrema_ S all_min all_max m).min_delay_ ≤ S.builder_min_delay ∧
      S.builder_max_delay ≤ (update_delay_extrema_ S all_min all_max m).max_delay_ ∧
      (update_delay_extrema_ S all_min all_max m).max_delay_
        = max (get_max_delay_time_ S m) S.builder_max_delay ∧
      (update_delay_extrema_ S all_min all_max m).min_delay_
        = (if min (get_min_delay_time_ S m) S.builder_min_delay = S.pos_inf_steps then
            S.resolution_steps
          else min (get_min_delay_time_ S m) S.builder_min_delay)) ∧
    ((∃ dc ∈ m.delay_checkers_, dc.user_set_delay_extrema_ = true) →
      ∀ builder_min_delay builder_max_delay : delay,
        update_delay_extrema_
            { S with builder_min_delay := builder_min_delay,
                     builder_max_delay := builder_max_delay } all_min all_max m
          = update_delay_extrema_ S all_min all_max m) := by
  have hnp : ¬ S.num_processes > 1 := by omega
  obtain ⟨a1, a2, -⟩ := get_min_delay_time__le S m
  obtain ⟨b1, b2⟩ := get_max_delay_time__ge S m
  have hmin : (update_delay_extrema_ S all_min all_max m).min_delay_
      = (if (local_delay_extrema S m).1 = S.pos_inf_steps then S.resolution_steps
        else (local_delay_extrema S m).1) := by
    simp only [update_delay_extrema_, reduce_delay_extrema, if_neg hnp]
  have hmax : (update_delay_extrema_ S all_min all_max m).max_delay_
      = (local_delay_extrema S m).2 := by
    simp only [update_delay_extrema_, reduce_delay_extrema, if_neg hnp]
  have hle : (update_delay_extrema_ S all_min all_max m).min_delay_
      ≤ (local_delay_extrema S m).1 := by
    rw [hmin]
    split
    · next heq =>
      rw [heq]
      exact hres
    · exact le_refl _
  refine ⟨?_, ?_, ?_⟩
  · intro dc hdc
    constructor
    · refine le_trans hle ?_
      simp only [local_delay_extrema]
      split
      · exact le_trans (min_le_left _ _) (a2 dc hdc)
      · exact a2 dc hdc
    · rw [hmax]
      simp only [local_delay_extrema]
      split
      · exact le_trans (b2 dc hdc) (le_max_left _ _)
      · exact b2 dc hdc
  · intro hno
    have hu : get_user_set_delay_extrema m = false := by
      cases hg : get_user_set_delay_extrema m with
      | false => rfl
      | true =>
        obtain ⟨dc, hdc, ht⟩ := (get_user_set_delay_extrema_iff m).mp hg
        rw [hno dc hdc] at ht
        cases ht
    have hloc : local_delay_extrema S m
        = (min (get_min_delay_time_ S m) S.builder_min_delay,
            max (get_max_delay_time_ S m) S.builder_max_delay) := by
      simp [local_delay_extrema, hu]
    refine ⟨?_, ?_, ?_, ?_⟩
    · refine le_trans hle ?_
      rw [hloc]
      exact min_le_right _ _
    · rw [hmax, hloc]
      exact le_max_right _ _
    · rw [hmax, hloc]
    · rw [hmin, hloc]
  · intro hsome bmin bmax
    have hu : get_user_set_delay_extrema m = true := (get_user_set_delay_extrema_iff m).mpr hsome
    simp [update_delay_extrema_, reduce_delay_extrema, local_delay_extrema, hu,
      get_min_delay_time_, get_max_delay_time_]

/-- C21 on the example network, single process with builder window [1, 1]:
without user-set extrema the stored window is [1, 50]; with user-set extrema
(the example state) the stored window is [1, 100] for the builder window
[1, 1] as for the builder window [500, 700]. -/
theorem update_delay_extrema_single_witness :
    (update_delay_extrema_ example_services [] [] example_state_unset).min_delay_
      ≤ example_services.builder_min_delay ∧
    (update_delay_extrema_ example_services [] [] example_state_unset).min_delay_ = 1 ∧
    (update_delay_extrema_ example_services [] [] example_state_unset).max_delay_ = 50 ∧
    update_delay_extrema_
        { example_services with builder_min_delay := 500, builder_max_delay := 700 } [] []
        example_state
      = update_delay_extrema_ example_services [] [] example_state :=
  ⟨((update_delay_extrema_single example_services [] [] example_state_unset (by decide)
      (by decide)).2.1 (by decide)).1,
    by rfl, by rfl,
    (update_delay_extrema_single example_services [] [] example_state (by decide)
      (by decide)).2.2 (by decide) 500 700⟩

/-! ## C22: the store is keyed by synapse type -/

theorem records_append (h1 h2 : HetConnector) (s : synindex) :
    HetConnector.records (h1 ++ h2) s
      = HetConnector.records h1 s ++ HetConnector.records h2 s := by
  induction h1 with
  | nil => rfl
  | cons vc rest ih =>
    have e1 : HetConnector.records (vc :: rest ++ h2) s
        = (if vc.syn_id = s then vc.C_ else []) ++ HetConnector.records (rest ++ h2) s := rfl
    have e2 : HetConnector.records (vc :: rest) s
        = (if vc.syn_id = s then vc.C_ else []) ++ HetConnector.records rest s := rfl
    rw [e1, e2, ih, List.append_assoc]

/-- In a store without two connectors of the same type, appending a record to
the connector of type `s` appends it to the records of type `s`. -/
theorem records_set_push (hetconn : HetConnector) (i : Nat) (conn : Connector)
    (c : Connection) (s : synindex) (h : hetconn[i]? = some conn)
    (hnd : (hetconn.map (fun vc => vc.syn_id)).Nodup) :
    HetConnector.records (hetconn.set i (conn.push_back c)) s
      = HetConnector.records hetconn s ++ (if conn.syn_id = s then [c] else []) := by
  induction hetconn generalizing i with
  | nil => simp at h
  | cons vc rest ih =>
    have hnd1 : (rest.map (fun vc => vc.syn_id)).Nodup := (List.nodup_cons.mp hnd).2
    have hnotin : vc.syn_id ∉ rest.map (fun vc => vc.syn_id) := (List.nodup_cons.mp hnd).1
    cases i with
    | zero =>
      simp at h
      subst h
      simp only [List.set_cons_zero, HetConnector.records, Connector.push_back]
      split
      · next heq =>
        have hrest : HetConnector.records rest s = [] := by
          have : ∀ r : HetConnector, (∀ x ∈ r, x.syn_id ≠ s) → HetConnector.records r s = [] := by
            intro r
            induction r with
            | nil => intro _; rfl
            | cons y ys ihy =>
              intro hall
              have hy : y.syn_id ≠ s := hall y (List.mem_cons_self y ys)
              simp only [HetConnector.records, if_neg hy, List.nil_append]
              exact ihy (fun x hx => hall x (List.mem_cons_of_mem y hx))
          apply this
          intro x hx hxs
          apply hnotin
          rw [heq, ← hxs]
          exact List.mem_map_of_mem (fun vc => vc.syn_id) hx
        rw [hrest]
        simp
      · simp
    | succ k =>
      have hk : rest[k]? = some conn := by simpa using h
      have := ih k hk hnd1
      simp only [List.set_cons_succ, HetConnector.records, this, List.append_assoc]

theorem map_syn_id_set_push (hetconn : HetConnector) (i : Nat) (conn : Connector)
    (c : Connection) (h : hetconn[i]? = some conn) :
    (hetconn.set i (conn.push_back c)).map (fun vc => vc.syn_id)
      = hetconn.map (fun vc => vc.syn_id) := by
  induction hetconn generalizing i with
  | nil => simp at h
  | cons vc rest ih =>
    cases i with
    | zero =>
      simp at h
      subst h
      rfl
    | succ k =>
      have hk : rest[k]? = some conn := by simpa using h
      simp only [List.set_cons_succ, List.map_cons, ih k hk]

/-- C22. `add_connection_5g_` keeps the store keyed by synapse type. When
`check_connection` accepts the pair the call succeeds, and: if the store has no
connector of type `syn_id` it gains exactly one connector, at the end, holding
exactly the new record; otherwise the number of connectors is unchanged and the
record is appended as the last element of the connector of type `syn_id`. In
both cases every other connector is unchanged, and in a store without two
connectors of the same type the records of every type keep their order, the
new record coming last among those of type `syn_id`, and the new store again
has no two connectors of the same type (the empty store has none). When
`check_connection` rejects the pair the call throws `IllegalConnection` and no
store is produced: the rejection comes before the store is resized. -/
theorem add_connection_5g__keyed (K : Kernel) (src tgt : Node) (hetconn : HetConnector)
    (syn_id : synindex) (c : Connection) (receptor_type : rport) :
    (K.check_connection c src tgt receptor_type = true →
      ∃ hetconn1, add_connection_5g_ K src tgt hetconn syn_id c receptor_type = .ok hetconn1 ∧
        ((find_synapse_index hetconn syn_id = none ∧
            (∀ vc ∈ hetconn, vc.syn_id ≠ syn_id) ∧
            hetconn1 = hetconn ++
              [⟨syn_id, [{ c with target := tgt.get_gid, receptor := receptor_type }]⟩]) ∨
          (∃ i conn, find_synapse_index hetconn syn_id = some i ∧
            hetconn[i]? = some conn ∧ conn.syn_id = syn_id ∧
            hetconn1.length = hetconn.length ∧
            hetconn1[i]? = some ⟨syn_id,
              conn.C_ ++ [{ c with target := tgt.get_gid, receptor := receptor_type }]⟩ ∧
            ∀ j, j ≠ i → hetconn1[j]? = hetconn[j]?)) ∧
        ((hetconn.map (fun vc => vc.syn_id)).Nodup →
          (hetconn1.map (fun vc => vc.syn_id)).Nodup ∧
          ∀ s, HetConnector.records hetconn1 s
            = HetConnector.records hetconn s ++
              (if syn_id = s then
                [{ c with target := tgt.get_gid, receptor := receptor_type }]
              else []))) ∧
    (K.check_connection c src tgt receptor_type = false →
      add_connection_5g_ K src tgt hetconn syn_id c receptor_type
        = .error .IllegalConnection) ∧
    (([] : HetConnector).map (fun vc => vc.syn_id)).Nodup := by
  refine ⟨?_, ?_, List.nodup_nil⟩
  · intro hcheck
    cases hf : find_synapse_index hetconn syn_id with
    | none =>
      have hok : add_connection_5g_ K src tgt hetconn syn_id c receptor_type
          = .ok (hetconn ++
            [⟨syn_id, [{ c with target := tgt.get_gid, receptor := receptor_type }]⟩]) := by
        unfold add_connection_5g_
        rw [hf]
        simp only [hcheck, if_true]
        rw [vresize_succ_set]
        rfl
      have hne := find_synapse_index_none hetconn syn_id hf
      refine ⟨_, hok, Or.inl ⟨rfl, hne, rfl⟩, ?_⟩
      intro hnd
      constructor
      · rw [List.map_append, List.nodup_append]
        refine ⟨hnd, by simp, ?_⟩
        intro a ha hb
        simp only [List.map_cons, List.map_nil, List.mem_singleton] at hb
        obtain ⟨vc, hvc, heq⟩ := List.mem_map.mp ha
        exact hne vc hvc (heq.trans hb)
      · intro s
        rw [records_append]
        simp only [HetConnector.records, List.append_nil]
    | some i =>
      obtain ⟨conn, hc, hs⟩ := find_synapse_index_some hetconn syn_id i hf
      have hlt := lt_length_of_getElem? _ _ _ hc
      have hok : add_connection_5g_ K src tgt hetconn syn_id c receptor_type
          = .ok (hetconn.set i
            (conn.push_back { c with target := tgt.get_gid, receptor := receptor_type })) := by
        unfold add_connection_5g_
        rw [hf]
        simp only [hc, hcheck, if_true]
      refine ⟨_, hok, Or.inr ⟨i, conn, rfl, hc, hs, ?_, ?_, ?_⟩, ?_⟩
      · simp
      · rw [List.getElem?_set_self hlt]
        simp only [Connector.push_back, hs]
      · intro j hj
        rw [List.getElem?_set_ne (fun e => hj e.symm)]
      · intro hnd
        constructor
        · rw [map_syn_id_set_push hetconn i conn _ hc]
          exact hnd
        · intro s
          rw [records_set_push hetconn i conn _ s hc hnd, hs]
  · intro hcheck
    unfold add_connection_5g_
    cases hf : find_synapse_index hetconn syn_id with
    | none => simp [hcheck]
    | some i =>
      obtain ⟨conn, hc, -⟩ := find_synapse_index_some hetconn syn_id i hf
      simp [hc, hcheck]

/-- C22 on the example network: a record of type 0 is added to a store that
holds one connector of type 1; the pair is accepted and the store gains the
connector of type 0 at the end; a second record of type 1 would be appended to
the existing connector. -/
theorem add_connection_5g__keyed_witness :
    (example_kernel 0).check_connection example_prototype.default_connection_
      (example_node 1 0) (example_node 4 0) 0 = true ∧
    add_connection_5g_ (example_kernel 0) (example_node 1 0) (example_node 4 0)
        [⟨1, [example_prototype.default_connection_]⟩] 0
        example_prototype.default_connection_ 0
      = .ok [⟨1, [example_prototype.default_connection_]⟩,
          ⟨0, [⟨4, 0, 0, .val 10, .val 10⟩]⟩] ∧
    (∃ hetconn1, add_connection_5g_ (example_kernel 0) (example_node 1 0) (example_node 4 0)
        [⟨1, [example_prototype.default_connection_]⟩] 1
        example_prototype.default_connection_ 0 = .ok hetconn1 ∧
      hetconn1.length = 1) :=
  ⟨by rfl, by rfl,
    match (add_connection_5g__keyed (example_kernel 0) (example_node 1 0) (example_node 4 0)
      [⟨1, [example_prototype.default_connection_]⟩] 1
      example_prototype.default_connection_ 0).1 (by rfl) with
    | ⟨hetconn1, h1, Or.inl h2, _⟩ => absurd h2.1 (by decide)
    | ⟨hetconn1, h1, Or.inr ⟨_, _, _, _, _, h3, _, _⟩, _⟩ => ⟨hetconn1, h1, h3⟩⟩

/-! ## C23: the value returned by the `bool` overload of `connect` -/

theorem returns_true_ne_false (r : Result Unit) : (returns_true r).result ≠ .ok false := by
  simp only [returns_true]
  cases r.result with
  | error e => simp [Except.map]
  | ok u => simp [Except.map]

/-- C23, divergence. Whenever `connect( sgid, tgid, params, syn )` returns false
the state is as it was. But on the example network, called on thread 0 for the
two devices 12 and 13 (the connection is assigned to thread 1, the thread
suggested for the target), it creates no connection, leaves the state as it
was, and returns true; the same call on thread 1 creates the connection and
returns true as well. The call for the source 3, a proxy on thread 0, and the
device 12 creates no connection either and returns false. -/
theorem connect_gid_true_without_connection :
    (∀ (K : Kernel) (m : ConnectionBuilderManager) (sgid tgid : index) (params : Dictionary)
        (syn : index),
      (connect_gid K m sgid tgid params syn).result = .ok false →
      (connect_gid K m sgid tgid params syn).state = m) ∧
    (connect_gid (example_kernel 0) example_state 12 13 [] 0).result = .ok true ∧
    (connect_gid (example_kernel 0) example_state 12 13 [] 0).state = example_state ∧
    get_num_connections (connect_gid (example_kernel 0) example_state 12 13 [] 0).state = 0 ∧
    (connect_gid (example_kernel 1) example_state 12 13 [] 0).result = .ok true ∧
    get_num_connections (connect_gid (example_kernel 1) example_state 12 13 [] 0).state = 1 ∧
    (connect_gid (example_kernel 0) example_state 3 12 [] 0).result = .ok false ∧
    (connect_gid (example_kernel 0) example_state 3 12 [] 0).state = example_state := by
  refine ⟨?_, by rfl, by rfl, by decide, by rfl, by decide, by rfl, by rfl⟩
  intro K m sgid tgid params syn h
  simp only [connect_gid] at h ⊢
  split
  · rfl
  · rw [if_neg (by assumption)] at h
    split at h
    · exact absurd h (returns_true_ne_false _)
    · split at h
      · simp only [*, if_true]
      · split at h
        · exact absurd h (returns_true_ne_false _)
        · exact absurd h (returns_true_ne_false _)
    · exact absurd h (returns_true_ne_false _)
    · split at h
      · exact absurd h (returns_true_ne_false _)
      · cases h
    · split at h
      · simp only [*, if_true]
      · exact absurd h (returns_true_ne_false _)
    · cases h

/-! ## C24: the default delay is validated once -/

theorem used_default_delay_unchecked (K : Kernel) (cm : GenericConnectorModel)
    (dc : DelayChecker) (h : cm.default_delay_needs_check_ = false) :
    used_default_delay K cm dc = ⟨cm, dc, .ok ()⟩ := by
  simp [used_default_delay, h]

/-- C24, counterexample. The example prototype has had its default delay
validated (the flag `default_delay_needs_check_` is false). A `set_status` whose
dictionary is rejected, by the common properties or by the default connection,
throws and leaves the flag false. -/
theorem set_status_flag_counterexample :
    (GenericConnectorModel.set_status (example_kernel 0) (fun _ => false)
      example_prototype_checked ⟨1, 100, true, false⟩ []).result = .error .BadProperty ∧
    (GenericConnectorModel.set_status (example_kernel 0) (fun _ => false)
      example_prototype_checked ⟨1, 100, true, false⟩ []).model.default_delay_needs_check_
      = false ∧
    (GenericConnectorModel.set_status (example_kernel_strict 0) (fun _ => true)
      example_prototype_checked ⟨1, 100, true, false⟩
      [("weight", .double (.val 5))]).result = .error .BadProperty ∧
    (GenericConnectorModel.set_status (example_kernel_strict 0) (fun _ => true)
      example_prototype_checked ⟨1, 100, true, false⟩
      [("weight", .double (.val 5))]).model.default_delay_needs_check_ = false := by
  refine ⟨by rfl, by rfl, by rfl, by rfl⟩

/-- C24, amended. The default delay of a synapse model is validated at most
once between two `set_status` calls: after a `used_default_delay()` call that
does not raise, `default_delay_needs_check_` is false and further
`used_default_delay()` calls do not consult the delay checker (for every
checker, and whatever `assert_valid_delay_ms` would answer, they succeed and
leave the model and the checker as they are); a call in which the checker
rejects the delay raises `BadDelay` and leaves the flag true; a `set_status`
call that does not raise sets the flag to true again (a `set_status` call that
raises leaves the flag as it was). -/
theorem default_delay_checked_once (K : Kernel) (cp_set_status : Dictionary → Bool)
    (cm : GenericConnectorModel) (dc : DelayChecker) (d : Dictionary) :
    ((used_default_delay K cm dc).result = .ok () →
      (used_default_delay K cm dc).model.default_delay_needs_check_ = false ∧
      ∀ (K2 : Kernel) (dc2 : DelayChecker),
        (used_default_delay K2 (used_default_delay K cm dc).model dc2).result = .ok () ∧
        (used_default_delay K2 (used_default_delay K cm dc).model dc2).model
          = (used_default_delay K cm dc).model ∧
        (used_default_delay K2 (used_default_delay K cm dc).model dc2).checker = dc2) ∧
    (cm.default_delay_needs_check_ = true →
      K.assert_valid_delay_ms dc
        (if cm.has_delay_ then cm.default_connection_.delay else K.wfr_comm_interval) = none →
      (used_default_delay K cm dc).result = .error .BadDelay ∧
      (used_default_delay K cm dc).model = cm ∧
      (used_default_delay K cm dc).model.default_delay_needs_check_ = true) ∧
    ((used_default_delay K cm dc).result ≠ .ok () →
      (used_default_delay K cm dc).result = .error .BadDelay ∧
      (used_default_delay K cm dc).model.default_delay_needs_check_ = true) ∧
    ((GenericConnectorModel.set_status K cp_set_status cm dc d).result = .ok () →
      (GenericConnectorModel.set_status K cp_set_status cm dc d).model.default_delay_needs_check_
        = true) ∧
    ((GenericConnectorModel.set_status K cp_set_status cm dc d).result ≠ .ok () →
      (GenericConnectorModel.set_status K cp_set_status cm dc d).model.default_delay_needs_check_
        = cm.default_delay_needs_check_) := by
  refine ⟨?_, ?_, ?_, ?_, ?_⟩
  · intro h
    have hflag : (used_default_delay K cm dc).model.default_delay_needs_check_ = false := by
      simp only [used_default_delay] at h ⊢
      split
      · next hneeds =>
        rw [if_pos hneeds] at h
        split
        · next hnone =>
          rw [hnone] at h
          cases h
        · rfl
      · next hneeds =>
        simpa using hneeds
    refine ⟨hflag, ?_⟩
    intro K2 dc2
    rw [used_default_delay_unchecked K2 _ dc2 hflag]
    exact ⟨rfl, rfl, rfl⟩
  · intro hneeds hrej
    simp [used_default_delay, hneeds, hrej]
  · intro h
    simp only [used_default_delay] at h ⊢
    split
    · next hneeds =>
      rw [if_pos hneeds] at h
      split
      · exact ⟨rfl, hneeds⟩
      · next dc1 hsome =>
        rw [hsome] at h
        exact absurd rfl h
    · next hneeds =>
      rw [if_neg hneeds] at h
      exact absurd rfl h
  · intro h
    simp only [GenericConnectorModel.set_status] at h ⊢
    split
    · next e he =>
      rw [he] at h
      cases h
    · next r hr =>
      rw [hr] at h
      simp only at h ⊢
      split
      · next hcp =>
        rw [if_pos hcp] at h
        split
        · next hnone =>
          rw [hnone] at h
          cases h
        · rfl
      · next hcp =>
        rw [if_neg hcp] at h
        cases h
  · intro h
    simp only [GenericConnectorModel.set_status] at h ⊢
    split
    · rfl
    · next r hr =>
      rw [hr] at h
      simp only at h ⊢
      split
      · next hcp =>
        rw [if_pos hcp] at h
        split
        · rfl
        · next c hsome =>
          rw [hsome] at h
          exact absurd rfl h
      · rfl

/-- The amended C24 on the example network: the first `used_default_delay()` of
the example prototype validates the default delay of 1.0 ms and clears the flag;
a second call succeeds even with a checker whose window [2.0, 10.0] ms excludes
that delay; after a successful `set_status` the flag is set and the same
checker rejects the delay. -/
theorem default_delay_checked_once_witness :
    (used_default_delay (example_kernel 0) example_prototype ⟨1, 100, true, false⟩).result
      = .ok () ∧
    (used_default_delay (example_kernel 0)
      (used_default_delay (example_kernel 0) example_prototype ⟨1, 100, true, false⟩).model
      ⟨20, 100, true, false⟩).result = .ok () ∧
    (GenericConnectorModel.set_status (example_kernel 0) (fun _ => true)
      example_prototype_checked ⟨20, 100, true, false⟩ []).result = .ok () ∧
    (GenericConnectorModel.set_status (example_kernel 0) (fun _ => true)
      example_prototype_checked ⟨20, 100, true, false⟩ []).model.default_delay_needs_check_
      = true ∧
    (used_default_delay (example_kernel 0)
      (GenericConnectorModel.set_status (example_kernel 0) (fun _ => true)
        example_prototype_checked ⟨20, 100, true, false⟩ []).model
      ⟨20, 100, true, false⟩).result = .error .BadDelay :=
  ⟨by rfl,
    (((default_delay_checked_once (example_kernel 0) (fun _ => true) example_prototype
      ⟨1, 100, true, false⟩ []).1 (by rfl)).2 (example_kernel 0) ⟨20, 100, true, false⟩).1,
    by rfl,
    (default_delay_checked_once (example_kernel 0) (fun _ => true) example_prototype_checked
      ⟨20, 100, true, false⟩ []).2.2.2.1 (by rfl),
    by rfl⟩

/-! ## C29: the delay checker after `set_status` -/

/-- C29, divergence. A `set_status` call that returns normally leaves the
delay checker unfrozen. A call that fails after the receptor type has been
read (the common properties or the default connection reject the dictionary)
leaves the checker frozen: nothing calls `enable_delay_update()` on that exit.
On the example network the checker of window [1.0, 10.0] ms is unfrozen before
the call, the call with a `weight` entry the default connection rejects throws
`BadProperty`, the checker is frozen afterwards, and it then accepts the delay
of 500.0 ms, which it rejected before the call. -/
theorem set_status_leaves_checker_frozen :
    (∀ (K : Kernel) (cp_set_status : Dictionary → Bool) (cm : GenericConnectorModel)
        (dc : DelayChecker) (d : Dictionary),
      ((GenericConnectorModel.set_status K cp_set_status cm dc d).result = .ok () →
        (GenericConnectorModel.set_status K cp_set_status cm dc d).checker.freeze_delay_update_
          = false) ∧
      (∀ r e, updateValue_long d "receptor_type" = .ok r →
        (GenericConnectorModel.set_status K cp_set_status cm dc d).result = .error e →
        (GenericConnectorModel.set_status K cp_set_status cm dc d).checker.freeze_delay_update_
          = true)) ∧
    (GenericConnectorModel.set_status (example_kernel_strict 0) (fun _ => true)
      example_prototype ⟨1, 100, true, false⟩ [("weight", .double (.val 5))]).result
      = .error .BadProperty ∧
    (GenericConnectorModel.set_status (example_kernel_strict 0) (fun _ => true)
      example_prototype ⟨1, 100, true, false⟩ [("weight", .double (.val 5))]).checker
      = ⟨1, 100, true, true⟩ ∧
    (GenericConnectorModel.set_status (example_kernel 0) (fun _ => false)
      example_prototype ⟨1, 100, true, false⟩ []).checker = ⟨1, 100, true, true⟩ ∧
    (example_kernel 0).assert_valid_delay_ms ⟨1, 100, true, false⟩ (.val 5000) = none ∧
    (example_kernel 0).assert_valid_delay_ms
      (GenericConnectorModel.set_status (example_kernel_strict 0) (fun _ => true)
        example_prototype ⟨1, 100, true, false⟩ [("weight", .double (.val 5))]).checker
      (.val 5000) = some ⟨1, 100, true, true⟩ := by
  refine ⟨?_, by rfl, by rfl, by rfl, by rfl, by rfl⟩
  intro K cp_set_status cm dc d
  constructor
  · intro h
    simp only [GenericConnectorModel.set_status] at h ⊢
    split
    · next e he =>
      rw [he] at h
      cases h
    · next r hr =>
      rw [hr] at h
      simp only at h ⊢
      split
      · next hcp =>
        rw [if_pos hcp] at h
        split
        · next hnone =>
          rw [hnone] at h
          cases h
        · rfl
      · next hcp =>
        rw [if_neg hcp] at h
        cases h
  · intro r e hr h
    simp only [GenericConnectorModel.set_status, hr] at h ⊢
    split
    · next hcp =>
      rw [if_pos hcp] at h
      split
      · rfl
      · next c hsome =>
        rw [hsome] at h
        cases h
    · rfl

/-! ## C25 and C26: the dictionary overload of `add_connection_5g` -/

/-- C25. `add_connection_5g` with a parameter dictionary: when the delay argument
is given explicitly (not NaN, and accepted by the delay checker) and the
dictionary also contains a delay entry, the call fails with `BadParameter`, and
`connect_` with these arguments fails with `BadParameter` and leaves the stores,
the tables and the counters as they were. When the delay argument is NaN and
the dictionary contains a delay entry, that entry is the delay handed to the
delay checker (`BadDelay` when it is rejected) and `used_default_delay()` is not
called. When neither is given the default delay is checked through
`used_default_delay()`: its failure is the failure of the call, and after its
success the record is built. -/
theorem add_connection_5g_dict_delay (K : Kernel) (cm : GenericConnectorModel)
    (dc : DelayChecker) (src tgt : Node) (hetconn : HetConnector) (syn_id : synindex)
    (p : Dictionary) (weight : double_t) :
    (∀ delay dc1, is_nan delay = false → K.assert_valid_delay_ms dc delay = some dc1 →
      Dictionary.known p "delay" = true →
      (add_connection_5g_dict K cm dc src tgt hetconn syn_id p delay weight).result
        = .error .BadParameter ∧
      (add_connection_5g_dict K cm dc src tgt hetconn syn_id p delay weight).model = cm ∧
      ∀ (m : ConnectionBuilderManager) (s_gid : index) (tid : thread),
        get_synapse_prototype m syn_id tid = .ok cm →
        m.delay_checkers_[K.thread_id]? = some dc →
        m.connections_5g_[tid]? = some hetconn →
        (connect_dict_ K m src tgt s_gid tid syn_id p delay weight).result
          = .error .BadParameter ∧
        (connect_dict_ K m src tgt s_gid tid syn_id p delay weight).state.connections_5g_
          = m.connections_5g_ ∧
        (connect_dict_ K m src tgt s_gid tid syn_id p delay weight).state.source_table_
          = m.source_table_ ∧
        (connect_dict_ K m src tgt s_gid tid syn_id p delay weight).state.target_table_devices_
          = m.target_table_devices_ ∧
        (connect_dict_ K m src tgt s_gid tid syn_id p delay weight).state.vv_num_connections_
          = m.vv_num_connections_) ∧
    (∀ delay1, Dictionary.lookup p "delay" = some (.double delay1) →
      (K.assert_valid_delay_ms dc delay1 = none →
        (add_connection_5g_dict K cm dc src tgt hetconn syn_id p .nan weight).result
          = .error .BadDelay ∧
        (add_connection_5g_dict K cm dc src tgt hetconn syn_id p .nan weight).model = cm) ∧
      (∀ dc1, K.assert_valid_delay_ms dc delay1 = some dc1 →
        (add_connection_5g_dict K cm dc src tgt hetconn syn_id p .nan weight).model = cm ∧
        (add_connection_5g_dict K cm dc src tgt hetconn syn_id p .nan weight).checker = dc1 ∧
        (add_connection_5g_dict K cm dc src tgt hetconn syn_id p .nan weight).result
          = add_connection_5g_dict_tail K cm src tgt hetconn syn_id p .nan weight)) ∧
    (Dictionary.lookup p "delay" = none →
      (add_connection_5g_dict K cm dc src tgt hetconn syn_id p .nan weight).model
        = (used_default_delay K cm dc).model ∧
      (add_connection_5g_dict K cm dc src tgt hetconn syn_id p .nan weight).checker
        = (used_default_delay K cm dc).checker ∧
      (∀ e, (used_default_delay K cm dc).result = .error e →
        (add_connection_5g_dict K cm dc src tgt hetconn syn_id p .nan weight).result
          = .error e) ∧
      ((used_default_delay K cm dc).result = .ok () →
        (add_connection_5g_dict K cm dc src tgt hetconn syn_id p .nan weight).result
          = add_connection_5g_dict_tail K (used_default_delay K cm dc).model src tgt hetconn
              syn_id p .nan weight)) := by
  refine ⟨?_, ?_, ?_⟩
  · intro delay dc1 hd hacc hknown
    have hres : (add_connection_5g_dict K cm dc src tgt hetconn syn_id p delay weight).result
        = .error .BadParameter := by
      simp [add_connection_5g_dict, hd, hacc, hknown]
    refine ⟨hres, ?_, ?_⟩
    · simp [add_connection_5g_dict, hd, hacc, hknown]
    · intro m s_gid tid hp hdc hh
      obtain ⟨h1, h2⟩ := connect_with_add_error K m s_gid tid syn_id
        (fun cm dc h => add_connection_5g_dict K cm dc src tgt h syn_id p delay weight)
        cm dc hetconn _ hp hdc hh hres
      refine ⟨h1, ?_, ?_, ?_, ?_⟩
      · show (connect_with K m s_gid tid syn_id _).state.connections_5g_ = _
        rw [h2]
        rfl
      · show (connect_with K m s_gid tid syn_id _).state.source_table_ = _
        rw [h2]
        rfl
      · show (connect_with K m s_gid tid syn_id _).state.target_table_devices_ = _
        rw [h2]
        rfl
      · show (connect_with K m s_gid tid syn_id _).state.vv_num_connections_ = _
        rw [h2]
        rfl
  · intro delay1 hlook
    have hup : updateValue_double p "delay" = .ok (some delay1) := by
      simp [updateValue_double, hlook]
    constructor
    · intro hrej
      simp [add_connection_5g_dict, is_nan, hup, hrej]
    · intro dc1 hacc
      simp [add_connection_5g_dict, is_nan, hup, hacc]
  · intro hlook
    have hup : updateValue_double p "delay" = .ok none := by
      simp [updateValue_double, hlook]
    refine ⟨?_, ?_, ?_, ?_⟩
    · cases hu : (used_default_delay K cm dc).result with
      | error e => simp [add_connection_5g_dict, is_nan, hup, hu]
      | ok u => simp [add_connection_5g_dict, is_nan, hup, hu]
    · cases hu : (used_default_delay K cm dc).result with
      | error e => simp [add_connection_5g_dict, is_nan, hup, hu]
      | ok u => simp [add_connection_5g_dict, is_nan, hup, hu]
    · intro e he
      simp [add_connection_5g_dict, is_nan, hup, he]
    · intro hok
      simp [add_connection_5g_dict, is_nan, hup, hok]

/-- C25 on the example network: with the explicit delay 5.0 ms and a dictionary
holding a delay entry, `connect_` fails with `BadParameter` and no record is
added. -/
theorem add_connection_5g_dict_delay_witness :
    (connect_dict_ (example_kernel 1) example_state (example_node 1 1) (example_node 3 1) 1 1 0
      [("delay", .double (.val 30))] (.val 50) .nan).result = .error .BadParameter ∧
    (connect_dict_ (example_kernel 1) example_state (example_node 1 1) (example_node 3 1) 1 1 0
      [("delay", .double (.val 30))] (.val 50) .nan).state.connections_5g_
      = example_state.connections_5g_ :=
  ⟨((add_connection_5g_dict_delay (example_kernel 1) example_prototype ⟨1, 100, true, false⟩
      (example_node 1 1) (example_node 3 1) [] 0 [("delay", .double (.val 30))] .nan).1
      (.val 50) ⟨1, 100, true, false⟩ (by rfl) (by rfl) (by rfl)).2.2 example_state 1 1
      (by rfl) (by rfl) (by rfl) |>.1,
    ((add_connection_5g_dict_delay (example_kernel 1) example_prototype ⟨1, 100, true, false⟩
      (example_node 1 1) (example_node 3 1) [] 0 [("delay", .double (.val 30))] .nan).1
      (.val 50) ⟨1, 100, true, false⟩ (by rfl) (by rfl) (by rfl)).2.2 example_state 1 1
      (by rfl) (by rfl) (by rfl) |>.2.1⟩

theorem add_connection_5g__ok_form (K : Kernel) (src tgt : Node)
    (hetconn hetconn1 : HetConnector) (syn_id : synindex) (c : Connection)
    (receptor_type : rport)
    (h : add_connection_5g_ K src tgt hetconn syn_id c receptor_type = .ok hetconn1) :
    K.check_connection c src tgt receptor_type = true ∧
    (hetconn1 = hetconn ++
        [⟨syn_id, [{ c with target := tgt.get_gid, receptor := receptor_type }]⟩] ∨
      ∃ i conn, hetconn[i]? = some conn ∧ conn.syn_id = syn_id ∧
        hetconn1 = hetconn.set i
          (conn.push_back { c with target := tgt.get_gid, receptor := receptor_type })) := by
  have hcheck : K.check_connection c src tgt receptor_type = true := by
    cases hc : K.check_connection c src tgt receptor_type with
    | true => rfl
    | false =>
      exfalso
      unfold add_connection_5g_ at h
      split at h
      · simp [hc] at h
      · split at h
        · cases h
        · simp [hc] at h
  refine ⟨hcheck, ?_⟩
  cases hf : find_synapse_index hetconn syn_id with
  | none =>
    exact Or.inl (add_connection_5g__new K src tgt hetconn hetconn1 syn_id c receptor_type hf h)
  | some i =>
    obtain ⟨conn, h1, h2, h3⟩ :=
      add_connection_5g__old K src tgt hetconn hetconn1 syn_id c receptor_type i hf h
    exact Or.inr ⟨i, conn, h1, h2, h3⟩

theorem add_connection_5g_dict_tail_ok_form (K : Kernel) (cm : GenericConnectorModel)
    (src tgt : Node) (hetconn hetconn1 : HetConnector) (syn_id : synindex) (p : Dictionary)
    (delay weight : double_t)
    (h : add_connection_5g_dict_tail K cm src tgt hetconn syn_id p delay weight
      = .ok hetconn1) :
    ∃ r c, updateValue_long p "receptor_type" = .ok r ∧
      add_connection_5g_ K src tgt hetconn syn_id c (r.getD cm.receptor_type_)
        = .ok hetconn1 := by
  simp only [add_connection_5g_dict_tail] at h
  split at h
  · cases h
  · split at h
    · cases h
    · next r hr => exact ⟨r, _, hr, h⟩

/-- C26. `add_connection_5g` with a parameter dictionary never changes the
default receptor type of the model: `receptor_type_` after the call is
`receptor_type_` before it, for every dictionary and every outcome. When the
call succeeds, the record was checked by `check_connection`, and stored, with
the `receptor_type` entry of the dictionary when there is one and with the
default receptor type otherwise. -/
theorem add_connection_5g_dict_receptor (K : Kernel) (cm : GenericConnectorModel)
    (dc : DelayChecker) (src tgt : Node) (hetconn : HetConnector) (syn_id : synindex)
    (p : Dictionary) (delay weight : double_t) :
    (add_connection_5g_dict K cm dc src tgt hetconn syn_id p delay weight).model.receptor_type_
      = cm.receptor_type_ ∧
    (∀ hetconn1,
      (add_connection_5g_dict K cm dc src tgt hetconn syn_id p delay weight).result
        = .ok hetconn1 →
      ∃ (actual_receptor_type : rport) (c : Connection),
        ((∃ n, Dictionary.lookup p "receptor_type" = some (.long n) ∧ actual_receptor_type = n) ∨
          (Dictionary.lookup p "receptor_type" = none ∧
            actual_receptor_type = cm.receptor_type_)) ∧
        K.check_connection c src tgt actual_receptor_type = true ∧
        (hetconn1 = hetconn ++
            [⟨syn_id, [{ c with target := tgt.get_gid, receptor := actual_receptor_type }]⟩] ∨
          ∃ i conn, hetconn[i]? = some conn ∧ conn.syn_id = syn_id ∧
            hetconn1 = hetconn.set i
              (conn.push_back
                { c with target := tgt.get_gid, receptor := actual_receptor_type }))) := by
  have hmodel : (add_connection_5g_dict K cm dc src tgt hetconn syn_id p delay weight).model
      = cm ∨
      (add_connection_5g_dict K cm dc src tgt hetconn syn_id p delay weight).model
        = (used_default_delay K cm dc).model := by
    simp only [add_connection_5g_dict]
    repeat' split
    all_goals first
      | exact Or.inl rfl
      | exact Or.inr rfl
  have hrec : (add_connection_5g_dict K cm dc src tgt hetconn syn_id p delay weight).model.receptor_type_
      = cm.receptor_type_ := by
    rcases hmodel with h | h
    · rw [h]
    · rw [h, used_default_delay_receptor]
  refine ⟨hrec, ?_⟩
  intro hetconn1 h
  have htail : ∃ cm1 d1, cm1.receptor_type_ = cm.receptor_type_ ∧
      add_connection_5g_dict_tail K cm1 src tgt hetconn syn_id p d1 weight = .ok hetconn1 := by
    simp only [add_connection_5g_dict] at h
    split at h
    · split at h
      · cases h
      · split at h
        · cases h
        · exact ⟨cm, _, rfl, h⟩
    · split at h
      · cases h
      · split at h
        · cases h
        · exact ⟨cm, _, rfl, h⟩
      · split at h
        · cases h
        · exact ⟨_, _, used_default_delay_receptor K cm dc, h⟩
  obtain ⟨cm1, d1, hcm1, ht⟩ := htail
  obtain ⟨r, c, hr, hadd⟩ :=
    add_connection_5g_dict_tail_ok_form K cm1 src tgt hetconn hetconn1 syn_id p d1 weight ht
  rw [hcm1] at hadd
  obtain ⟨hcheck, hform⟩ := add_connection_5g__ok_form K src tgt hetconn hetconn1 syn_id c _ hadd
  refine ⟨r.getD cm.receptor_type_, c, ?_, hcheck, hform⟩
  simp only [updateValue_long] at hr
  split at hr
  · next hnone =>
    cases hr
    exact Or.inr ⟨hnone, rfl⟩
  · next n hsome =>
    cases hr
    exact Or.inl ⟨n, hsome, rfl⟩
  · cases hr

/-- C26 on the example network, where `check_connection` accepts receptor type
0 only: with the dictionary entry `receptor_type = 0` the record is created and
the default receptor type of the model is as before. -/
theorem add_connection_5g_dict_receptor_witness :
    (add_connection_5g_dict (example_kernel 0) example_prototype ⟨1, 100, true, false⟩
      (example_node 1 0) (example_node 4 0) [] 0 [("receptor_type", .long 0)] .nan
      .nan).model.receptor_type_ = 0 ∧
    (add_connection_5g_dict (example_kernel 0) example_prototype ⟨1, 100, true, false⟩
      (example_node 1 0) (example_node 4 0) [] 0 [("receptor_type", .long 0)] .nan .nan).result
      = .ok [⟨0, [⟨4, 0, 0, .val 10, .val 10⟩]⟩] ∧
    (add_connection_5g_dict (example_kernel 0) example_prototype ⟨1, 100, true, false⟩
      (example_node 1 0) (example_node 4 0) [] 0 [("receptor_type", .long 7)] .nan .nan).result
      = .error .IllegalConnection ∧
    (add_connection_5g_dict (example_kernel 0) example_prototype ⟨1, 100, true, false⟩
      (example_node 1 0) (example_node 4 0) [] 0 [("receptor_type", .long 7)] .nan
      .nan).model.receptor_type_ = 0 :=
  ⟨(add_connection_5g_dict_receptor (example_kernel 0) example_prototype ⟨1, 100, true, false⟩
      (example_node 1 0) (example_node 4 0) [] 0 [("receptor_type", .long 0)] .nan .nan).1,
    by rfl, by rfl, by rfl⟩

/-! ## C28: the stored window is well formed -/

/-- The window a process holds just before the collective step: its minimum is
the sentinel or is at most its maximum, and its maximum is at least one
resolution step. -/
theorem local_delay_extrema_ok (S : DelayServices) (m : ConnectionBuilderManager)
    (hdc : ∀ dc ∈ m.delay_checkers_,
      dc.min_delay_ = S.pos_inf_steps ∨ dc.min_delay_ ≤ dc.max_delay_)
    (hb : S.builder_min_delay ≤ S.builder_max_delay) :
    ((local_delay_extrema S m).1 = S.pos_inf_steps ∨
      (local_delay_extrema S m).1 ≤ (local_delay_extrema S m).2) ∧
    S.resolution_steps ≤ (local_delay_extrema S m).2 := by
  obtain ⟨a1, a2, a3⟩ := get_min_delay_time__le S m
  obtain ⟨b1, b2⟩ := get_max_delay_time__ge S m
  have hfold : get_min_delay_time_ S m = S.pos_inf_steps ∨
      get_min_delay_time_ S m ≤ get_max_delay_time_ S m := by
    rcases a3 with a3 | ⟨dc, hmem, heq⟩
    · exact Or.inl a3
    · rcases hdc dc hmem with h | h
      · left
        rw [heq, h]
      · right
        rw [heq]
        exact le_trans h (b2 dc hmem)
  simp only [local_delay_extrema]
  split
  · constructor
    · rcases min_choice (get_min_delay_time_ S m) S.builder_min_delay with hc | hc
      · rcases hfold with h | h
        · left
          rw [hc, h]
        · right
          rw [hc]
          exact le_trans h (le_max_left _ _)
      · right
        rw [hc]
        exact le_trans hb (le_max_right _ _)
    · exact le_trans b1 (le_max_left _ _)
  · exact ⟨hfold, b1⟩

/-- The collective step leaves on every process the least of the local minima
and the greatest of the local maxima. -/
theorem reduce_delay_extrema_gathered
    (procs : List (DelayServices × ConnectionBuilderManager)) (i : Nat) (S : DelayServices)
    (m : ConnectionBuilderManager) (hi : procs[i]? = some (S, m))
    (hn : S.num_processes = procs.length) (hr : S.rank = i) :
    reduce_delay_extrema S ((local_windows procs).map Prod.fst)
        ((local_windows procs).map Prod.snd) (local_delay_extrema S m)
      = (min_element ((local_windows procs).map Prod.fst),
          max_element ((local_windows procs).map Prod.snd)) := by
  have hlt : i < procs.length := lt_length_of_getElem? _ _ _ hi
  have hlen1 : ((local_windows procs).map Prod.fst).length = procs.length := by
    simp [local_windows]
  have hlen2 : ((local_windows procs).map Prod.snd).length = procs.length := by
    simp [local_windows]
  have hown1 : ((local_windows procs).map Prod.fst)[i]? = some (local_delay_extrema S m).1 := by
    simp [local_windows, hi]
  have hown2 : ((local_windows procs).map Prod.snd)[i]? = some (local_delay_extrema S m).2 := by
    simp [local_windows, hi]
  unfold reduce_delay_extrema
  split
  · have e1 := communicate_gathers _ i _ hown1
    have e2 := communicate_gathers _ i _ hown2
    rw [hlen1] at e1
    rw [hlen2] at e2
    simp only [hn, hr, e1, e2]
  · next hnp =>
    have hone : procs.length = 1 := by omega
    have hi0 : i = 0 := by omega
    subst hi0
    match procs, hone, hi with
    | [q], _, hq =>
      simp only [List.getElem?_cons_zero, Option.some.injEq] at hq
      subst hq
      simp [local_windows, min_element, max_element]

/-- C28. In a run of `p >= 1` processes sharing the sentinel `P = Time::pos_inf()`
and the resolution `R < P`, process `i` being given by its services (with
`num_processes = p` and `rank = i`) and its manager state: provided every delay
checker of every process has an unset minimum (`P`) or `min <= max`, and
`builder_min_delay() <= builder_max_delay()` on every process, the window
stored by `update_delay_extrema_` is well formed: `min_delay_ <= max_delay_`,
`min_delay_` is not the sentinel (it is one resolution step when the least of
the minima is the sentinel), and `max_delay_` is at least one resolution
step. -/
theorem update_delay_extrema_well_formed
    (procs : List (DelayServices × ConnectionBuilderManager)) (i : Nat) (S : DelayServices)
    (m : ConnectionBuilderManager) (P R : delay)
    (hi : procs[i]? = some (S, m))
    (hn : S.num_processes = procs.length) (hr : S.rank = i)
    (hP : ∀ q ∈ procs, q.1.pos_inf_steps = P)
    (hR : ∀ q ∈ procs, q.1.resolution_steps = R)
    (hRP : R < P)
    (hdc : ∀ q ∈ procs, ∀ dc ∈ q.2.delay_checkers_,
      dc.min_delay_ = P ∨ dc.min_delay_ ≤ dc.max_delay_)
    (hb : ∀ q ∈ procs, q.1.builder_min_delay ≤ q.1.builder_max_delay) :
    (update_delay_extrema_ S ((local_windows procs).map Prod.fst)
        ((local_windows procs).map Prod.snd) m).min_delay_
      ≤ (update_delay_extrema_ S ((local_windows procs).map Prod.fst)
        ((local_windows procs).map Prod.snd) m).max_delay_ ∧
    (update_delay_extrema_ S ((local_windows procs).map Prod.fst)
        ((local_windows procs).map Prod.snd) m).min_delay_ ≠ P ∧
    (min_element ((local_windows procs).map Prod.fst) = P →
      (update_delay_extrema_ S ((local_windows procs).map Prod.fst)
        ((local_windows procs).map Prod.snd) m).min_delay_ = R) ∧
    R ≤ (update_delay_extrema_ S ((local_windows procs).map Prod.fst)
        ((local_windows procs).map Prod.snd) m).max_delay_ := by
  have hlt : i < procs.length := lt_length_of_getElem? _ _ _ hi
  have hne : procs ≠ [] := fun e => by simp [e] at hlt
  have hmin_ne : (local_windows procs).map Prod.fst ≠ [] := by
    simpa [local_windows] using hne
  have hmax_ne : (local_windows procs).map Prod.snd ≠ [] := by
    simpa [local_windows] using hne
  obtain ⟨hmin1, -⟩ := min_element_least _ hmin_ne
  obtain ⟨-, hmax2⟩ := max_element_greatest _ hmax_ne
  have hmemS : (S, m) ∈ procs := List.getElem?_mem hi
  have hSP : S.pos_inf_steps = P := hP (S, m) hmemS
  have hSR : S.resolution_steps = R := hR (S, m) hmemS
  have hred := reduce_delay_extrema_gathered procs i S m hi hn hr
  have hlocal : ∀ q ∈ procs,
      ((local_delay_extrema q.1 q.2).1 = P ∨
        (local_delay_extrema q.1 q.2).1 ≤ (local_delay_extrema q.1 q.2).2) ∧
      R ≤ (local_delay_extrema q.1 q.2).2 := by
    intro q hq
    have := local_delay_extrema_ok q.1 q.2
      (by
        intro dc hmem
        rw [hP q hq]
        exact hdc q hq dc hmem)
      (hb q hq)
    rw [hP q hq, hR q hq] at this
    exact this
  have hmaxR : R ≤ max_element ((local_windows procs).map Prod.snd) := by
    have hmem : (local_delay_extrema S m).2 ∈ (local_windows procs).map Prod.snd := by
      simp only [local_windows, List.map_map, List.mem_map]
      exact ⟨(S, m), hmemS, rfl⟩
    exact le_trans (hlocal (S, m) hmemS).2 (hmax2 _ hmem)
  have hminle : min_element ((local_windows procs).map Prod.fst) = P ∨
      min_element ((local_windows procs).map Prod.fst)
        ≤ max_element ((local_windows procs).map Prod.snd) := by
    simp only [local_windows, List.map_map, List.mem_map] at hmin1
    obtain ⟨q, hq, heq⟩ := hmin1
    have heq1 : (local_delay_extrema q.1 q.2).1
        = min_element ((local_windows procs).map Prod.fst) := by
      simpa [local_windows] using heq
    rcases (hlocal q hq).1 with h | h
    · left
      rw [← heq1, h]
    · right
      rw [← heq1]
      refine le_trans h (hmax2 _ ?_)
      simp only [local_windows, List.map_map, List.mem_map]
      exact ⟨q, hq, rfl⟩
  have hmin_val : (update_delay_extrema_ S ((local_windows procs).map Prod.fst)
        ((local_windows procs).map Prod.snd) m).min_delay_
      = (if min_element ((local_windows procs).map Prod.fst) = P then R
        else min_element ((local_windows procs).map Prod.fst)) := by
    simp only [update_delay_extrema_, hred, hSP, hSR]
  have hmax_val : (update_delay_extrema_ S ((local_windows procs).map Prod.fst)
        ((local_windows procs).map Prod.snd) m).max_delay_
      = max_element ((local_windows procs).map Prod.snd) := by
    simp only [update_delay_extrema_, hred]
  rw [hmin_val, hmax_val]
  refine ⟨?_, ?_, ?_, hmaxR⟩
  · split
    · exact hmaxR
    · next hneq =>
      rcases hminle with h | h
      · exact absurd h hneq
      · exact h
  · split
    · exact ne_of_lt hRP
    · next hneq => exact hneq
  · intro h
    rw [if_pos h]

/-- C28 on the example runs: on the single process whose checkers have seen no
user-set window the stored window is [1, 50]; on the run of two processes the
stored window of rank 1 is well formed as well. -/
theorem update_delay_extrema_well_formed_witness :
    (update_delay_extrema_ example_services
        ((local_windows [(example_services, example_state_unset)]).map Prod.fst)
        ((local_windows [(example_services, example_state_unset)]).map Prod.snd)
        example_state_unset).min_delay_
      ≤ (update_delay_extrema_ example_services
        ((local_windows [(example_services, example_state_unset)]).map Prod.fst)
        ((local_windows [(example_services, example_state_unset)]).map Prod.snd)
        example_state_unset).max_delay_ ∧
    (update_delay_extrema_ { example_services with num_processes := 2, rank := 1 }
        ((local_windows example_processes).map Prod.fst)
        ((local_windows example_processes).map Prod.snd) example_state_narrow).min_delay_
      ≠ 1000000 :=
  ⟨(update_delay_extrema_well_formed [(example_services, example_state_unset)] 0
      example_services example_state_unset 1000000 1 (by rfl) (by rfl) (by rfl) (by decide)
      (by decide) (by decide) (by decide) (by decide)).1,
    (update_delay_extrema_well_formed example_processes 1
      { example_services with num_processes := 2, rank := 1 } example_state_narrow 1000000 1
      (by rfl) (by rfl) (by rfl) (by decide) (by decide) (by decide) (by decide)
      (by decide)).2.1⟩

/-! ## C27: the two routing overloads -/

/-- C27, divergence. On the example network neuron 2 lives on thread 0 and node
12 is a device. Called on thread 1 with `target_thread = 0`, the overload
`connect( sgid, target, target_thread, syn, d, w )` returns without creating a
connection (the source does not live on the calling thread), while the overload
with a parameter dictionary creates the connection to the device in the shard
of thread 0. Called on thread 0 both overloads create that connection. -/
theorem connect_overloads_diverge :
    (connect (example_kernel 1) example_state 2 (example_node 12 0) 0 0 .nan .nan).result
      = .ok () ∧
    (connect (example_kernel 1) example_state 2 (example_node 12 0) 0 0 .nan .nan).state
      = example_state ∧
    get_num_connections
      (connect (example_kernel 1) example_state 2 (example_node 12 0) 0 0 .nan .nan).state = 0 ∧
    (connect_dict (example_kernel 1) example_state 2 (example_node 12 0) 0 0 [] .nan .nan).result
      = .ok () ∧
    get_num_connections
      (connect_dict (example_kernel 1) example_state 2 (example_node 12 0) 0 0 [] .nan
        .nan).state = 1 ∧
    to_device_num_connections
      (connect_dict (example_kernel 1) example_state 2 (example_node 12 0) 0 0 [] .nan
        .nan).state 0 0 = 1 ∧
    to_device_num_connections
      (connect (example_kernel 0) example_state 2 (example_node 12 0) 0 0 .nan .nan).state 0 0
      = 1 ∧
    to_device_num_connections
      (connect_dict (example_kernel 0) example_state 2 (example_node 12 0) 0 0 [] .nan
        .nan).state 0 0 = 1 ∧
    ¬ (∀ (K : Kernel) (m : ConnectionBuilderManager) (sgid : index) (target : Node)
        (target_thread : thread) (syn : index) (d w : double_t),
      get_num_connections (connect K m sgid target target_thread syn d w).state
        = get_num_connections (connect_dict K m sgid target target_thread syn [] d w).state) := by
  refine ⟨by rfl, by rfl, by decide, by rfl, by decide, by decide, by decide, by decide, ?_⟩
  intro h
  have h1 := h (example_kernel 1) example_state 2 (example_node 12 0) 0 0 .nan .nan
  revert h1
  decide

/-! ## C30: repeated identifiers in a filter -/

/-- C30, divergence. On the example network with the connections 1 to 4 (thread
0), 1 to 3 and 7 to 5 (thread 1) of synapse type 0, the query with the target
list `[3, 3]` returns the descriptor of the connection 1 to 3 twice, although
the unfiltered query holds it once: the result is not a sub-multiset of the
unfiltered result. The query with the source list `[1, 1]` returns each stored
connection of neuron 1 once; with a connection from neuron 1 to the device 12
in the Target-Device Table the same query returns that connection twice. -/
theorem get_connections_repeated_filter :
    (get_connections_syn (example_kernel 0) example_query example_state_three [] none none 0
      (-1)).connectome
      = [⟨1, 4, 0, 0, 0⟩, ⟨1, 3, 1, 0, 0⟩, ⟨7, 5, 1, 0, 1⟩] ∧
    (get_connections_syn (example_kernel 0) example_query example_state_three [] none
      (some [3]) 0 (-1)).connectome = [⟨1, 3, 1, 0, 0⟩] ∧
    (get_connections_syn (example_kernel 0) example_query example_state_three [] none
      (some [3, 3]) 0 (-1)).connectome = [⟨1, 3, 1, 0, 0⟩, ⟨1, 3, 1, 0, 0⟩] ∧
    ¬ List.Subperm
      (get_connections_syn (example_kernel 0) example_query example_state_three [] none
        (some [3, 3]) 0 (-1)).connectome
      (get_connections_syn (example_kernel 0) example_query example_state_three [] none none 0
        (-1)).connectome ∧
    (get_connections_syn (example_kernel 0) example_query example_state_three []
      (some [1, 1]) none 0 (-1)).connectome = [⟨1, 4, 0, 0, 0⟩, ⟨1, 3, 1, 0, 0⟩] ∧
    (get_connections_syn (example_kernel 0) example_query example_state_device [] none none 0
      (-1)).connectome
      = [⟨1, 4, 0, 0, 0⟩, ⟨1, 3, 1, 0, 0⟩, ⟨7, 5, 1, 0, 1⟩, ⟨1, 12, 1, 0, 0⟩] ∧
    (get_connections_syn (example_kernel 0) example_query example_state_device []
      (some [1, 1]) none 0 (-1)).connectome
      = [⟨1, 4, 0, 0, 0⟩, ⟨1, 3, 1, 0, 0⟩, ⟨1, 12, 1, 0, 0⟩, ⟨1, 12, 1, 0, 0⟩] ∧
    ¬ List.Subperm
      (get_connections_syn (example_kernel 0) example_query example_state_device []
        (some [1, 1]) none 0 (-1)).connectome
      (get_connections_syn (example_kernel 0) example_query example_state_device [] none none 0
        (-1)).connectome := by
  have h1 : (get_connections_syn (example_kernel 0) example_query example_state_three [] none
      none 0 (-1)).connectome
      = [⟨1, 4, 0, 0, 0⟩, ⟨1, 3, 1, 0, 0⟩, ⟨7, 5, 1, 0, 1⟩] := by rfl
  have h2 : (get_connections_syn (example_kernel 0) example_query example_state_three [] none
      (some [3, 3]) 0 (-1)).connectome = [⟨1, 3, 1, 0, 0⟩, ⟨1, 3, 1, 0, 0⟩] := by rfl
  have h3 : (get_connections_syn (example_kernel 0) example_query example_state_device [] none
      none 0 (-1)).connectome
      = [⟨1, 4, 0, 0, 0⟩, ⟨1, 3, 1, 0, 0⟩, ⟨7, 5, 1, 0, 1⟩, ⟨1, 12, 1, 0, 0⟩] := by rfl
  have h4 : (get_connections_syn (example_kernel 0) example_query example_state_device []
      (some [1, 1]) none 0 (-1)).connectome
      = [⟨1, 4, 0, 0, 0⟩, ⟨1, 3, 1, 0, 0⟩, ⟨1, 12, 1, 0, 0⟩, ⟨1, 12, 1, 0, 0⟩] := by rfl
  refine ⟨h1, by rfl, h2, ?_, by rfl, h3, h4, ?_⟩
  · rw [h1, h2]
    intro hs
    have := hs.count_le (⟨1, 3, 1, 0, 0⟩ : ConnectionDatum)
    revert this
    decide
  · rw [h3, h4]
    intro hs
    have := hs.count_le (⟨1, 12, 1, 0, 0⟩ : ConnectionDatum)
    revert this
    decide

end Nest
